import Mathlib

/-!
Entity simulation and collision core of `src/game.cpp`.

A shallow embedding of the per-frame `update`, `checkCollision`,
`collisionResponse` and `handleKeyInput` functions of the platformer and of the
level factory `createTiles`, followed by proofs about the bullet pool, the
bullet life cycle, collision responses, the grounded sensor, the speed clamp,
the level factory and the player designation.

Conventions of the embedding:

* C++ `float` values are modelled by exact rationals (`ℚ`); rounding is not
  modelled. A result is stated as the expression the code evaluates, in the
  order the code evaluates it.
* A `GameObject &` parameter that aliases a slot of the game state is modelled
  by an `ObjRef` naming that slot: `update` reads the object, runs the body on
  a local copy and stores the copy back. This is exact whenever the slot is not
  written otherwise during the call, which holds for every slot of the two
  layers and for every slot of the bullet list that holds a bullet.
* The global `running` flag is carried as a field of `GameState`.
* `headers/gameobject.h` and the SDL library are not among the sources; the
  types and functions taken from them are marked as such.
-/

namespace Platformer

/-! ## Data model -/

/-- Two-component vector `glm::vec2`. -/
structure Vec2 where
  x : ℚ
  y : ℚ
deriving DecidableEq, Repr

/-- Rectangle `SDL_FRect` of the SDL library: origin and size. -/
structure SDL_FRect where
  x : ℚ
  y : ℚ
  w : ℚ
  h : ℚ
deriving DecidableEq, Repr

/-- Texture handle `SDL_Texture *`: an opaque identifier together with the pixel
size the code reads through `->w` and `->h`. -/
structure Texture where
  id : Nat
  w : Int
  h : Int
deriving DecidableEq, Repr

/-- Keys the simulation looks at (`SDL_Scancode`); every other key is `other`. -/
inductive SDL_Scancode where
  | A | D | J | K | F12 | other
deriving DecidableEq, Repr

/-- Modelled from the spec: class `Timer` of headers/gameobject.h (section 4.1):
a configured duration and the elapsed time. -/
structure Timer where
  length : ℚ
  time : ℚ
deriving DecidableEq, Repr

/-- Modelled from the spec: `Timer::step` of headers/gameobject.h: advances the
elapsed time by `dt`; the flag is true exactly when the elapsed time crosses the
configured duration on this call. -/
def Timer.step (t : Timer) (dt : ℚ) : Timer × Bool :=
  ({ t with time := t.time + dt },
    decide (t.time < t.length) && decide (t.length ≤ t.time + dt))

/-- Modelled from the spec: `Timer::isTimeOut` of headers/gameobject.h: queries
the crossing without advancing. -/
def Timer.isTimeOut (t : Timer) : Bool := decide (t.length ≤ t.time)

/-- Modelled from the spec: `Timer::reset` of headers/gameobject.h: zeroes the
elapsed time. -/
def Timer.reset (t : Timer) : Timer := { t with time := 0 }

/-- Modelled from the spec: class `Animation` of headers/gameobject.h (section
4.2): frame count, cycle duration, the clock inside the cycle, and whether a
play has run to its end. -/
structure Animation where
  frameCount : Int
  duration : ℚ
  clock : ℚ
  done : Bool
deriving DecidableEq, Repr

/-- Modelled from the spec: `Animation::step` of headers/gameobject.h: advances
the clock modulo the cycle duration; a completed cycle marks the play done. -/
def Animation.step (a : Animation) (dt : ℚ) : Animation :=
  let t := a.clock + dt
  if a.duration ≤ t then
    { a with clock := t - a.duration * ((Rat.floor (t / a.duration) : Int) : ℚ), done := true }
  else
    { a with clock := t }

/-- Modelled from the spec: `Animation::isDone` of headers/gameobject.h. -/
def Animation.isDone (a : Animation) : Bool := a.done

/-- Modelled from the spec: `Animation::currentFrame` of headers/gameobject.h:
`floor(clock / (D / N))`. -/
def Animation.currentFrame (a : Animation) : Int :=
  Rat.floor (a.clock / (a.duration / (a.frameCount : ℚ)))

/-- Modelled from the spec: `enum class PlayerState` of headers/gameobject.h. -/
inductive PlayerState where
  | idle | running | jumping | dead
deriving DecidableEq, Repr

/-- Modelled from the spec: `enum class EnemyState` of headers/gameobject.h. -/
inductive EnemyState where
  | idle | damaged | dead
deriving DecidableEq, Repr

/-- Modelled from the spec: `enum class BulletState` of headers/gameobject.h. -/
inductive BulletState where
  | moving | colliding | inactive
deriving DecidableEq, Repr

/-- Modelled from the spec: `enum class ObjectType` of headers/gameobject.h. -/
inductive ObjectType where
  | level | player | enemy | bullet
deriving DecidableEq, Repr

/-- Modelled from the spec: `struct PlayerData` of headers/gameobject.h. -/
structure PlayerData where
  state : PlayerState
  healthPoints : Int
  weaponTimer : Timer
  deathTimer : Timer
deriving DecidableEq, Repr

/-- Modelled from the spec: `struct EnemyData` of headers/gameobject.h. -/
structure EnemyData where
  state : EnemyState
  healthPoints : Int
  damagedTimer : Timer
deriving DecidableEq, Repr

/-- Modelled from the spec: `struct BulletData` of headers/gameobject.h. -/
structure BulletData where
  state : BulletState
deriving DecidableEq, Repr

/-- Modelled from the spec: the type tag and payload of `GameObject`
(headers/gameobject.h, section 3): the tag selects exactly one of the four
payload variants, so tag and payload are one value here. -/
inductive ObjectData where
  | level
  | player (d : PlayerData)
  | enemy (d : EnemyData)
  | bullet (d : BulletData)
deriving DecidableEq, Repr

/-- Modelled from the spec: `struct GameObject` of headers/gameobject.h (section
3), with the fields `src/game.cpp` reads and writes. -/
structure GameObject where
  data : ObjectData
  pos : Vec2
  vel : Vec2
  acc : Vec2
  dir : ℚ
  collider : SDL_FRect
  texture : Option Texture
  animations : List Animation
  curAnimation : Int
  spriteFrame : Int
  dynamic : Bool
  grounded : Bool
  shouldFlash : Bool
  flashTimer : Timer
  maxSpeedX : ℚ
deriving DecidableEq, Repr

/-- The type tag `obj.type`. -/
def GameObject.type (o : GameObject) : ObjectType :=
  match o.data with
  | .level => .level
  | .player _ => .player
  | .enemy _ => .enemy
  | .bullet _ => .bullet

/-- The fields of `SDLState` the simulation reads: the logical size and the
held-key snapshot `keys`. -/
structure SDLState where
  logW : Int
  logH : Int
  keys : SDL_Scancode → Bool

def ANIM_PLAYER_IDLE : Int := 0
def ANIM_PLAYER_RUN : Int := 1
def ANIM_PLAYER_SLIDE : Int := 2
def ANIM_PLAYER_SHOOT : Int := 3
def ANIM_PLAYER_JUMP : Int := 4
def ANIM_PLAYER_DIE : Int := 5
def ANIM_BULLET_MOVING : Int := 0
def ANIM_BULLET_HIT : Int := 1
def ANIM_ENEMY : Int := 0
def ANIM_ENEMY_DEAD : Int := 1

/-- The loaded `Resources`: animation sets and texture handles. -/
structure Resources where
  playerAnims : List Animation
  bulletAnims : List Animation
  enemyAnims : List Animation
  texIdle : Texture
  texRun : Texture
  texJump : Texture
  texSlide : Texture
  texShoot : Texture
  texDie : Texture
  texGrass : Texture
  texStone : Texture
  texBrick : Texture
  texFence : Texture
  texBush : Texture
  texBullet : Texture
  texBulletHit : Texture
  texSpiny : Texture
  texSpinyDead : Texture

/-- Modelled from the spec: the default constructors `GameObject()`,
`PlayerData()`, `EnemyData()` and `BulletData()` of headers/gameobject.h. The
spec does not give the initial field values, so the constructed values are
parameters of the embedding. -/
structure Ctors where
  gameObject : GameObject
  playerData : PlayerData
  enemyData : EnemyData
  bulletData : BulletData

def TILE_SIZE : Int := 32
def MAP_ROWS : Int := 5
def MAP_COLS : Int := 50

/-- The `GameState` record: `level` is `layers[LAYER_IDX_LEVEL]`, `characters`
is `layers[LAYER_IDX_CHARACTERS]`; `running` is the global keep-running flag of
the source file. -/
structure GameState where
  level : List GameObject
  characters : List GameObject
  bgTiles : List GameObject
  fgTiles : List GameObject
  bullets : List GameObject
  playerIndex : Int
  mapViewport : SDL_FRect
  bg2Scroll : ℚ
  bg3Scroll : ℚ
  bg4Scroll : ℚ
  debugMode : Bool
  running : Bool
deriving DecidableEq

/-- A slot of the game state that a `GameObject &` argument of `update` can
alias: an index into one of the two layers or into the bullet list. -/
inductive ObjRef where
  | level (i : Nat)
  | character (i : Nat)
  | bullet (i : Nat)
deriving DecidableEq, Repr

/-- Read the object stored in a slot. -/
def GameState.get (gs : GameState) : ObjRef → Option GameObject
  | .level i => gs.level[i]?
  | .character i => gs.characters[i]?
  | .bullet i => gs.bullets[i]?

/-- Store an object into a slot (no effect on an index outside the list). -/
def GameState.set (gs : GameState) (r : ObjRef) (o : GameObject) : GameState :=
  match r with
  | .level i => { gs with level := gs.level.set i o }
  | .character i => { gs with characters := gs.characters.set i o }
  | .bullet i => { gs with bullets := gs.bullets.set i o }

/-- The accessor `GameState::player()`, `layers[LAYER_IDX_CHARACTERS][playerIndex]`;
`none` where the index is outside the roster (undefined behaviour in the source). -/
def GameState.player (gs : GameState) : Option GameObject :=
  if 0 ≤ gs.playerIndex then gs.characters[gs.playerIndex.toNat]? else none

/-! ## Rectangles -/

/-- Library function `SDL_RectEmptyFloat` of SDL3: a float rectangle is empty
when its width or height is negative. -/
def SDL_RectEmptyFloat (r : SDL_FRect) : Bool :=
  decide (r.w < 0) || decide (r.h < 0)

/-- Library function `SDL_GetRectIntersectionFloat` of SDL3: the flag tells
whether the rectangles intersect; the rectangle is the value left in `result`,
which the callers initialise to zero. -/
def SDL_GetRectIntersectionFloat (A B : SDL_FRect) : Bool × SDL_FRect :=
  if SDL_RectEmptyFloat A || SDL_RectEmptyFloat B then
    (false, { x := 0, y := 0, w := 0, h := 0 })
  else
    let xmin := if B.x > A.x then B.x else A.x
    let xmax := if B.x + B.w < A.x + A.w then B.x + B.w else A.x + A.w
    let ymin := if B.y > A.y then B.y else A.y
    let ymax := if B.y + B.h < A.y + A.h then B.y + B.h else A.y + A.h
    let result : SDL_FRect := { x := xmin, y := ymin, w := xmax - xmin, h := ymax - ymin }
    (!SDL_RectEmptyFloat result, result)

/-- The collider rectangle in world coordinates, `rectA` / `rectB` of
`checkCollision`. -/
def colliderRect (o : GameObject) : SDL_FRect :=
  { x := o.pos.x + o.collider.x, y := o.pos.y + o.collider.y,
    w := o.collider.w, h := o.collider.h }

/-- The grounded sensor of `update`: one pixel tall, directly below the collider. -/
def sensorRect (o : GameObject) : SDL_FRect :=
  { x := o.pos.x + o.collider.x, y := o.pos.y + o.collider.y + o.collider.h,
    w := o.collider.w, h := 1 }

/-! ## Collision response -/

/-- The lambda `genericResponse` of `collisionResponse`, acting on `a`. -/
def genericResponse (rectC : SDL_FRect) (a : GameObject) : GameObject :=
  if rectC.w < rectC.h then
    let a1 : GameObject :=
      if a.vel.x > 0 then { a with pos := { a.pos with x := a.pos.x - rectC.w } }
      else if a.vel.x < 0 then { a with pos := { a.pos with x := a.pos.x + rectC.w } }
      else a
    if a1.type = .enemy then
      { a1 with vel := { a1.vel with x := -a1.vel.x }, dir := -a1.dir }
    else
      { a1 with vel := { a1.vel with x := 0 } }
  else
    let a1 : GameObject :=
      if a.vel.y > 0 then { a with pos := { a.pos with y := a.pos.y - rectC.h } }
      else if a.vel.y < 0 then { a with pos := { a.pos with y := a.pos.y + rectC.h } }
      else a
    { a1 with vel := { a1.vel with y := 0 } }

/-- The damage a moving bullet `a` deals to the live enemy `b` with payload `d`
(the `ObjectType::enemy` case of the bullet branch of `collisionResponse`). -/
def damageEnemy (res : Resources) (a b : GameObject) (d : EnemyData) : GameObject :=
  let b1 : GameObject :=
    if b.dir = a.dir then { b with dir := -a.dir, vel := { b.vel with x := -b.vel.x } } else b
  let b2 : GameObject := { b1 with shouldFlash := true, flashTimer := b1.flashTimer.reset }
  let d1 : EnemyData := { d with state := .damaged, healthPoints := d.healthPoints - 1 }
  let b3 : GameObject :=
    if d1.healthPoints ≤ 0 then
      { b2 with data := .enemy { d1 with state := .dead },
                texture := some res.texSpinyDead,
                curAnimation := ANIM_ENEMY_DEAD,
                pos := { b2.pos with y := b2.pos.y + (-10) } }
    else
      { b2 with data := .enemy d1 }
  { b3 with vel := { b3.vel with x := b3.vel.x + 25 * b3.dir } }

/-- The impact finalisation of a moving bullet: push-out, zero velocity, state
`colliding`, impact sprite and collider. -/
def bulletImpact (res : Resources) (rectC : SDL_FRect) (a : GameObject) : GameObject :=
  let a1 := genericResponse rectC a
  { a1 with vel := { x := a1.vel.x * 0, y := a1.vel.y * 0 },
            data := .bullet { state := .colliding },
            texture := some res.texBulletHit,
            curAnimation := ANIM_BULLET_HIT,
            collider := { x := 0, y := 0, w := (res.texBulletHit.h : ℚ),
                          h := (res.texBulletHit.h : ℚ) } }

/-- The function `collisionResponse(state, gs, res, rectA, rectB, rectC, a, b,
deltaTime)`: the new values of `a` and `b`. Only `res`, `rectC`, `a` and `b`
are read by the source. -/
def collisionResponse (res : Resources) (rectC : SDL_FRect) (a b : GameObject) :
    GameObject × GameObject :=
  match a.data with
  | .player pd =>
    if pd.state ≠ .dead then
      match b.type with
      | .level => (genericResponse rectC a, b)
      | .enemy =>
        let d : PlayerData := { pd with healthPoints := pd.healthPoints - 1 }
        if d.healthPoints ≤ 0 then
          ({ a with data := .player { d with state := .dead },
                    texture := some res.texDie,
                    curAnimation := ANIM_PLAYER_DIE,
                    vel := { x := 0, y := -350 } }, b)
        else
          ({ a with data := .player d }, b)
      | _ => (a, b)
    else (a, b)
  | .bullet bd =>
    match bd.state with
    | .moving =>
      let r : GameObject × Bool :=
        match b.data with
        | .enemy d => if d.state ≠ .dead then (damageEnemy res a b d, false) else (b, true)
        | _ => (b, false)
      if r.1.type ≠ .player ∧ r.2 = false then (bulletImpact res rectC a, r.1) else (a, r.1)
    | _ => (a, b)
  | .enemy ed =>
    match b.data with
    | .level =>
      -- a dead enemy falls through to the enemy case, whose test then fails on `a`
      if ed.state ≠ .dead then (genericResponse rectC a, b) else (a, b)
    | .enemy bd =>
      if ed.state ≠ .dead ∧ bd.state ≠ .dead then (genericResponse rectC a, b) else (a, b)
    | _ => (a, b)
  | .level => (a, b)

/-- The function `checkCollision`: intersect the two collider rectangles and
respond when they intersect. -/
def checkCollision (res : Resources) (a b : GameObject) : GameObject × GameObject :=
  let r := SDL_GetRectIntersectionFloat (colliderRect a) (colliderRect b)
  if r.1 then collisionResponse res r.2 a b else (a, b)

/-! ## Key input -/

/-- The function `handleKeyInput(state, gs, obj, key, keyDown)`: the new value of
`obj`. -/
def handleKeyInput (obj : GameObject) (key : SDL_Scancode) (keyDown : Bool) : GameObject :=
  match obj.data with
  | .player d =>
    match d.state with
    | .idle =>
      if key = .K ∧ keyDown = true then
        { obj with data := .player { d with state := .jumping },
                   vel := { obj.vel with y := obj.vel.y + (-350) } }
      else obj
    | .running =>
      if key = .K ∧ keyDown = true then
        { obj with data := .player { d with state := .jumping },
                   vel := { obj.vel with y := obj.vel.y + (-350) } }
      else obj
    | _ => obj
  | _ => obj

/-! ## The per-entity update -/

/-- Whether `animations[curAnimation].isDone()` holds; an index outside the
animation set (undefined behaviour in the source) reads as not done. -/
def animationDone (obj : GameObject) : Bool :=
  if 0 ≤ obj.curAnimation then
    match obj.animations[obj.curAnimation.toNat]? with
    | some a => a.isDone
    | none => false
  else false

/-- First statement of `update`: step the active animation unless
`curAnimation` is `-1`. -/
def stepAnimation (obj : GameObject) (dt : ℚ) : GameObject :=
  if obj.curAnimation ≠ -1 ∧ 0 ≤ obj.curAnimation then
    match obj.animations[obj.curAnimation.toNat]? with
    | some a => { obj with animations := obj.animations.set obj.curAnimation.toNat (a.step dt) }
    | none => obj
  else obj

/-- Gravity: `obj.vel += glm::vec2(0, 700) * deltaTime` when dynamic and not
grounded. -/
def applyGravity (obj : GameObject) (dt : ℚ) : GameObject :=
  if obj.dynamic = true ∧ obj.grounded = false then
    { obj with vel := { x := obj.vel.x + 0 * dt, y := obj.vel.y + 700 * dt } }
  else obj

/-- The test `gs.bullets[i].data.bullet.state == BulletState::inactive`. The
bullet list of the source only ever receives bullets; a slot holding another
kind of object reads as not inactive. -/
def isInactive (o : GameObject) : Bool :=
  match o.data with
  | .bullet d => decide (d.state = .inactive)
  | _ => false

/-- The reuse loop of `handleShooting`: overwrite the first inactive slot with
`bullet`; the flag is `foundInactive`. -/
def reuseInactive (bullet : GameObject) : List GameObject → List GameObject × Bool
  | [] => ([], false)
  | b :: bs =>
    if isInactive b then (bullet :: bs, true)
    else ((reuseInactive bullet bs).1.cons b, (reuseInactive bullet bs).2)

/-- Store a new bullet: reuse the first inactive slot, otherwise `push_back`. -/
def storeBullet (bullet : GameObject) (bullets : List GameObject) : List GameObject :=
  let r := reuseInactive bullet bullets
  if r.2 = false then r.1 ++ [bullet] else r.1

/-- The bullet built by `handleShooting` for the shooting object `obj`;
`playerDir` is `gs.player().dir` and `rnd` the value returned by
`SDL_rand(yVariation)`. -/
def newBullet (res : Resources) (ctors : Ctors) (rnd : Int) (playerDir : ℚ)
    (obj : GameObject) : GameObject :=
  let left : ℚ := 0
  let right : ℚ := 24
  let t : ℚ := (obj.dir + 1) / 2
  let xOffset : ℚ := left + right * t
  let yVariation : ℚ := 40
  let yVelocity : ℚ := (rnd : ℚ) - yVariation / 2
  { ctors.gameObject with
      data := .bullet ctors.bulletData,
      dir := playerDir,
      texture := some res.texBullet,
      curAnimation := ANIM_BULLET_MOVING,
      collider := { x := 0, y := 0, w := (res.texBullet.h : ℚ), h := (res.texBullet.h : ℚ) },
      vel := { x := obj.vel.x + 300 * obj.dir, y := yVelocity },
      maxSpeedX := 1000,
      animations := res.bulletAnims,
      pos := { x := obj.pos.x + xOffset, y := obj.pos.y + ((TILE_SIZE / 2 + 1 : Int) : ℚ) } }

/-- The facing read through `gs.player()` while `obj`, the current value of the
object being updated, lives in slot `ref`; where `playerIndex` is outside the
roster (undefined behaviour in the source) the facing of `obj` is read. -/
def playerDir (gs : GameState) (ref : ObjRef) (obj : GameObject) : ℚ :=
  match (gs.set ref obj).player with
  | some p => p.dir
  | none => obj.dir

/-- The lambda `handleShooting` of `update`: the updated shooter and the new
bullet list. -/
def handleShooting (state : SDLState) (res : Resources) (ctors : Ctors) (rnd : Int)
    (gs : GameState) (ref : ObjRef) (obj : GameObject) : GameObject × List GameObject :=
  match obj.data with
  | .player d =>
    if state.keys .J = true then
      if d.weaponTimer.isTimeOut = true then
        let obj1 : GameObject := { obj with data := .player { d with weaponTimer := d.weaponTimer.reset } }
        (obj1, storeBullet (newBullet res ctors rnd (playerDir gs ref obj1) obj1) gs.bullets)
      else (obj, gs.bullets)
    else (obj, gs.bullets)
  | _ => (obj, gs.bullets)

/-- Assignment `obj.data.player.state = s`. -/
def setPlayerState (obj : GameObject) (s : PlayerState) : GameObject :=
  match obj.data with
  | .player d => { obj with data := .player { d with state := s } }
  | _ => obj

/-- The slow-down of an idle player without input (the `else` branch of the
`PlayerState::idle` case). -/
def idleSlowDown (obj : GameObject) (dt : ℚ) : GameObject :=
  if obj.vel.x ≠ 0 then
    let factor : ℚ := if obj.vel.x > 0 then -(3 / 2) else 3 / 2
    let amount : ℚ := factor * obj.acc.x * dt
    if |obj.vel.x| < |amount| then { obj with vel := { obj.vel with x := 0 } }
    else { obj with vel := { obj.vel with x := obj.vel.x + amount } }
  else obj

/-- The direction sampled from the held keys: `A` adds `-1`, `D` adds `1`. -/
def inputDirection (state : SDLState) : ℚ :=
  let c0 : ℚ := 0
  let c1 : ℚ := if state.keys .A = true then c0 + (-1) else c0
  if state.keys .D = true then c1 + 1 else c1

/-- The `switch (obj.data.player.state)` of a live player, for the state `s`
read at the switch and the sampled direction. -/
def playerStateStep (state : SDLState) (res : Resources) (ctors : Ctors) (rnd : Int)
    (gs : GameState) (ref : ObjRef) (obj : GameObject) (s : PlayerState)
    (currentDirection dt : ℚ) : GameObject × List GameObject :=
  match s with
  | .idle =>
    let obj1 := if currentDirection ≠ 0 then setPlayerState obj .running else idleSlowDown obj dt
    let r := handleShooting state res ctors rnd gs ref obj1
    ({ r.1 with texture := some res.texIdle, curAnimation := ANIM_PLAYER_IDLE }, r.2)
  | .running =>
    let obj1 := if currentDirection = 0 then setPlayerState obj .idle else obj
    let r := handleShooting state res ctors rnd gs ref obj1
    if r.1.vel.x * r.1.dir < 0 ∧ r.1.grounded = true then
      ({ r.1 with texture := some res.texSlide, curAnimation := ANIM_PLAYER_SLIDE }, r.2)
    else
      ({ r.1 with texture := some res.texRun, curAnimation := ANIM_PLAYER_RUN }, r.2)
  | .jumping =>
    let r := handleShooting state res ctors rnd gs ref obj
    ({ r.1 with texture := some res.texJump, curAnimation := ANIM_PLAYER_JUMP }, r.2)
  | .dead => (obj, gs.bullets)

/-- Result of the type dispatch of `update`: the object, the input direction,
the bullet list and the keep-running flag. -/
structure Dispatch where
  obj : GameObject
  currentDirection : ℚ
  bullets : List GameObject
  running : Bool

/-- The player branch of the type dispatch, for the payload `d` of `obj`. -/
def updatePlayer (state : SDLState) (res : Resources) (ctors : Ctors) (rnd : Int)
    (gs : GameState) (ref : ObjRef) (obj : GameObject) (d : PlayerData) (dt : ℚ) : Dispatch :=
  if d.state ≠ .dead then
    let currentDirection := inputDirection state
    let obj1 : GameObject :=
      { obj with data := .player { d with weaponTimer := (d.weaponTimer.step dt).1 } }
    let r := playerStateStep state res ctors rnd gs ref obj1 d.state currentDirection dt
    let obj2 : GameObject :=
      if r.1.pos.y - gs.mapViewport.y > (state.logH : ℚ) then
        let o := setPlayerState r.1 .dead
        { o with vel := { o.vel with x := 0 } }
      else r.1
    { obj := obj2, currentDirection := currentDirection, bullets := r.2, running := gs.running }
  else
    let deathTimer := (d.deathTimer.step dt).1
    { obj := { obj with data := .player { d with deathTimer := deathTimer } },
      currentDirection := 0,
      bullets := gs.bullets,
      running := if deathTimer.isTimeOut = true then false else gs.running }

/-- The bullet branch of the type dispatch, for the payload `d` of `obj`. -/
def updateBullet (state : SDLState) (gs : GameState) (obj : GameObject) (d : BulletData) :
    GameObject :=
  match d.state with
  | .moving =>
    if obj.pos.x - gs.mapViewport.x < 0 ∨
       obj.pos.x - gs.mapViewport.x > (state.logW : ℚ) ∨
       obj.pos.y - gs.mapViewport.y < 0 ∨
       obj.pos.y - gs.mapViewport.y > (state.logH : ℚ) then
      { obj with data := .bullet { d with state := .inactive } }
    else obj
  | .colliding =>
    if animationDone obj = true then { obj with data := .bullet { d with state := .inactive } }
    else obj
  | .inactive => obj

/-- The enemy branch of the type dispatch, for the payload `d` of `obj`. -/
def updateEnemy (obj : GameObject) (d : EnemyData) (dt : ℚ) : GameObject :=
  match d.state with
  | .idle => obj
  | .damaged => { obj with data := .enemy { d with damagedTimer := (d.damagedTimer.step dt).1 } }
  | .dead =>
    let obj1 : GameObject := { obj with vel := { obj.vel with x := 0 } }
    if obj1.curAnimation ≠ -1 ∧ animationDone obj1 = true then
      { obj1 with curAnimation := -1, spriteFrame := 1 }
    else obj1

/-- The type dispatch of `update` (`if (obj.type == ObjectType::player) ... else
if bullet ... else if enemy`). -/
def dispatch (state : SDLState) (res : Resources) (ctors : Ctors) (rnd : Int)
    (gs : GameState) (ref : ObjRef) (obj : GameObject) (dt : ℚ) : Dispatch :=
  match obj.data with
  | .player d => updatePlayer state res ctors rnd gs ref obj d dt
  | .bullet d =>
    { obj := updateBullet state gs obj d, currentDirection := 0,
      bullets := gs.bullets, running := gs.running }
  | .enemy d =>
    { obj := updateEnemy obj d dt, currentDirection := 0,
      bullets := gs.bullets, running := gs.running }
  | .level =>
    { obj := obj, currentDirection := 0, bullets := gs.bullets, running := gs.running }

/-- The velocity step: facing, acceleration and the horizontal speed clamp. -/
def velocityStep (obj : GameObject) (currentDirection dt : ℚ) : GameObject :=
  let obj1 : GameObject := if currentDirection ≠ 0 then { obj with dir := currentDirection } else obj
  let obj2 : GameObject :=
    { obj1 with vel := { x := obj1.vel.x + currentDirection * obj1.acc.x * dt,
                         y := obj1.vel.y + currentDirection * obj1.acc.y * dt } }
  if |obj2.vel.x| > obj2.maxSpeedX then
    { obj2 with vel := { obj2.vel with x := currentDirection * obj2.maxSpeedX } }
  else obj2

/-- The position step `obj.pos += obj.vel * deltaTime`. -/
def positionStep (obj : GameObject) (dt : ℚ) : GameObject :=
  { obj with pos := { x := obj.pos.x + obj.vel.x * dt, y := obj.pos.y + obj.vel.y * dt } }

/-- Result of scanning a layer in the collision pass of `update`. -/
structure Scan where
  obj : GameObject
  foundGround : Bool
  layer : List GameObject

/-- The body of the inner collision loop for one `objB` other than `obj`: the
collision check, then the grounded sensor against a level tile. -/
def collideWith (res : Resources) (obj : GameObject) (foundGround : Bool) (objB : GameObject) :
    GameObject × Bool × GameObject :=
  let r := checkCollision res obj objB
  let hit : Bool :=
    decide (r.2.type = .level) &&
      (SDL_GetRectIntersectionFloat (sensorRect r.1) (colliderRect r.2)).1
  (r.1, foundGround || hit, r.2)

/-- The inner collision loop over one layer, from index `j` on; `self` is the
index of `obj` in this layer when it lives there (the test `&obj != &objB`). -/
def scanLayer (res : Resources) (self : Option Nat) :
    Nat → GameObject → Bool → List GameObject → Scan
  | _, obj, fg, [] => { obj := obj, foundGround := fg, layer := [] }
  | j, obj, fg, objB :: rest =>
    if self = some j then
      let s := scanLayer res self (j + 1) obj fg rest
      { s with layer := objB :: s.layer }
    else
      let r := collideWith res obj fg objB
      let s := scanLayer res self (j + 1) r.1 r.2.1 rest
      { s with layer := r.2.2 :: s.layer }

/-- The index of the updated object inside the level layer, if it lives there. -/
def ObjRef.inLevel : ObjRef → Option Nat
  | .level i => some i
  | _ => none

/-- The index of the updated object inside the character layer, if it lives there. -/
def ObjRef.inCharacters : ObjRef → Option Nat
  | .character i => some i
  | _ => none

/-- The last block of `update`: store a changed grounded flag; a live player
that lands switches to `running`. -/
def landing (obj : GameObject) (foundGround : Bool) : GameObject :=
  if obj.grounded ≠ foundGround then
    let obj1 : GameObject := { obj with grounded := foundGround }
    match obj1.data with
    | .player d =>
      if foundGround = true ∧ d.state ≠ .dead then
        { obj1 with data := .player { d with state := .running } }
      else obj1
    | _ => obj1
  else obj

/-- The part of `update` before the collision pass, for the object value `obj0`
read from slot `ref`: animation, gravity, type dispatch, velocity and position
step. -/
def prePass (state : SDLState) (res : Resources) (ctors : Ctors) (rnd : Int)
    (gs : GameState) (ref : ObjRef) (obj0 : GameObject) (dt : ℚ) : Dispatch :=
  let obj1 := applyGravity (stepAnimation obj0 dt) dt
  let d := dispatch state res ctors rnd gs ref obj1 dt
  { d with obj := positionStep (velocityStep d.obj d.currentDirection dt) dt }

/-- Result of the collision pass of `update`: the object, the `foundGround`
flag and the two layers. -/
structure Pass where
  obj : GameObject
  foundGround : Bool
  level : List GameObject
  characters : List GameObject

/-- The collision pass of `update` (`for (auto &layer : gs.layers)`): the level
layer first, then the character layer. -/
def collisionPass (res : Resources) (gs : GameState) (ref : ObjRef) (obj : GameObject) : Pass :=
  let s0 := scanLayer res ref.inLevel 0 obj false gs.level
  let s1 := scanLayer res ref.inCharacters 0 s0.obj s0.foundGround gs.characters
  { obj := s1.obj, foundGround := s1.foundGround, level := s0.layer, characters := s1.layer }

/-- The function `update(state, gs, res, obj, deltaTime)` for the object stored
in slot `ref`: the new game state. `rnd` is the value `SDL_rand` returns when a
bullet is spawned. A `ref` that names no slot leaves the state unchanged. -/
def update (state : SDLState) (res : Resources) (ctors : Ctors) (rnd : Int)
    (gs : GameState) (ref : ObjRef) (dt : ℚ) : GameState :=
  match gs.get ref with
  | none => gs
  | some obj0 =>
    let d := prePass state res ctors rnd gs ref obj0 dt
    let p := collisionPass res gs ref d.obj
    ({ gs with level := p.level, characters := p.characters, bullets := d.bullets,
               running := d.running }).set ref (landing p.obj p.foundGround)

/-! ## Definitions used to state the properties -/

/-- The entities of both layers other than the one stored in slot `ref`, in the
order the collision pass of `update` visits them. -/
def GameState.others (gs : GameState) (ref : ObjRef) : List GameObject :=
  (match ref.inLevel with
    | some i => gs.level.eraseIdx i
    | none => gs.level) ++
  (match ref.inCharacters with
    | some i => gs.characters.eraseIdx i
    | none => gs.characters)

/-- Whether the grounded sensor of `o` intersects the collider rectangle of the
level-type entity `b`. -/
def sensorHits (o b : GameObject) : Bool :=
  decide (b.type = .level) && (SDL_GetRectIntersectionFloat (sensorRect o) (colliderRect b)).1

/-- Whether the grounded sensor of `o` intersects the collider rectangle of some
level-type entity of `others`. -/
def sensorTouchesLevel (o : GameObject) (others : List GameObject) : Bool :=
  others.any (sensorHits o)

/-- The collision checks of a pass over `others`, starting from `obj`: each
entity checked, paired with the value of `obj` right after the check against it. -/
def checkTrace (res : Resources) : GameObject → List GameObject → List (GameObject × GameObject)
  | _, [] => []
  | obj, b :: bs =>
    ((checkCollision res obj b).1, b) :: checkTrace res (checkCollision res obj b).1 bs

/-- The value of `obj` after the collision checks of a pass over `others`. -/
def passEnd (res : Resources) : GameObject → List GameObject → GameObject
  | obj, [] => obj
  | obj, b :: bs => passEnd res (checkCollision res obj b).1 bs

/-- The bullet state of an object, if it is a bullet. -/
def bulletState (o : GameObject) : Option BulletState :=
  match o.data with
  | .bullet d => some d.state
  | _ => none

/-- The steps of the bullet life cycle: a bullet keeps its state or advances
along moving, colliding, inactive. -/
def lifecycleStep : BulletState → BulletState → Bool
  | .moving, _ => true
  | .colliding, .colliding => true
  | .colliding, .inactive => true
  | .inactive, .inactive => true
  | _, _ => false

/-! ## Sample values for concrete instances -/

def sampleTexture (n : Nat) : Texture := { id := n, w := 32, h := 32 }

/-- A fresh animation with `n` frames and cycle duration `d`. -/
def sampleAnimation (n : Int) (d : ℚ) : Animation :=
  { frameCount := n, duration := d, clock := 0, done := false }

/-- Resources with the animation sets of `Resources::load`. -/
def sampleRes : Resources :=
  { playerAnims := [sampleAnimation 1 (8 / 5), sampleAnimation 3 (3 / 10), sampleAnimation 1 1,
                    sampleAnimation 1 1, sampleAnimation 1 1, sampleAnimation 1 1],
    bulletAnims := [sampleAnimation 4 (1 / 2), sampleAnimation 3 (1 / 2)],
    enemyAnims := [sampleAnimation 2 (3 / 5), sampleAnimation 1 1],
    texIdle := sampleTexture 0, texRun := sampleTexture 1, texJump := sampleTexture 2,
    texSlide := sampleTexture 3, texShoot := sampleTexture 4, texDie := sampleTexture 5,
    texGrass := sampleTexture 6, texStone := sampleTexture 7, texBrick := sampleTexture 8,
    texFence := sampleTexture 9, texBush := sampleTexture 10,
    texBullet := { id := 11, w := 16, h := 4 }, texBulletHit := { id := 12, w := 12, h := 4 },
    texSpiny := sampleTexture 13, texSpinyDead := sampleTexture 14 }

def sampleTimer : Timer := { length := 1, time := 0 }

/-- A plain object: a level tile with a 32 by 32 collider at the origin. -/
def sampleObject : GameObject :=
  { data := .level, pos := { x := 0, y := 0 }, vel := { x := 0, y := 0 },
    acc := { x := 0, y := 0 }, dir := 1,
    collider := { x := 0, y := 0, w := 32, h := 32 },
    texture := none, animations := [], curAnimation := -1, spriteFrame := 1,
    dynamic := false, grounded := false, shouldFlash := false,
    flashTimer := sampleTimer, maxSpeedX := 0 }

def sampleCtors : Ctors :=
  { gameObject := sampleObject,
    playerData := { state := .idle, healthPoints := 3, weaponTimer := sampleTimer,
                    deathTimer := sampleTimer },
    enemyData := { state := .idle, healthPoints := 2, damagedTimer := sampleTimer },
    bulletData := { state := .moving } }

/-- No key held. -/
def noKeys : SDLState := { logW := 640, logH := 480, keys := fun _ => false }

/-- Only the fire key `J` held. -/
def fireKey : SDLState := { logW := 640, logH := 480, keys := fun k => decide (k = .J) }

/-- A game state with the given layers and bullets, the camera at the origin. -/
def sampleGame (level characters bullets : List GameObject) : GameState :=
  { level := level, characters := characters, bgTiles := [], fgTiles := [],
    bullets := bullets, playerIndex := 0,
    mapViewport := { x := 0, y := 0, w := 640, h := 480 },
    bg2Scroll := 0, bg3Scroll := 0, bg4Scroll := 0, debugMode := false, running := true }

/-- A jumping, airborne player with a 10 by 10 collider that moves from
(-1, -107/100) to the origin in a step of 1/100 s (gravity included). -/
def fallingPlayer : GameObject :=
  { sampleObject with
      data := .player { state := .jumping, healthPoints := 3, weaponTimer := sampleTimer,
                        deathTimer := sampleTimer },
      pos := { x := -1, y := -107 / 100 }, vel := { x := 100, y := 100 },
      collider := { x := 0, y := 0, w := 10, h := 10 },
      texture := some sampleRes.texJump, animations := sampleRes.playerAnims,
      curAnimation := ANIM_PLAYER_JUMP,
      dynamic := true, grounded := false, maxSpeedX := 150 }

/-- A tile under the right end of the player: rectangle [8, 10] by [9, 14]. -/
def ledgeTile : GameObject :=
  { sampleObject with pos := { x := 8, y := 9 }, collider := { x := 0, y := 0, w := 2, h := 5 } }

/-- A wall to the right of the player: rectangle [7, 20] by [-5, 8]. -/
def wallTile : GameObject :=
  { sampleObject with pos := { x := 7, y := -5 }, collider := { x := 0, y := 0, w := 13, h := 13 } }

/-- The player animations after the jump animation has run for 1/100 s. -/
def steppedAnims : List Animation :=
  [sampleAnimation 1 (8 / 5), sampleAnimation 3 (3 / 10), sampleAnimation 1 1,
   sampleAnimation 1 1, { sampleAnimation 1 1 with clock := 1 / 100 }, sampleAnimation 1 1]

/-- The falling player right before the collision pass of a 1/100 s step. -/
def flownPlayer : GameObject :=
  { fallingPlayer with
      data := .player { state := .jumping, healthPoints := 3,
                        weaponTimer := { length := 1, time := 1 / 100 },
                        deathTimer := sampleTimer },
      pos := { x := 0, y := 0 }, vel := { x := 100, y := 107 },
      animations := steppedAnims }

/-- The falling player when `update` returns: lifted onto the ledge, then pushed
left off it by the wall. -/
def landedPlayer : GameObject :=
  { fallingPlayer with
      data := .player { state := .running, healthPoints := 3,
                        weaponTimer := { length := 1, time := 1 / 100 },
                        deathTimer := sampleTimer },
      pos := { x := -3, y := -1 }, vel := { x := 0, y := 0 },
      animations := steppedAnims, grounded := true }

/-- A live idle player whose weapon cooldown has elapsed. -/
def shooter : GameObject :=
  { sampleObject with
      data := .player { state := .idle, healthPoints := 3,
                        weaponTimer := { length := 1 / 4, time := 1 },
                        deathTimer := sampleTimer },
      acc := { x := 300, y := 0 }, collider := { x := 2, y := 1, w := 28, h := 31 },
      texture := some sampleRes.texIdle, animations := sampleRes.playerAnims,
      curAnimation := ANIM_PLAYER_IDLE,
      dynamic := true, grounded := true, maxSpeedX := 150 }

/-- A bullet in the given state, at (100, 100). -/
def sampleBullet (s : BulletState) : GameObject :=
  { sampleObject with
      data := .bullet { state := s }, pos := { x := 100, y := 100 },
      vel := { x := 300, y := 0 }, collider := { x := 0, y := 0, w := 4, h := 4 },
      texture := some sampleRes.texBullet, animations := sampleRes.bulletAnims,
      curAnimation := ANIM_BULLET_MOVING, maxSpeedX := 1000 }

/-- A live enemy with the given health, at the origin. -/
def sampleEnemy (hp : Int) : GameObject :=
  { sampleObject with
      data := .enemy { state := .idle, healthPoints := hp, damagedTimer := sampleTimer },
      vel := { x := 50, y := 0 }, acc := { x := 300, y := 0 },
      collider := { x := 2, y := 2, w := 28, h := 30 },
      texture := some sampleRes.texSpiny, animations := sampleRes.enemyAnims,
      curAnimation := ANIM_ENEMY, dynamic := true, maxSpeedX := 100 }

/-- A player in the given state with the given health and horizontal velocity. -/
def samplePlayer (s : PlayerState) (hp : Int) (vx : ℚ) : GameObject :=
  { sampleObject with
      data := .player { state := s, healthPoints := hp, weaponTimer := sampleTimer,
                        deathTimer := sampleTimer },
      vel := { x := vx, y := 0 }, acc := { x := 300, y := 0 },
      collider := { x := 2, y := 1, w := 28, h := 31 },
      texture := some sampleRes.texIdle, animations := sampleRes.playerAnims,
      curAnimation := ANIM_PLAYER_IDLE, dynamic := true, grounded := true,
      maxSpeedX := 150 }

/-! ## Definitions used to state the push-out property -/

/-- The intersection rectangle of the collider rectangles of `a` and `b`, the
`rectC` that `checkCollision` passes on. -/
def overlapRect (a b : GameObject) : SDL_FRect :=
  (SDL_GetRectIntersectionFloat (colliderRect a) (colliderRect b)).2

/-- The velocity of `a` along the push-out axis is non-zero and points into `b`:
on the axis chosen by the tie-break, `a` moves towards `b` and the rectangle of
`a` starts and ends no later (in the direction of motion) than that of `b`, so
that the overlap along the axis is the depth by which the leading edge of `a`
has entered `b`. -/
def movesInto (a b : GameObject) : Prop :=
  if (overlapRect a b).w < (overlapRect a b).h then
    (0 < a.vel.x ∧ (colliderRect a).x ≤ (colliderRect b).x ∧
      (colliderRect a).x + (colliderRect a).w ≤ (colliderRect b).x + (colliderRect b).w) ∨
    (a.vel.x < 0 ∧ (colliderRect b).x ≤ (colliderRect a).x ∧
      (colliderRect b).x + (colliderRect b).w ≤ (colliderRect a).x + (colliderRect a).w)
  else
    (0 < a.vel.y ∧ (colliderRect a).y ≤ (colliderRect b).y ∧
      (colliderRect a).y + (colliderRect a).h ≤ (colliderRect b).y + (colliderRect b).h) ∨
    (a.vel.y < 0 ∧ (colliderRect b).y ≤ (colliderRect a).y ∧
      (colliderRect b).y + (colliderRect b).h ≤ (colliderRect a).y + (colliderRect a).h)

/-- The result of the type dispatch of `update` for the object value `obj0` read
from slot `ref`: the object and the input direction right before the velocity
step. -/
def beforeVelocity (state : SDLState) (res : Resources) (ctors : Ctors) (rnd : Int)
    (gs : GameState) (ref : ObjRef) (obj0 : GameObject) (dt : ℚ) : Dispatch :=
  dispatch state res ctors rnd gs ref (applyGravity (stepAnimation obj0 dt) dt) dt

/-- A tile with a 10 by 10 collider at the origin: one end of a platform. -/
def platformEnd : GameObject :=
  { sampleObject with collider := { x := 0, y := 0, w := 10, h := 10 } }

/-- A jumping player with a 10 by 10 collider moving right and down, whose
rectangle [9, 19] by [-5, 5] overlaps the right end of the platform by 1 across
and 5 down. -/
def leavingPlayer : GameObject :=
  { samplePlayer .jumping 3 100 with
      pos := { x := 9, y := -5 }, vel := { x := 100, y := 100 },
      collider := { x := 0, y := 0, w := 10, h := 10 }, grounded := false }

/-- A jumping player with a 10 by 10 collider moving right and down, whose
rectangle [-9, 1] by [-5, 5] overlaps the left end of the platform tile by 1
across and 5 down. -/
def arrivingPlayer : GameObject :=
  { samplePlayer .jumping 3 100 with
      pos := { x := -9, y := -5 }, vel := { x := 100, y := 100 },
      collider := { x := 0, y := 0, w := 10, h := 10 }, grounded := false }

/-- Only the right key `D` held. -/
def rightKey : SDLState := { logW := 640, logH := 480, keys := fun k => decide (k = .D) }

/-- A live jumping player at rest horizontally at height 500, below the
480-high play field. -/
def fallenPlayer : GameObject :=
  { samplePlayer .jumping 3 0 with
      pos := { x := 0, y := 500 }, texture := some sampleRes.texJump,
      curAnimation := ANIM_PLAYER_JUMP, grounded := false }

/-- The fallen player when `update` returns with the right key held. -/
def driftingPlayer : GameObject :=
  { fallenPlayer with
      data := .player { state := .dead, healthPoints := 3,
                        weaponTimer := { length := 1, time := 1 / 100 },
                        deathTimer := sampleTimer },
      pos := { x := 3 / 100, y := 500 + 7 / 100 }, vel := { x := 3, y := 7 },
      animations := steppedAnims }

/-! ## Level factory -/

/-- The constructor `GameState(const SDLState &state)`: empty layers and lists,
`playerIndex = -1`, the viewport of the logical size; the global `running`
starts as `true`. -/
def GameState.init (state : SDLState) : GameState :=
  { level := [], characters := [], bgTiles := [], fgTiles := [], bullets := [],
    playerIndex := -1,
    mapViewport := { x := 0, y := 0, w := (state.logW : ℚ), h := (state.logH : ℚ) },
    bg2Scroll := 0, bg3Scroll := 0, bg4Scroll := 0, debugMode := false, running := true }

/-- A tile grid `short layer[MAP_ROWS][MAP_COLS]`: 5 rows of 50 codes. -/
abbrev Grid := Fin 5 → Fin 50 → Int

/-- The payload a freshly created object of the given type carries once the
factory has assigned it (`o.data.enemy = EnemyData()`, `player.data.player =
PlayerData()`); level tiles carry none. -/
def freshData (ctors : Ctors) : ObjectType → ObjectData
  | .level => .level
  | .player => .player ctors.playerData
  | .enemy => .enemy ctors.enemyData
  | .bullet => .bullet ctors.bulletData

/-- The lambda `createObject(r, c, tex, type)` of `createTiles`. -/
def createObject (state : SDLState) (ctors : Ctors) (r c : Int) (tex : Texture)
    (type : ObjectType) : GameObject :=
  { ctors.gameObject with
      data := freshData ctors type,
      pos := { x := ((c * TILE_SIZE : Int) : ℚ),
               y := ((state.logH - (MAP_ROWS - r) * TILE_SIZE : Int) : ℚ) },
      texture := some tex,
      collider := { x := 0, y := 0, w := (TILE_SIZE : ℚ), h := (TILE_SIZE : ℚ) } }

/-- The enemy built for code 3. -/
def createEnemy (state : SDLState) (res : Resources) (ctors : Ctors) (r c : Int) : GameObject :=
  { createObject state ctors r c res.texSpiny .enemy with
      data := .enemy ctors.enemyData,
      curAnimation := ANIM_ENEMY,
      animations := res.enemyAnims,
      collider := { x := 2, y := 2, w := 28, h := 30 },
      dynamic := true,
      maxSpeedX := 100,
      vel := { (createObject state ctors r c res.texSpiny .enemy).vel with x := 50 },
      acc := { x := 300, y := 0 } }

/-- The player built for code 4. -/
def createPlayer (state : SDLState) (res : Resources) (ctors : Ctors) (r c : Int) : GameObject :=
  { createObject state ctors r c res.texIdle .player with
      data := .player ctors.playerData,
      animations := res.playerAnims,
      curAnimation := ANIM_PLAYER_IDLE,
      acc := { x := 300, y := 0 },
      maxSpeedX := 150,
      dynamic := true,
      collider := { x := 2, y := 1, w := 28, h := 31 } }

/-- The `switch (layer[r][c])` of `loadMap` for one cell with the given code. -/
def placeTile (state : SDLState) (res : Resources) (ctors : Ctors) (r c : Int) (code : Int)
    (gs : GameState) : GameState :=
  if code = 1 then
    { gs with level := gs.level ++ [createObject state ctors r c res.texStone .level] }
  else if code = 2 then
    { gs with level := gs.level ++ [createObject state ctors r c res.texBrick .level] }
  else if code = 3 then
    { gs with characters := gs.characters ++ [createEnemy state res ctors r c] }
  else if code = 4 then
    { gs with characters := gs.characters ++ [createPlayer state res ctors r c],
              playerIndex := ((gs.characters ++ [createPlayer state res ctors r c]).length : Int) - 1 }
  else if code = 5 then
    { gs with level := gs.level ++ [createObject state ctors r c res.texGrass .level] }
  else if code = 6 then
    { gs with fgTiles := gs.fgTiles ++ [createObject state ctors r c res.texBush .level] }
  else if code = 7 then
    { gs with bgTiles := gs.bgTiles ++ [createObject state ctors r c res.texFence .level] }
  else gs

/-- The cells of a grid in the order the nested loops of `loadMap` visit them:
row by row, each row from column 0 to 49. -/
def gridCells : List (Fin 5 × Fin 50) :=
  (List.finRange 5).flatMap fun r => (List.finRange 50).map fun c => (r, c)

/-- The lambda `loadMap(layer)` of `createTiles`. -/
def loadMap (state : SDLState) (res : Resources) (ctors : Ctors) (layer : Grid)
    (gs : GameState) : GameState :=
  gridCells.foldl
    (fun g rc => placeTile state res ctors (rc.1.val : Int) (rc.2.val : Int) (layer rc.1 rc.2) g) gs

/-- The function `createTiles`, generalised over the three grids: the main map,
then the background, then the foreground; `none` when the final assertion
`gs.playerIndex != -1` fails. -/
def createTiles (state : SDLState) (res : Resources) (ctors : Ctors)
    (map background foreground : Grid) (gs : GameState) : Option GameState :=
  let gs3 := loadMap state res ctors foreground
    (loadMap state res ctors background (loadMap state res ctors map gs))
  if gs3.playerIndex ≠ -1 then some gs3 else none

/-- A grid given by its rows; cells outside the rows read as 0. -/
def gridOfRows (rows : List (List Int)) : Grid :=
  fun r c => (rows.getD r.val []).getD c.val 0

/-- The array `map` of `createTiles`. -/
def builtinMap : Grid := gridOfRows [
  [4,0,0,0,0,0,0,0,0,0,0,0,0,0,5,0,0,0,0,0,0,0,0,5,0,0,0,0,0,0,0,0,0,0,0,0,0,0,0,0,0,0,0,0,0,0,0,0,0,0],
  [0,0,0,0,0,0,0,0,3,0,3,0,5,0,0,0,0,3,0,3,0,5,0,5,0,0,0,0,0,0,0,0,0,0,0,0,0,0,0,0,0,0,0,0,0,0,0,0,0,0],
  [2,2,2,2,2,0,0,0,0,0,0,0,0,0,0,0,0,0,0,0,0,0,0,5,0,1,1,1,1,1,1,1,0,0,0,0,0,0,0,0,0,0,0,0,0,0,0,0,0,0],
  [2,2,0,0,2,0,0,2,0,0,0,0,0,0,5,3,0,0,0,0,0,0,0,5,3,0,0,0,0,0,0,0,5,0,0,0,0,0,0,0,0,0,0,0,0,0,0,0,0,0],
  [1,1,1,1,1,1,1,1,1,1,2,2,2,1,0,5,5,5,5,5,5,5,5,5,5,1,1,1,1,1,1,1,0,0,0,0,0,0,0,0,0,0,0,0,0,0,0,0,0,0]]

/-- The array `foreground` of `createTiles`. -/
def builtinForeground : Grid := gridOfRows [
  [0,0,0,0,0,0,0,0,0,0,0,0,0,0,0,0,0,0,0,0,0,0,0,0,0,0,0,0,0,0,0,0,0,0,0,0,0,0,0,0,0,0,0,0,0,0,0,0,0,0],
  [0,0,0,0,0,0,0,0,0,0,0,0,0,0,0,0,0,0,0,0,0,0,0,0,0,0,0,0,0,0,0,0,0,0,0,0,0,0,0,0,0,0,0,0,0,0,0,0,0,0],
  [0,0,0,0,0,0,0,0,0,0,0,0,0,0,0,0,0,0,0,0,0,0,0,0,0,0,0,0,0,0,0,0,0,0,0,0,0,0,0,0,0,0,0,0,0,0,0,0,0,0],
  [0,0,0,0,0,0,0,0,0,0,0,0,0,0,0,0,6,0,0,0,0,0,0,0,0,6,6,0,6,6,0,6,0,0,0,0,0,0,0,0,0,0,0,0,0,0,0,0,0,0],
  [0,0,0,0,0,0,0,0,0,0,0,0,0,0,0,0,0,0,0,0,0,0,0,0,0,0,0,0,0,0,0,0,0,0,0,0,0,0,0,0,0,0,0,0,0,0,0,0,0,0]]

/-- The array `background` of `createTiles`. -/
def builtinBackground : Grid := gridOfRows [
  [0,0,0,0,0,0,0,0,0,0,0,0,0,0,0,0,0,0,0,0,0,0,0,0,0,0,0,0,0,0,0,0,0,0,0,0,0,0,0,0,0,0,0,0,0,0,0,0,0,0],
  [0,0,0,0,0,0,0,0,0,0,0,0,0,0,0,0,0,0,0,0,0,0,0,0,0,0,0,0,0,0,0,0,0,0,0,0,0,0,0,0,0,0,0,0,0,0,0,0,0,0],
  [0,0,0,0,0,0,0,0,0,0,0,0,0,0,0,0,0,7,7,0,0,0,0,0,0,0,0,0,0,0,0,0,0,0,0,0,0,0,0,0,0,0,0,0,0,0,0,0,0,0],
  [0,0,0,0,0,0,0,0,0,0,0,0,0,0,0,0,0,7,7,0,0,0,0,0,0,0,0,0,0,0,0,0,0,0,0,0,0,0,0,0,0,0,0,0,0,0,0,0,0,0],
  [0,0,0,0,0,0,0,0,0,0,0,0,0,0,0,0,0,0,0,0,0,0,0,0,0,0,0,0,0,0,0,0,0,0,0,0,0,0,0,0,0,0,0,0,0,0,0,0,0,0]]

/-- The character-layer view of a game state used to follow the factory: the
type tags of the character layer and the recorded player index. -/
def rosterOf (gs : GameState) : List ObjectType × Int :=
  (gs.characters.map GameObject.type, gs.playerIndex)

/-- What one cell with the given code does to the roster view: code 3 appends an
enemy, code 4 appends a player and records its index, other codes change
nothing. -/
def rosterStep (code : Int) (ro : List ObjectType × Int) : List ObjectType × Int :=
  if code = 3 then (ro.1 ++ [ObjectType.enemy], ro.2)
  else if code = 4 then (ro.1 ++ [ObjectType.player], ((ro.1 ++ [ObjectType.player]).length : Int) - 1)
  else ro

/-- The roster view after a grid has been loaded. -/
def rosterLoad (layer : Grid) (ro : List ObjectType × Int) : List ObjectType × Int :=
  gridCells.foldl (fun g rc => rosterStep (layer rc.1 rc.2) g) ro

/-- The recorded index of a roster view is -1 or names a player of the roster. -/
def rosterValid (ro : List ObjectType × Int) : Prop :=
  ro.2 = -1 ∨ (0 ≤ ro.2 ∧ ro.1[ro.2.toNat]? = some ObjectType.player)

/-- An idle enemy with `maxSpeedX = 100` whose horizontal velocity is `-125`. -/
def nudgedEnemy : GameObject :=
  { sampleEnemy 1 with vel := { x := -125, y := 0 } }

/-! ## Definitions used to state the tile routing -/

/-- The four lists of the game state that the level factory fills. -/
inductive TileDest where
  | level
  | characters
  | fgTiles
  | bgTiles
deriving DecidableEq, Repr

/-- The list of a game state that a destination names. -/
def GameState.list (gs : GameState) : TileDest → List GameObject
  | .level => gs.level
  | .characters => gs.characters
  | .fgTiles => gs.fgTiles
  | .bgTiles => gs.bgTiles

/-- The routing table of the specification: the list an entity of the given tile
code goes to and the type it has; `none` for a code that creates nothing. -/
def routeOf (code : Int) : Option (TileDest × ObjectType) :=
  if code = 1 ∨ code = 2 ∨ code = 5 then some (.level, .level)
  else if code = 3 then some (.characters, .enemy)
  else if code = 4 then some (.characters, .player)
  else if code = 6 then some (.fgTiles, .level)
  else if code = 7 then some (.bgTiles, .level)
  else none

/-- The position the specification gives the entity of cell `(r, c)`:
`(32 c, logH - 32 (5 - r))`. -/
def tilePos (state : SDLState) (r c : Int) : Vec2 :=
  { x := ((32 * c : Int) : ℚ), y := ((state.logH - 32 * (5 - r) : Int) : ℚ) }

/-- The cells of a grid in load order, as triples row, column, code. -/
def codedCells (layer : Grid) : List (Int × Int × Int) :=
  gridCells.map fun rc => ((rc.1.val : Int), (rc.2.val : Int), layer rc.1 rc.2)

/-- What the routing table puts into the list `dest` for one cell: the type and
position of its entity, or nothing. -/
def tileFor (state : SDLState) (dest : TileDest) (cell : Int × Int × Int) :
    Option (ObjectType × Vec2) :=
  match routeOf cell.2.2 with
  | some (d, t) => if d = dest then some (t, tilePos state cell.1 cell.2.1) else none
  | none => none

/-- What the routing table puts into the list `dest` for a sequence of cells, in
the order of the cells. -/
def tilesFor (state : SDLState) (dest : TileDest) (cells : List (Int × Int × Int)) :
    List (ObjectType × Vec2) :=
  cells.filterMap (tileFor state dest)

/-- The type and position of every entity of a list. -/
def tileView (l : List GameObject) : List (ObjectType × Vec2) :=
  l.map fun o => (o.type, o.pos)

/-! ## Basic facts about the update steps -/

theorem type_eq_of_data_eq {a b : GameObject} (h : a.data = b.data) : a.type = b.type := by
  simp [GameObject.type, h]

theorem stepAnimation_data (o : GameObject) (dt : ℚ) : (stepAnimation o dt).data = o.data := by
  unfold stepAnimation
  split_ifs
  · split <;> rfl
  · rfl

theorem stepAnimation_pos (o : GameObject) (dt : ℚ) : (stepAnimation o dt).pos = o.pos := by
  unfold stepAnimation
  split_ifs
  · split <;> rfl
  · rfl

theorem stepAnimation_vel (o : GameObject) (dt : ℚ) : (stepAnimation o dt).vel = o.vel := by
  unfold stepAnimation
  split_ifs
  · split <;> rfl
  · rfl

theorem stepAnimation_acc (o : GameObject) (dt : ℚ) : (stepAnimation o dt).acc = o.acc := by
  unfold stepAnimation
  split_ifs
  · split <;> rfl
  · rfl

theorem stepAnimation_collider (o : GameObject) (dt : ℚ) :
    (stepAnimation o dt).collider = o.collider := by
  unfold stepAnimation
  split_ifs
  · split <;> rfl
  · rfl

theorem applyGravity_data (o : GameObject) (dt : ℚ) : (applyGravity o dt).data = o.data := by
  unfold applyGravity
  split_ifs <;> rfl

theorem applyGravity_pos (o : GameObject) (dt : ℚ) : (applyGravity o dt).pos = o.pos := by
  unfold applyGravity
  split_ifs <;> rfl

theorem applyGravity_acc (o : GameObject) (dt : ℚ) : (applyGravity o dt).acc = o.acc := by
  unfold applyGravity
  split_ifs <;> rfl

theorem applyGravity_vel_x (o : GameObject) (dt : ℚ) : (applyGravity o dt).vel.x = o.vel.x := by
  unfold applyGravity
  split_ifs <;> simp

theorem applyGravity_collider (o : GameObject) (dt : ℚ) :
    (applyGravity o dt).collider = o.collider := by
  unfold applyGravity
  split_ifs <;> rfl

theorem velocityStep_data (o : GameObject) (c dt : ℚ) : (velocityStep o c dt).data = o.data := by
  simp only [velocityStep]
  split_ifs <;> rfl

theorem velocityStep_collider (o : GameObject) (c dt : ℚ) :
    (velocityStep o c dt).collider = o.collider := by
  simp only [velocityStep]
  split_ifs <;> rfl

theorem positionStep_data (o : GameObject) (dt : ℚ) : (positionStep o dt).data = o.data := rfl

theorem positionStep_collider (o : GameObject) (dt : ℚ) :
    (positionStep o dt).collider = o.collider := rfl

theorem genericResponse_data (rectC : SDL_FRect) (a : GameObject) :
    (genericResponse rectC a).data = a.data := by
  simp only [genericResponse]
  split_ifs <;> rfl

theorem genericResponse_enemy_horizontal (rectC : SDL_FRect) (a : GameObject)
    (ht : a.type = .enemy) (h : rectC.w < rectC.h) :
    (genericResponse rectC a).vel.x = -a.vel.x ∧ (genericResponse rectC a).dir = -a.dir := by
  have h1 : ∀ p : Vec2, ({ a with pos := p } : GameObject).type = .enemy := fun p => ht
  simp only [genericResponse, h, if_true]
  split_ifs <;> simp_all

theorem genericResponse_vertical (rectC : SDL_FRect) (a : GameObject)
    (h : rectC.h ≤ rectC.w) :
    (genericResponse rectC a).vel.x = a.vel.x ∧ (genericResponse rectC a).dir = a.dir := by
  have h' : ¬ rectC.w < rectC.h := not_lt.mpr h
  simp only [genericResponse, h', if_false]
  split_ifs <;> simp

/-- A bullet that is not moving is left alone by the collision response, and so
is the other object. -/
theorem collisionResponse_bullet_rest (res : Resources) (rectC : SDL_FRect) (a b : GameObject)
    (d : BulletData) (ha : a.data = .bullet d) (hs : d.state ≠ .moving) :
    collisionResponse res rectC a b = (a, b) := by
  cases hd : d.state with
  | moving => exact absurd hd hs
  | colliding => simp [collisionResponse, ha, hd]
  | inactive => simp [collisionResponse, ha, hd]

theorem checkCollision_bullet_rest (res : Resources) (a b : GameObject)
    (d : BulletData) (ha : a.data = .bullet d) (hs : d.state ≠ .moving) :
    checkCollision res a b = (a, b) := by
  simp only [checkCollision]
  split_ifs
  · exact collisionResponse_bullet_rest res _ a b d ha hs
  · rfl

/-- The collision response keeps a bullet a bullet and only advances its state. -/
theorem collisionResponse_bullet_step (res : Resources) (rectC : SDL_FRect) (a b : GameObject)
    (d : BulletData) (ha : a.data = .bullet d) :
    ∃ d', (collisionResponse res rectC a b).1.data = .bullet d' ∧
      lifecycleStep d.state d'.state = true := by
  cases hd : d.state with
  | moving =>
    simp only [collisionResponse, ha, hd]
    split_ifs
    · exact ⟨{ state := .colliding }, rfl, rfl⟩
    · exact ⟨d, ha, by simp [hd, lifecycleStep]⟩
  | colliding =>
    rw [collisionResponse_bullet_rest res rectC a b d ha (by simp [hd])]
    exact ⟨d, ha, by simp [hd, lifecycleStep]⟩
  | inactive =>
    rw [collisionResponse_bullet_rest res rectC a b d ha (by simp [hd])]
    exact ⟨d, ha, by simp [hd, lifecycleStep]⟩

theorem checkCollision_bullet_step (res : Resources) (a b : GameObject)
    (d : BulletData) (ha : a.data = .bullet d) :
    ∃ d', (checkCollision res a b).1.data = .bullet d' ∧
      lifecycleStep d.state d'.state = true := by
  simp only [checkCollision]
  split_ifs
  · exact collisionResponse_bullet_step res _ a b d ha
  · exact ⟨d, ha, by cases d.state <;> rfl⟩

theorem lifecycleStep_trans {s t u : BulletState} (h1 : lifecycleStep s t = true)
    (h2 : lifecycleStep t u = true) : lifecycleStep s u = true := by
  cases s <;> cases t <;> cases u <;> simp_all [lifecycleStep]

theorem lifecycleStep_refl (s : BulletState) : lifecycleStep s s = true := by
  cases s <;> rfl

/-- The second object of a collision response changes only when it is an enemy. -/
theorem collisionResponse_snd (res : Resources) (rectC : SDL_FRect) (a b : GameObject)
    (hb : b.type ≠ .enemy) : (collisionResponse res rectC a b).2 = b := by
  rcases hA : a.data with _ | pd | ed | bd <;> rcases hB : b.data with _ | pd' | ed' | bd' <;>
    simp [GameObject.type, hB] at hb <;>
    simp only [collisionResponse, hA, hB, GameObject.type] <;>
    (try split_ifs) <;> (try rfl) <;> (try (split <;> rfl))

theorem checkCollision_snd (res : Resources) (a b : GameObject)
    (hb : b.type ≠ .enemy) : (checkCollision res a b).2 = b := by
  simp only [checkCollision]
  split_ifs
  · exact collisionResponse_snd res _ a b hb
  · rfl

theorem damageEnemy_type (res : Resources) (a b : GameObject) (d : EnemyData) :
    (damageEnemy res a b d).type = .enemy := by
  simp only [damageEnemy, GameObject.type]
  split_ifs <;> rfl

/-- The second object of a collision response keeps its type. -/
theorem collisionResponse_snd_type (res : Resources) (rectC : SDL_FRect) (a b : GameObject) :
    (collisionResponse res rectC a b).2.type = b.type := by
  by_cases hb : b.type = .enemy
  · obtain ⟨e, he⟩ : ∃ e, b.data = .enemy e := by
      cases hd : b.data <;> simp [GameObject.type, hd] at hb
      exact ⟨_, rfl⟩
    rcases hA : a.data with _ | pd | ed | bd
    · simp [collisionResponse, hA]
    · simp only [collisionResponse, hA, hb]
      split_ifs <;> exact hb
    · simp only [collisionResponse, hA, he]
      split_ifs <;> rfl
    · cases hs : bd.state
      · simp only [collisionResponse, hA, hs, he]
        split_ifs <;> simp [damageEnemy_type, hb]
      · simp [collisionResponse, hA, hs]
      · simp [collisionResponse, hA, hs]
  · rw [collisionResponse_snd res rectC a b hb]

theorem checkCollision_snd_type (res : Resources) (a b : GameObject) :
    (checkCollision res a b).2.type = b.type := by
  simp only [checkCollision]
  split_ifs
  · exact collisionResponse_snd_type res _ a b
  · rfl

/-! ## The collision pass -/

theorem scanLayer_length (res : Resources) (self : Option Nat) :
    ∀ (l : List GameObject) (j : Nat) (obj : GameObject) (fg : Bool),
      (scanLayer res self j obj fg l).layer.length = l.length := by
  intro l
  induction l with
  | nil => intro j obj fg; rfl
  | cons b bs ih =>
    intro j obj fg
    simp only [scanLayer]
    split_ifs <;> simp [ih]

/-- A property of the updated object that every collision check preserves holds
after a layer has been scanned. -/
theorem scanLayer_invariant (res : Resources) (self : Option Nat) (P : GameObject → Prop)
    (hP : ∀ a b, P a → P (checkCollision res a b).1) :
    ∀ (l : List GameObject) (j : Nat) (obj : GameObject) (fg : Bool),
      P obj → P (scanLayer res self j obj fg l).obj := by
  intro l
  induction l with
  | nil => intro j obj fg h; exact h
  | cons b bs ih =>
    intro j obj fg h
    simp only [scanLayer]
    split_ifs
    · exact ih _ _ _ h
    · exact ih _ _ _ (hP _ _ h)

/-- An object that no collision check changes, and that changes no other object,
leaves a scanned layer as it was. -/
theorem scanLayer_rest (res : Resources) (self : Option Nat) (a : GameObject)
    (h : ∀ b, checkCollision res a b = (a, b)) :
    ∀ (l : List GameObject) (j : Nat) (fg : Bool),
      (scanLayer res self j a fg l).obj = a ∧ (scanLayer res self j a fg l).layer = l := by
  intro l
  induction l with
  | nil => intro j fg; exact ⟨rfl, rfl⟩
  | cons b bs ih =>
    intro j fg
    simp only [scanLayer]
    split_ifs
    · exact ⟨(ih _ _).1, by simp [(ih _ _).2]⟩
    · simp only [collideWith, h b]
      exact ⟨(ih _ _).1, by simp [(ih _ _).2]⟩

theorem collisionPass_level_length (res : Resources) (gs : GameState) (ref : ObjRef)
    (obj : GameObject) : (collisionPass res gs ref obj).level.length = gs.level.length := by
  simp [collisionPass, scanLayer_length]

theorem collisionPass_characters_length (res : Resources) (gs : GameState) (ref : ObjRef)
    (obj : GameObject) :
    (collisionPass res gs ref obj).characters.length = gs.characters.length := by
  simp [collisionPass, scanLayer_length]

theorem collisionPass_invariant (res : Resources) (gs : GameState) (ref : ObjRef)
    (P : GameObject → Prop) (hP : ∀ a b, P a → P (checkCollision res a b).1)
    (obj : GameObject) (h : P obj) : P (collisionPass res gs ref obj).obj := by
  simp only [collisionPass]
  exact scanLayer_invariant res _ P hP _ _ _ _ (scanLayer_invariant res _ P hP _ _ _ _ h)

theorem collisionPass_rest (res : Resources) (gs : GameState) (ref : ObjRef) (a : GameObject)
    (h : ∀ b, checkCollision res a b = (a, b)) :
    (collisionPass res gs ref a).obj = a ∧ (collisionPass res gs ref a).level = gs.level ∧
      (collisionPass res gs ref a).characters = gs.characters := by
  have h0 := scanLayer_rest res ref.inLevel a h gs.level 0 false
  simp only [collisionPass, h0.1]
  have h1 := scanLayer_rest res ref.inCharacters a h gs.characters 0
    (scanLayer res ref.inLevel 0 a false gs.level).foundGround
  exact ⟨h1.1, h0.2, h1.2⟩

/-! ## Reading and writing slots -/

theorem getElem?_set_of_some {α : Type} (l l' : List α) (i : Nat) (o o' : α)
    (h : l[i]? = some o) (hl : l.length ≤ l'.length) : (l'.set i o')[i]? = some o' := by
  have hi : i < l.length := by
    rcases Nat.lt_or_ge i l.length with h' | h'
    · exact h'
    · rw [List.getElem?_eq_none h'] at h
      cases h
  have hi' : i < l'.length := Nat.lt_of_lt_of_le hi hl
  simp [List.getElem?_set, hi']

theorem get_set_same (gs gs' : GameState) (ref : ObjRef) (o o' : GameObject)
    (h : gs.get ref = some o) (hl : gs.level.length ≤ gs'.level.length)
    (hc : gs.characters.length ≤ gs'.characters.length)
    (hb : gs.bullets.length ≤ gs'.bullets.length) :
    (gs'.set ref o').get ref = some o' := by
  cases ref with
  | level i => exact getElem?_set_of_some gs.level gs'.level i o o' h hl
  | character i => exact getElem?_set_of_some gs.characters gs'.characters i o o' h hc
  | bullet i => exact getElem?_set_of_some gs.bullets gs'.bullets i o o' h hb

theorem update_eq (state : SDLState) (res : Resources) (ctors : Ctors) (rnd : Int)
    (gs : GameState) (ref : ObjRef) (dt : ℚ) (obj0 : GameObject) (hget : gs.get ref = some obj0) :
    update state res ctors rnd gs ref dt =
      ({ gs with
          level := (collisionPass res gs ref (prePass state res ctors rnd gs ref obj0 dt).obj).level,
          characters :=
            (collisionPass res gs ref (prePass state res ctors rnd gs ref obj0 dt).obj).characters,
          bullets := (prePass state res ctors rnd gs ref obj0 dt).bullets,
          running := (prePass state res ctors rnd gs ref obj0 dt).running }).set ref
        (landing (collisionPass res gs ref (prePass state res ctors rnd gs ref obj0 dt).obj).obj
          (collisionPass res gs ref (prePass state res ctors rnd gs ref obj0 dt).obj).foundGround) := by
  simp only [update, hget]

/-- After `update` the slot holds the landed result of the collision pass. -/
theorem update_get (state : SDLState) (res : Resources) (ctors : Ctors) (rnd : Int)
    (gs : GameState) (ref : ObjRef) (dt : ℚ) (obj0 : GameObject) (hget : gs.get ref = some obj0)
    (hb : gs.bullets.length ≤ (prePass state res ctors rnd gs ref obj0 dt).bullets.length) :
    (update state res ctors rnd gs ref dt).get ref =
      some (landing (collisionPass res gs ref (prePass state res ctors rnd gs ref obj0 dt).obj).obj
        (collisionPass res gs ref (prePass state res ctors rnd gs ref obj0 dt).obj).foundGround) := by
  rw [update_eq state res ctors rnd gs ref dt obj0 hget]
  exact get_set_same gs _ ref obj0 _ hget (collisionPass_level_length _ _ _ _).ge
    (collisionPass_characters_length _ _ _ _).ge hb

theorem update_bullets_length (state : SDLState) (res : Resources) (ctors : Ctors) (rnd : Int)
    (gs : GameState) (ref : ObjRef) (dt : ℚ) (obj0 : GameObject) (hget : gs.get ref = some obj0) :
    (update state res ctors rnd gs ref dt).bullets.length =
      (prePass state res ctors rnd gs ref obj0 dt).bullets.length := by
  rw [update_eq state res ctors rnd gs ref dt obj0 hget]
  cases ref <;> simp [GameState.set]

theorem update_bullets_of_layer (state : SDLState) (res : Resources) (ctors : Ctors) (rnd : Int)
    (gs : GameState) (ref : ObjRef) (dt : ℚ) (obj0 : GameObject) (hget : gs.get ref = some obj0)
    (hlayer : ∀ i, ref ≠ .bullet i) :
    (update state res ctors rnd gs ref dt).bullets =
      (prePass state res ctors rnd gs ref obj0 dt).bullets := by
  rw [update_eq state res ctors rnd gs ref dt obj0 hget]
  cases ref with
  | level i => rfl
  | character i => rfl
  | bullet i => exact absurd rfl (hlayer i)

/-! ## The bullet pool -/

theorem reuseInactive_length (nb : GameObject) :
    ∀ l : List GameObject, (reuseInactive nb l).1.length = l.length := by
  intro l
  induction l with
  | nil => rfl
  | cons b bs ih =>
    simp only [reuseInactive]
    split_ifs <;> simp [ih]

theorem reuseInactive_found (nb : GameObject) :
    ∀ l : List GameObject, (reuseInactive nb l).2 = true ↔ ∃ b ∈ l, isInactive b = true := by
  intro l
  induction l with
  | nil => simp [reuseInactive]
  | cons b bs ih =>
    simp only [reuseInactive]
    split_ifs with h
    · simp [h]
    · simp [ih, h]

theorem reuseInactive_none (nb : GameObject) (l : List GameObject)
    (h : ∀ b ∈ l, isInactive b = false) : reuseInactive nb l = (l, false) := by
  induction l with
  | nil => rfl
  | cons b bs ih =>
    have hb : isInactive b = false := h b (by simp)
    have ih' := ih (fun x hx => h x (by simp [hx]))
    simp [reuseInactive, hb, ih']

theorem reuseInactive_first (nb : GameObject) :
    ∀ (l : List GameObject) (i : Nat) (b : GameObject), l[i]? = some b → isInactive b = true →
      (∀ j b', j < i → l[j]? = some b' → isInactive b' = false) →
      reuseInactive nb l = (l.set i nb, true) := by
  intro l
  induction l with
  | nil => intro i b h; simp at h
  | cons x xs ih =>
    intro i b h hb hmin
    cases i with
    | zero =>
      simp at h
      subst h
      simp [reuseInactive, hb]
    | succ k =>
      have hx : isInactive x = false := hmin 0 x (Nat.succ_pos k) (by simp)
      have h' : xs[k]? = some b := by simpa using h
      have ih' := ih k b h' hb (fun j b' hj hj' => hmin (j + 1) b' (Nat.succ_lt_succ hj) (by simpa using hj'))
      simp [reuseInactive, hx, ih']

theorem storeBullet_length_of_found (nb : GameObject) (l : List GameObject)
    (h : ∃ b ∈ l, isInactive b = true) : (storeBullet nb l).length = l.length := by
  have hf := (reuseInactive_found nb l).mpr h
  simp [storeBullet, hf, reuseInactive_length]

theorem storeBullet_length_of_none (nb : GameObject) (l : List GameObject)
    (h : ∀ b ∈ l, isInactive b = false) : (storeBullet nb l).length = l.length + 1 := by
  simp [storeBullet, reuseInactive_none nb l h]

/-! ## Firing -/

theorem newBullet_type (res : Resources) (ctors : Ctors) (rnd : Int) (pd : ℚ) (obj : GameObject) :
    (newBullet res ctors rnd pd obj).type = .bullet := rfl

theorem setPlayerState_data (obj : GameObject) (d : PlayerData) (s : PlayerState)
    (h : obj.data = .player d) :
    (setPlayerState obj s).data = .player { d with state := s } := by
  simp [setPlayerState, h]

theorem idleSlowDown_data (obj : GameObject) (dt : ℚ) : (idleSlowDown obj dt).data = obj.data := by
  simp only [idleSlowDown]
  split_ifs <;> rfl

/-- With the fire key held and the cooldown elapsed, `handleShooting` stores one
new bullet. -/
theorem handleShooting_fires (state : SDLState) (res : Resources) (ctors : Ctors) (rnd : Int)
    (gs : GameState) (ref : ObjRef) (obj : GameObject) (d : PlayerData)
    (hd : obj.data = .player d) (hJ : state.keys .J = true)
    (ht : d.weaponTimer.isTimeOut = true) :
    ∃ nb, nb.type = .bullet ∧
      (handleShooting state res ctors rnd gs ref obj).2 = storeBullet nb gs.bullets := by
  simp only [handleShooting, hd, hJ, ht, if_true]
  exact ⟨_, newBullet_type _ _ _ _ _, rfl⟩

theorem playerStateStep_fires (state : SDLState) (res : Resources) (ctors : Ctors) (rnd : Int)
    (gs : GameState) (ref : ObjRef) (obj : GameObject) (d : PlayerData) (s : PlayerState)
    (c dt : ℚ) (hd : obj.data = .player d) (hs : s ≠ .dead) (hJ : state.keys .J = true)
    (ht : d.weaponTimer.isTimeOut = true) :
    ∃ nb, nb.type = .bullet ∧
      (playerStateStep state res ctors rnd gs ref obj s c dt).2 = storeBullet nb gs.bullets := by
  cases s with
  | dead => exact absurd rfl hs
  | idle =>
    simp only [playerStateStep]
    split_ifs
    · exact handleShooting_fires state res ctors rnd gs ref _ { d with state := .running }
        (setPlayerState_data obj d _ hd) hJ ht
    · exact handleShooting_fires state res ctors rnd gs ref _ d
        ((idleSlowDown_data obj dt).trans hd) hJ ht
  | running =>
    simp only [playerStateStep]
    by_cases hc : c = 0
    · obtain ⟨nb, h1, h2⟩ := handleShooting_fires state res ctors rnd gs ref
        (setPlayerState obj .idle) { d with state := .idle } (setPlayerState_data obj d _ hd) hJ ht
      refine ⟨nb, h1, ?_⟩
      rw [if_pos hc]
      split_ifs <;> exact h2
    · obtain ⟨nb, h1, h2⟩ := handleShooting_fires state res ctors rnd gs ref obj d hd hJ ht
      refine ⟨nb, h1, ?_⟩
      rw [if_neg hc]
      split_ifs <;> exact h2
  | jumping =>
    simp only [playerStateStep]
    exact handleShooting_fires state res ctors rnd gs ref _ d hd hJ ht

/-- A live player with the fire key held and the cooldown elapsed after the
timer step stores exactly one new bullet during `update`. -/
theorem prePass_fires (state : SDLState) (res : Resources) (ctors : Ctors) (rnd : Int)
    (gs : GameState) (ref : ObjRef) (obj0 : GameObject) (d : PlayerData) (dt : ℚ)
    (hd : obj0.data = .player d) (hlive : d.state ≠ .dead) (hJ : state.keys .J = true)
    (ht : (d.weaponTimer.step dt).1.isTimeOut = true) :
    ∃ nb, nb.type = .bullet ∧
      (prePass state res ctors rnd gs ref obj0 dt).bullets = storeBullet nb gs.bullets := by
  have h1 : (applyGravity (stepAnimation obj0 dt) dt).data = .player d := by
    rw [applyGravity_data, stepAnimation_data, hd]
  simp only [prePass, dispatch, h1, updatePlayer, hlive, ne_eq, not_false_eq_true, if_true]
  exact playerStateStep_fires state res ctors rnd gs ref _
    { d with weaponTimer := (d.weaponTimer.step dt).1 } d.state _ dt rfl hlive hJ ht

/-! ## The spawned bullet -/

theorem stepAnimation_dir (o : GameObject) (dt : ℚ) : (stepAnimation o dt).dir = o.dir := by
  unfold stepAnimation
  split_ifs
  · split <;> rfl
  · rfl

theorem applyGravity_dir (o : GameObject) (dt : ℚ) : (applyGravity o dt).dir = o.dir := by
  unfold applyGravity
  split_ifs <;> rfl

theorem setPlayerState_place (obj : GameObject) (s : PlayerState) :
    (setPlayerState obj s).pos = obj.pos ∧ (setPlayerState obj s).dir = obj.dir := by
  simp only [setPlayerState]
  split <;> exact ⟨rfl, rfl⟩

theorem idleSlowDown_place (obj : GameObject) (dt : ℚ) :
    (idleSlowDown obj dt).pos = obj.pos ∧ (idleSlowDown obj dt).dir = obj.dir := by
  simp only [idleSlowDown]
  split_ifs <;> exact ⟨rfl, rfl⟩

/-- With the fire key held and the cooldown elapsed, `handleShooting` stores the
bullet built from the shooter with its weapon timer reset. -/
theorem handleShooting_spawns (state : SDLState) (res : Resources) (ctors : Ctors) (rnd : Int)
    (gs : GameState) (ref : ObjRef) (obj : GameObject) (d : PlayerData)
    (hd : obj.data = .player d) (hJ : state.keys .J = true)
    (ht : d.weaponTimer.isTimeOut = true) :
    ∃ o : GameObject, o.type = .player ∧ o.pos = obj.pos ∧ o.dir = obj.dir ∧
      (handleShooting state res ctors rnd gs ref obj).2 =
        storeBullet (newBullet res ctors rnd (playerDir gs ref o) o) gs.bullets := by
  refine ⟨{ obj with data := .player { d with weaponTimer := d.weaponTimer.reset } },
    rfl, rfl, rfl, ?_⟩
  simp only [handleShooting, hd, hJ, ht, if_true]

theorem playerStateStep_spawns (state : SDLState) (res : Resources) (ctors : Ctors) (rnd : Int)
    (gs : GameState) (ref : ObjRef) (obj : GameObject) (d : PlayerData) (s : PlayerState)
    (c dt : ℚ) (hd : obj.data = .player d) (hs : s ≠ .dead) (hJ : state.keys .J = true)
    (ht : d.weaponTimer.isTimeOut = true) :
    ∃ o : GameObject, o.type = .player ∧ o.pos = obj.pos ∧ o.dir = obj.dir ∧
      (playerStateStep state res ctors rnd gs ref obj s c dt).2 =
        storeBullet (newBullet res ctors rnd (playerDir gs ref o) o) gs.bullets := by
  cases s with
  | dead => exact absurd rfl hs
  | idle =>
    simp only [playerStateStep]
    split_ifs
    · obtain ⟨o, h1, h2, h3, h4⟩ := handleShooting_spawns state res ctors rnd gs ref
        (setPlayerState obj .running) { d with state := .running }
        (setPlayerState_data obj d _ hd) hJ ht
      exact ⟨o, h1, h2.trans (setPlayerState_place obj _).1,
        h3.trans (setPlayerState_place obj _).2, h4⟩
    · obtain ⟨o, h1, h2, h3, h4⟩ := handleShooting_spawns state res ctors rnd gs ref
        (idleSlowDown obj dt) d ((idleSlowDown_data obj dt).trans hd) hJ ht
      exact ⟨o, h1, h2.trans (idleSlowDown_place obj dt).1,
        h3.trans (idleSlowDown_place obj dt).2, h4⟩
  | running =>
    simp only [playerStateStep]
    by_cases hc : c = 0
    · obtain ⟨o, h1, h2, h3, h4⟩ := handleShooting_spawns state res ctors rnd gs ref
        (setPlayerState obj .idle) { d with state := .idle } (setPlayerState_data obj d _ hd) hJ ht
      refine ⟨o, h1, h2.trans (setPlayerState_place obj _).1,
        h3.trans (setPlayerState_place obj _).2, ?_⟩
      rw [if_pos hc]
      split_ifs <;> exact h4
    · obtain ⟨o, h1, h2, h3, h4⟩ := handleShooting_spawns state res ctors rnd gs ref obj d hd hJ ht
      refine ⟨o, h1, h2, h3, ?_⟩
      rw [if_neg hc]
      split_ifs <;> exact h4
  | jumping =>
    simp only [playerStateStep]
    exact handleShooting_spawns state res ctors rnd gs ref _ d hd hJ ht

/-- A live player with the fire key held and the cooldown elapsed after the
timer step stores, during `update`, the bullet `newBullet` builds from the
player as it is when `handleShooting` runs: at the position and with the facing
it had when `update` was called. -/
theorem prePass_spawns (state : SDLState) (res : Resources) (ctors : Ctors) (rnd : Int)
    (gs : GameState) (ref : ObjRef) (obj0 : GameObject) (d : PlayerData) (dt : ℚ)
    (hd : obj0.data = .player d) (hlive : d.state ≠ .dead) (hJ : state.keys .J = true)
    (ht : (d.weaponTimer.step dt).1.isTimeOut = true) :
    ∃ o : GameObject, o.type = .player ∧ o.pos = obj0.pos ∧ o.dir = obj0.dir ∧
      (prePass state res ctors rnd gs ref obj0 dt).bullets =
        storeBullet (newBullet res ctors rnd (playerDir gs ref o) o) gs.bullets := by
  have h1 : (applyGravity (stepAnimation obj0 dt) dt).data = .player d := by
    rw [applyGravity_data, stepAnimation_data, hd]
  have hp : (applyGravity (stepAnimation obj0 dt) dt).pos = obj0.pos := by
    rw [applyGravity_pos, stepAnimation_pos]
  have hdir : (applyGravity (stepAnimation obj0 dt) dt).dir = obj0.dir := by
    rw [applyGravity_dir, stepAnimation_dir]
  obtain ⟨o, h2, h3, h4, h5⟩ := playerStateStep_spawns state res ctors rnd gs ref
    { applyGravity (stepAnimation obj0 dt) dt with
        data := .player { d with weaponTimer := (d.weaponTimer.step dt).1 } }
    { d with weaponTimer := (d.weaponTimer.step dt).1 } d.state (inputDirection state) dt
    rfl hlive hJ ht
  refine ⟨o, h2, h3.trans hp, h4.trans hdir, ?_⟩
  simp only [prePass, dispatch, h1, updatePlayer, hlive, ne_eq, not_false_eq_true, if_true]
  exact h5

theorem newBullet_place (res : Resources) (ctors : Ctors) (rnd : Int) (pd : ℚ)
    (o : GameObject) :
    (newBullet res ctors rnd pd o).pos.x = o.pos.x + 24 * (o.dir + 1) / 2 ∧
    (newBullet res ctors rnd pd o).pos.y = o.pos.y + 17 := by
  constructor
  · simp only [newBullet]
    ring
  · simp only [newBullet, TILE_SIZE]
    norm_num

/-! ## C1, C2: the bullet pool -/

/-- C1: when `update` runs on a live player with the fire key held and the weapon
cooldown elapsed, the bullet list keeps its length if some bullet is inactive and
grows by exactly one if none is. -/
theorem C1_bullet_pool_growth (state : SDLState) (res : Resources) (ctors : Ctors) (rnd : Int)
    (gs : GameState) (ref : ObjRef) (dt : ℚ) (obj : GameObject) (d : PlayerData)
    (hget : gs.get ref = some obj) (hd : obj.data = .player d) (hlive : d.state ≠ .dead)
    (hJ : state.keys .J = true) (ht : (d.weaponTimer.step dt).1.isTimeOut = true) :
    ((∃ b ∈ gs.bullets, isInactive b = true) →
      (update state res ctors rnd gs ref dt).bullets.length = gs.bullets.length) ∧
    ((∀ b ∈ gs.bullets, isInactive b = false) →
      (update state res ctors rnd gs ref dt).bullets.length = gs.bullets.length + 1) := by
  obtain ⟨nb, -, hnb⟩ := prePass_fires state res ctors rnd gs ref obj d dt hd hlive hJ ht
  rw [update_bullets_length state res ctors rnd gs ref dt obj hget, hnb]
  exact ⟨storeBullet_length_of_found nb _, storeBullet_length_of_none nb _⟩

/-- C2: when a live player in one of the layers fires, the new bullet (the
object `newBullet` builds from the player `o` as it is when `handleShooting`
runs, which has the position and facing the player had when `update` was
called, so that the bullet has type bullet and sits at
`(pos.x + 24 (dir + 1) / 2, pos.y + 17)`) is written at the smallest index of
the bullet list whose bullet is inactive, every other slot staying as it was;
when no slot is inactive the new bullet is appended and every existing slot
stays as it was. -/
theorem C2_bullet_slot_reuse (state : SDLState) (res : Resources) (ctors : Ctors) (rnd : Int)
    (gs : GameState) (ref : ObjRef) (dt : ℚ) (obj : GameObject) (d : PlayerData)
    (hget : gs.get ref = some obj) (hlayer : ∀ i, ref ≠ .bullet i)
    (hd : obj.data = .player d) (hlive : d.state ≠ .dead)
    (hJ : state.keys .J = true) (ht : (d.weaponTimer.step dt).1.isTimeOut = true) :
    ∃ o nb : GameObject, o.type = .player ∧ o.pos = obj.pos ∧ o.dir = obj.dir ∧
      nb = newBullet res ctors rnd (playerDir gs ref o) o ∧
      nb.type = .bullet ∧
      nb.pos.x = obj.pos.x + 24 * (obj.dir + 1) / 2 ∧ nb.pos.y = obj.pos.y + 17 ∧
      (∀ (i : Nat) (b : GameObject), gs.bullets[i]? = some b → isInactive b = true →
        (∀ j b', j < i → gs.bullets[j]? = some b' → isInactive b' = false) →
        (update state res ctors rnd gs ref dt).bullets = gs.bullets.set i nb) ∧
      ((∀ b ∈ gs.bullets, isInactive b = false) →
        (update state res ctors rnd gs ref dt).bullets = gs.bullets ++ [nb]) := by
  obtain ⟨o, hty, hpos, hdir, hnb⟩ :=
    prePass_spawns state res ctors rnd gs ref obj d dt hd hlive hJ ht
  refine ⟨o, _, hty, hpos, hdir, rfl, rfl, ?_, ?_, ?_, ?_⟩
  · rw [(newBullet_place res ctors rnd _ o).1, hpos, hdir]
  · rw [(newBullet_place res ctors rnd _ o).2, hpos]
  · intro i b hi hb hmin
    rw [update_bullets_of_layer state res ctors rnd gs ref dt obj hget hlayer, hnb]
    simp [storeBullet, reuseInactive_first _ gs.bullets i b hi hb hmin]
  · intro hnone
    rw [update_bullets_of_layer state res ctors rnd gs ref dt obj hget hlayer, hnb]
    simp [storeBullet, reuseInactive_none _ gs.bullets hnone]

theorem C1_bullet_pool_growth_witness :
    (update fireKey sampleRes sampleCtors 7
        (sampleGame [] [shooter] [sampleBullet .moving, sampleBullet .inactive])
        (.character 0) (1 / 10)).bullets.length = 2 ∧
    (update fireKey sampleRes sampleCtors 7
        (sampleGame [] [shooter] [sampleBullet .moving, sampleBullet .colliding])
        (.character 0) (1 / 10)).bullets.length = 2 + 1 :=
  ⟨(C1_bullet_pool_growth fireKey sampleRes sampleCtors 7
      (sampleGame [] [shooter] [sampleBullet .moving, sampleBullet .inactive])
      (.character 0) (1 / 10) shooter _ rfl rfl (by simp) rfl
      (by norm_num [Timer.step, Timer.isTimeOut])).1
      ⟨sampleBullet .inactive, by simp [sampleGame], rfl⟩,
   (C1_bullet_pool_growth fireKey sampleRes sampleCtors 7
      (sampleGame [] [shooter] [sampleBullet .moving, sampleBullet .colliding])
      (.character 0) (1 / 10) shooter _ rfl rfl (by simp) rfl
      (by norm_num [Timer.step, Timer.isTimeOut])).2
      (by simp [sampleGame, isInactive, sampleBullet])⟩

theorem C2_bullet_slot_reuse_witness :
    ∃ nb : GameObject, nb.type = .bullet ∧
      nb.pos.x = 0 + 24 * (1 + 1) / 2 ∧ nb.pos.y = 0 + 17 ∧
      (update fireKey sampleRes sampleCtors 7
        (sampleGame [] [shooter] [sampleBullet .moving, sampleBullet .inactive, sampleBullet .inactive])
        (.character 0) (1 / 10)).bullets =
        [sampleBullet .moving, nb, sampleBullet .inactive] := by
  obtain ⟨o, nb, -, -, -, -, hty, hx, hy, h1, -⟩ := C2_bullet_slot_reuse fireKey sampleRes
      sampleCtors 7
      (sampleGame [] [shooter] [sampleBullet .moving, sampleBullet .inactive, sampleBullet .inactive])
      (.character 0) (1 / 10) shooter _ rfl (by simp) rfl (by simp) rfl
      (by norm_num [Timer.step, Timer.isTimeOut])
  refine ⟨nb, hty, hx, hy, ?_⟩
  rw [h1 1 (sampleBullet .inactive) rfl rfl]
  · rfl
  · intro j b' hj hb'
    have hj0 : j = 0 := by omega
    subst hj0
    simp [sampleGame] at hb'
    subst hb'
    rfl

/-! ## C3: the grounded flag -/

theorem landing_grounded (obj : GameObject) (fg : Bool) : (landing obj fg).grounded = fg := by
  simp only [landing]
  split_ifs with h
  · split
    · split_ifs <;> rfl
    · rfl
  · simpa using h

theorem storeBullet_length_ge (nb : GameObject) (l : List GameObject) :
    l.length ≤ (storeBullet nb l).length := by
  simp only [storeBullet]
  split_ifs <;> simp [reuseInactive_length]

theorem handleShooting_length_ge (state : SDLState) (res : Resources) (ctors : Ctors) (rnd : Int)
    (gs : GameState) (ref : ObjRef) (obj : GameObject) :
    gs.bullets.length ≤ (handleShooting state res ctors rnd gs ref obj).2.length := by
  simp only [handleShooting]
  split
  · split_ifs
    · exact storeBullet_length_ge _ _
    · exact Nat.le_refl _
    · exact Nat.le_refl _
  · exact Nat.le_refl _

theorem playerStateStep_length_ge (state : SDLState) (res : Resources) (ctors : Ctors) (rnd : Int)
    (gs : GameState) (ref : ObjRef) (obj : GameObject) (s : PlayerState) (c dt : ℚ) :
    gs.bullets.length ≤ (playerStateStep state res ctors rnd gs ref obj s c dt).2.length := by
  cases s with
  | dead => exact Nat.le_refl _
  | idle => exact handleShooting_length_ge _ _ _ _ _ _ _
  | running =>
    simp only [playerStateStep]
    split_ifs <;> exact handleShooting_length_ge _ _ _ _ _ _ _
  | jumping => exact handleShooting_length_ge _ _ _ _ _ _ _

/-- The bullet list never shrinks during `update`. -/
theorem prePass_length_ge (state : SDLState) (res : Resources) (ctors : Ctors) (rnd : Int)
    (gs : GameState) (ref : ObjRef) (obj0 : GameObject) (dt : ℚ) :
    gs.bullets.length ≤ (prePass state res ctors rnd gs ref obj0 dt).bullets.length := by
  simp only [prePass, dispatch]
  split
  · simp only [updatePlayer]
    split_ifs
    all_goals first
      | exact playerStateStep_length_ge _ _ _ _ _ _ _ _ _ _
      | exact Nat.le_refl _
  · exact Nat.le_refl _
  · exact Nat.le_refl _
  · exact Nat.le_refl _

/-- The sensor test of the collision loop, made after the check against `b`,
reads the collider of `b` as it was before the check. -/
theorem collideWith_hit (res : Resources) (obj : GameObject) (fg : Bool) (b : GameObject) :
    (collideWith res obj fg b).2.1 = (fg || sensorHits (checkCollision res obj b).1 b) := by
  simp only [collideWith, sensorHits, checkCollision_snd_type]
  by_cases hb : b.type = .level
  · have hne : b.type ≠ .enemy := by rw [hb]; decide
    rw [checkCollision_snd res obj b hne]
  · simp [hb]

theorem collideWith_obj (res : Resources) (obj : GameObject) (fg : Bool) (b : GameObject) :
    (collideWith res obj fg b).1 = (checkCollision res obj b).1 := rfl

/-- A scan that skips nothing visits every entity of the layer. -/
theorem scanLayer_noskip (res : Resources) (self : Option Nat) :
    ∀ (l : List GameObject) (j : Nat) (obj : GameObject) (fg : Bool),
      (∀ i, self = some i → i < j) →
      (scanLayer res self j obj fg l).obj = passEnd res obj l ∧
      (scanLayer res self j obj fg l).foundGround =
        (fg || (checkTrace res obj l).any fun p => sensorHits p.1 p.2) := by
  intro l
  induction l with
  | nil => intro j obj fg _; simp [scanLayer, passEnd, checkTrace]
  | cons b bs ih =>
    intro j obj fg hself
    have hne : self ≠ some j := fun h => Nat.lt_irrefl j (hself j h)
    have ih' := ih (j + 1) (checkCollision res obj b).1
      (fg || sensorHits (checkCollision res obj b).1 b)
      (fun i hi => Nat.lt_succ_of_lt (hself i hi))
    simp only [scanLayer, hne, if_false, collideWith_hit, collideWith_obj, passEnd, checkTrace,
      List.any_cons, ih'.1, ih'.2, Bool.or_assoc]
    simp

/-- A scan of the layer that holds the updated object visits every other entity
of the layer. -/
theorem scanLayer_skip (res : Resources) (i : Nat) :
    ∀ (l : List GameObject) (j : Nat) (obj : GameObject) (fg : Bool), j ≤ i →
      (scanLayer res (some i) j obj fg l).obj = passEnd res obj (l.eraseIdx (i - j)) ∧
      (scanLayer res (some i) j obj fg l).foundGround =
        (fg || (checkTrace res obj (l.eraseIdx (i - j))).any fun p => sensorHits p.1 p.2) := by
  intro l
  induction l with
  | nil => intro j obj fg _; simp [scanLayer, passEnd, checkTrace]
  | cons b bs ih =>
    intro j obj fg hj
    by_cases hij : i = j
    · subst hij
      have h := scanLayer_noskip res (some i) bs (i + 1) obj fg
        (fun k hk => by cases hk; exact Nat.lt_succ_self _)
      simp only [scanLayer, if_true, Nat.sub_self, List.eraseIdx_cons_zero]
      exact h
    · have hlt : j < i := lt_of_le_of_ne hj (Ne.symm hij)
      have hne : (some i : Option Nat) ≠ some j := by simpa using hij
      have he : i - j = (i - (j + 1)) + 1 := by omega
      have ih' := ih (j + 1) (checkCollision res obj b).1
        (fg || sensorHits (checkCollision res obj b).1 b) hlt
      simp only [scanLayer, hne, if_false, collideWith_hit, collideWith_obj, he,
        List.eraseIdx_cons_succ, passEnd, checkTrace, List.any_cons, ih'.1, ih'.2, Bool.or_assoc]
      simp

theorem checkTrace_append (res : Resources) :
    ∀ (l1 l2 : List GameObject) (obj : GameObject),
      checkTrace res obj (l1 ++ l2) =
        checkTrace res obj l1 ++ checkTrace res (passEnd res obj l1) l2 := by
  intro l1
  induction l1 with
  | nil => intro l2 obj; rfl
  | cons b bs ih => intro l2 obj; simp [checkTrace, passEnd, ih]

/-- The `foundGround` flag of the collision pass: some level-type entity other
than the updated object was hit by the sensor right after its collision check. -/
theorem collisionPass_foundGround (res : Resources) (gs : GameState) (ref : ObjRef)
    (obj : GameObject) :
    (collisionPass res gs ref obj).foundGround =
      (checkTrace res obj (gs.others ref)).any fun p => sensorHits p.1 p.2 := by
  cases ref with
  | level i =>
    have h0 := scanLayer_skip res i gs.level 0 obj false (Nat.zero_le _)
    have h1 := scanLayer_noskip res none gs.characters 0
      (scanLayer res (some i) 0 obj false gs.level).obj
      (scanLayer res (some i) 0 obj false gs.level).foundGround (fun k hk => by cases hk)
    simp only [collisionPass, ObjRef.inLevel, ObjRef.inCharacters, GameState.others,
      checkTrace_append, List.any_append]
    rw [h1.2, h0.1, h0.2]
    simp
  | character i =>
    have h0 := scanLayer_noskip res none gs.level 0 obj false (fun k hk => by cases hk)
    have h1 := scanLayer_skip res i gs.characters 0
      (scanLayer res none 0 obj false gs.level).obj
      (scanLayer res none 0 obj false gs.level).foundGround (Nat.zero_le _)
    simp only [collisionPass, ObjRef.inLevel, ObjRef.inCharacters, GameState.others,
      checkTrace_append, List.any_append]
    rw [h1.2, h0.1, h0.2]
    simp
  | bullet i =>
    have h0 := scanLayer_noskip res none gs.level 0 obj false (fun k hk => by cases hk)
    have h1 := scanLayer_noskip res none gs.characters 0
      (scanLayer res none 0 obj false gs.level).obj
      (scanLayer res none 0 obj false gs.level).foundGround (fun k hk => by cases hk)
    simp only [collisionPass, ObjRef.inLevel, ObjRef.inCharacters, GameState.others,
      checkTrace_append, List.any_append]
    rw [h1.2, h0.1, h0.2]
    simp

/-- C3 (amended): after `update(obj)` returns, `obj.grounded` is true if and only
if, for some level-type entity other than `obj` in the layers, the one-pixel
sensor rectangle below the collider of `obj`, taken at the position `obj` has
right after its collision check against that entity, intersects that entity's
collider rectangle; the flag is recomputed from the pass whatever it was before. -/
theorem C3_grounded_from_pass (state : SDLState) (res : Resources) (ctors : Ctors) (rnd : Int)
    (gs : GameState) (ref : ObjRef) (dt : ℚ) (obj0 : GameObject)
    (hget : gs.get ref = some obj0) :
    ∃ o, (update state res ctors rnd gs ref dt).get ref = some o ∧
      (o.grounded = true ↔
        ∃ p ∈ checkTrace res (prePass state res ctors rnd gs ref obj0 dt).obj (gs.others ref),
          p.2.type = .level ∧
          (SDL_GetRectIntersectionFloat (sensorRect p.1) (colliderRect p.2)).1 = true) := by
  refine ⟨_, update_get state res ctors rnd gs ref dt obj0 hget (prePass_length_ge _ _ _ _ _ _ _ _), ?_⟩
  rw [landing_grounded, collisionPass_foundGround, List.any_eq_true]
  simp [sensorHits]

theorem cx_prePass :
    prePass noKeys sampleRes sampleCtors 0 (sampleGame [ledgeTile, wallTile] [fallingPlayer] [])
      (.character 0) fallingPlayer (1 / 100) =
      { obj := flownPlayer, currentDirection := 0, bullets := [], running := true } := by
  simp [prePass, dispatch, updatePlayer, playerStateStep, handleShooting, stepAnimation,
    applyGravity, velocityStep, positionStep, inputDirection, fallingPlayer, sampleObject, noKeys,
    sampleGame, sampleRes, Timer.step, sampleTimer, abs_lt, flownPlayer, steppedAnims,
    sampleAnimation, Animation.step, ANIM_PLAYER_JUMP]
  norm_num

theorem cx_pass :
    collisionPass sampleRes (sampleGame [ledgeTile, wallTile] [fallingPlayer] []) (.character 0)
      flownPlayer =
      { obj := { landedPlayer with
                  data := .player { state := .jumping, healthPoints := 3,
                                    weaponTimer := { length := 1, time := 1 / 100 },
                                    deathTimer := sampleTimer },
                  grounded := false },
        foundGround := true, level := [ledgeTile, wallTile], characters := [fallingPlayer] } := by
  simp [collisionPass, scanLayer, collideWith, checkCollision, SDL_GetRectIntersectionFloat,
    SDL_RectEmptyFloat, colliderRect, sensorRect, collisionResponse, genericResponse,
    GameObject.type, ObjRef.inLevel, ObjRef.inCharacters, fallingPlayer, sampleObject, ledgeTile,
    wallTile, sampleGame, landedPlayer, flownPlayer, sampleTimer, sampleTexture, ANIM_PLAYER_JUMP,
    sampleRes]
  norm_num
  simp

theorem cx_update :
    update noKeys sampleRes sampleCtors 0 (sampleGame [ledgeTile, wallTile] [fallingPlayer] [])
      (.character 0) (1 / 100) = sampleGame [ledgeTile, wallTile] [landedPlayer] [] := by
  have hget : (sampleGame [ledgeTile, wallTile] [fallingPlayer] []).get (.character 0) =
      some fallingPlayer := rfl
  simp only [update, hget, cx_prePass, cx_pass]
  simp [landing, GameState.set, sampleGame, landedPlayer]

/-- C3 (counterexample): a falling player is lifted onto a ledge tile, which its
sensor hits, and is then pushed left off the ledge by a wall within the same
pass; `update` returns with `grounded = true` although the sensor rectangle
taken at the returned position intersects no level-type entity. -/
theorem C3_counterexample :
    (update noKeys sampleRes sampleCtors 0 (sampleGame [ledgeTile, wallTile] [fallingPlayer] [])
        (.character 0) (1 / 100)).get (.character 0) = some landedPlayer ∧
    landedPlayer.grounded = true ∧
    sensorTouchesLevel landedPlayer
      ((update noKeys sampleRes sampleCtors 0 (sampleGame [ledgeTile, wallTile] [fallingPlayer] [])
        (.character 0) (1 / 100)).others (.character 0)) = false := by
  rw [cx_update]
  refine ⟨rfl, rfl, ?_⟩
  simp [sensorTouchesLevel, sensorHits, GameState.others, ObjRef.inLevel, ObjRef.inCharacters,
    sampleGame, SDL_GetRectIntersectionFloat, SDL_RectEmptyFloat, colliderRect, sensorRect,
    landedPlayer, fallingPlayer, sampleObject, ledgeTile, wallTile, GameObject.type]
  norm_num

theorem C3_grounded_from_pass_witness :
    ∃ o, (update noKeys sampleRes sampleCtors 0
            (sampleGame [ledgeTile, wallTile] [fallingPlayer] []) (.character 0) (1 / 100)).get
          (.character 0) = some o ∧
      (o.grounded = true ↔
        ∃ p ∈ checkTrace sampleRes
            (prePass noKeys sampleRes sampleCtors 0
              (sampleGame [ledgeTile, wallTile] [fallingPlayer] []) (.character 0) fallingPlayer
              (1 / 100)).obj
            ((sampleGame [ledgeTile, wallTile] [fallingPlayer] []).others (.character 0)),
          p.2.type = .level ∧
          (SDL_GetRectIntersectionFloat (sensorRect p.1) (colliderRect p.2)).1 = true) :=
  C3_grounded_from_pass noKeys sampleRes sampleCtors 0
    (sampleGame [ledgeTile, wallTile] [fallingPlayer] []) (.character 0) (1 / 100) fallingPlayer rfl

/-! ## C4, C5, C6: collision responses of the player and of enemies -/

/-- C4: for a live player `a` and an enemy `b`, `collisionResponse(a, b)` lowers
the health of `a` by exactly 1 and leaves its position unchanged; with the new
health above 0 the state and velocity of `a` are unchanged, and with the new
health at or below 0 the state becomes dead, the horizontal velocity 0 and the
vertical velocity -350. -/
theorem C4_player_hit_by_enemy (res : Resources) (rectC : SDL_FRect) (a b : GameObject)
    (d : PlayerData) (ha : a.data = .player d) (hlive : d.state ≠ .dead)
    (hb : b.type = .enemy) :
    (collisionResponse res rectC a b).1.pos = a.pos ∧
    ∃ d', (collisionResponse res rectC a b).1.data = .player d' ∧
      d'.healthPoints = d.healthPoints - 1 ∧
      (0 < d'.healthPoints →
        d'.state = d.state ∧ (collisionResponse res rectC a b).1.vel = a.vel) ∧
      (d'.healthPoints ≤ 0 →
        d'.state = .dead ∧ (collisionResponse res rectC a b).1.vel.x = 0 ∧
        (collisionResponse res rectC a b).1.vel.y = -350) := by
  by_cases h : d.healthPoints - 1 ≤ 0
  · simp [collisionResponse, ha, hlive, hb, h]
    intro h'
    omega
  · simp [collisionResponse, ha, hlive, hb, h]

theorem C4_player_hit_by_enemy_witness :
    (collisionResponse sampleRes ⟨2, 1, 5, 5⟩ (samplePlayer .running 3 40) (sampleEnemy 2)).1.pos =
      (samplePlayer .running 3 40).pos ∧
    ∃ d', (collisionResponse sampleRes ⟨2, 1, 5, 5⟩ (samplePlayer .running 3 40)
        (sampleEnemy 2)).1.data = .player d' ∧
      d'.healthPoints = 3 - 1 ∧
      (0 < d'.healthPoints →
        d'.state = .running ∧
        (collisionResponse sampleRes ⟨2, 1, 5, 5⟩ (samplePlayer .running 3 40)
          (sampleEnemy 2)).1.vel = (samplePlayer .running 3 40).vel) ∧
      (d'.healthPoints ≤ 0 →
        d'.state = .dead ∧
        (collisionResponse sampleRes ⟨2, 1, 5, 5⟩ (samplePlayer .running 3 40)
          (sampleEnemy 2)).1.vel.x = 0 ∧
        (collisionResponse sampleRes ⟨2, 1, 5, 5⟩ (samplePlayer .running 3 40)
          (sampleEnemy 2)).1.vel.y = -350) :=
  C4_player_hit_by_enemy sampleRes ⟨2, 1, 5, 5⟩ (samplePlayer .running 3 40) (sampleEnemy 2)
    _ rfl (by simp) rfl

/-- C5: for a dead player `a` and every other entity `b`, `collisionResponse(a,
b)` leaves both `a` and `b` unchanged, so the health is not lowered again and the
state stays dead. -/
theorem C5_dead_player_untouched (res : Resources) (rectC : SDL_FRect) (a b : GameObject)
    (d : PlayerData) (ha : a.data = .player d) (hdead : d.state = .dead) :
    collisionResponse res rectC a b = (a, b) := by
  simp [collisionResponse, ha, hdead]

theorem C5_dead_player_untouched_witness :
    collisionResponse sampleRes ⟨2, 1, 5, 5⟩ (samplePlayer .dead 0 0) (sampleEnemy 2) =
      (samplePlayer .dead 0 0, sampleEnemy 2) :=
  C5_dead_player_untouched sampleRes ⟨2, 1, 5, 5⟩ (samplePlayer .dead 0 0) (sampleEnemy 2) _ rfl rfl

/-- C6: for a live enemy `a` and a level tile `b` with intersection rectangle
`C`: if `C.w < C.h` the response negates `a.vel.x` and `a.dir`; if `C.w >= C.h`
it leaves `a.dir` and `a.vel.x` unchanged. -/
theorem C6_enemy_bounce (res : Resources) (rectC : SDL_FRect) (a b : GameObject)
    (d : EnemyData) (ha : a.data = .enemy d) (hlive : d.state ≠ .dead) (hb : b.type = .level) :
    (rectC.w < rectC.h →
      (collisionResponse res rectC a b).1.vel.x = -a.vel.x ∧
      (collisionResponse res rectC a b).1.dir = -a.dir) ∧
    (rectC.h ≤ rectC.w →
      (collisionResponse res rectC a b).1.vel.x = a.vel.x ∧
      (collisionResponse res rectC a b).1.dir = a.dir) := by
  have hbd : b.data = .level := by
    cases hd : b.data <;> simp [GameObject.type, hd] at hb
    rfl
  have hresp : collisionResponse res rectC a b = (genericResponse rectC a, b) := by
    simp [collisionResponse, ha, hlive, hbd]
  have ht : a.type = .enemy := by simp [GameObject.type, ha]
  rw [hresp]
  exact ⟨genericResponse_enemy_horizontal rectC a ht, genericResponse_vertical rectC a⟩

theorem C6_enemy_bounce_witness :
    (collisionResponse sampleRes ⟨30, 2, 2, 30⟩ (sampleEnemy 2) sampleObject).1.vel.x = -50 ∧
    (collisionResponse sampleRes ⟨30, 2, 2, 30⟩ (sampleEnemy 2) sampleObject).1.dir = -1 :=
  (C6_enemy_bounce sampleRes ⟨30, 2, 2, 30⟩ (sampleEnemy 2) sampleObject _ rfl (by simp) rfl).1
    (by norm_num)

/-! ## C7, C8, C10: the bullet life cycle -/

theorem updateBullet_step (state : SDLState) (gs : GameState) (o : GameObject) (d : BulletData)
    (ho : o.data = .bullet d) :
    ∃ d', (updateBullet state gs o d).data = .bullet d' ∧
      lifecycleStep d.state d'.state = true := by
  cases hs : d.state with
  | moving =>
    simp only [updateBullet, hs]
    split_ifs
    · exact ⟨_, rfl, rfl⟩
    · exact ⟨d, ho, rfl⟩
  | colliding =>
    simp only [updateBullet, hs]
    split_ifs
    · exact ⟨_, rfl, rfl⟩
    · exact ⟨d, ho, by simp [hs, lifecycleStep]⟩
  | inactive =>
    simp only [updateBullet, hs]
    exact ⟨d, ho, by simp [hs, lifecycleStep]⟩

theorem updateBullet_inactive (state : SDLState) (gs : GameState) (o : GameObject)
    (d : BulletData) (hs : d.state = .inactive) : updateBullet state gs o d = o := by
  simp [updateBullet, hs]

theorem updateBullet_offscreen (state : SDLState) (gs : GameState) (o : GameObject)
    (d : BulletData) (hs : d.state = .moving)
    (hoff : o.pos.x - gs.mapViewport.x < 0 ∨ o.pos.x - gs.mapViewport.x > (state.logW : ℚ) ∨
      o.pos.y - gs.mapViewport.y < 0 ∨ o.pos.y - gs.mapViewport.y > (state.logH : ℚ)) :
    (updateBullet state gs o d).data = .bullet { d with state := .inactive } := by
  simp only [updateBullet, hs]
  rw [if_pos hoff]

theorem landing_data_of_bullet (obj : GameObject) (fg : Bool) (d : BulletData)
    (h : obj.data = .bullet d) : (landing obj fg).data = .bullet d := by
  simp only [landing]
  split_ifs
  · simp [h]
  · exact h

theorem landing_collider (obj : GameObject) (fg : Bool) :
    (landing obj fg).collider = obj.collider := by
  simp only [landing]
  split_ifs
  · split
    · split_ifs <;> rfl
    · rfl
  · rfl

/-- The part of `update` before the collision pass, for a bullet. -/
theorem prePass_bullet (state : SDLState) (res : Resources) (ctors : Ctors) (rnd : Int)
    (gs : GameState) (ref : ObjRef) (a : GameObject) (d : BulletData) (dt : ℚ)
    (ha : a.data = .bullet d) :
    (prePass state res ctors rnd gs ref a dt).obj =
      positionStep (velocityStep
        (updateBullet state gs (applyGravity (stepAnimation a dt) dt) d) 0 dt) dt ∧
    (prePass state res ctors rnd gs ref a dt).bullets = gs.bullets := by
  have h1 : (applyGravity (stepAnimation a dt) dt).data = .bullet d := by
    rw [applyGravity_data, stepAnimation_data, ha]
  simp [prePass, dispatch, h1]

theorem prePass_bullet_step (state : SDLState) (res : Resources) (ctors : Ctors) (rnd : Int)
    (gs : GameState) (ref : ObjRef) (a : GameObject) (d : BulletData) (dt : ℚ)
    (ha : a.data = .bullet d) :
    ∃ d', (prePass state res ctors rnd gs ref a dt).obj.data = .bullet d' ∧
      lifecycleStep d.state d'.state = true := by
  have h1 : (applyGravity (stepAnimation a dt) dt).data = .bullet d := by
    rw [applyGravity_data, stepAnimation_data, ha]
  rw [(prePass_bullet state res ctors rnd gs ref a d dt ha).1, positionStep_data,
    velocityStep_data]
  exact updateBullet_step state gs _ d h1

/-- The `update` of a bullet keeps it a bullet and only advances its state. -/
theorem update_bullet_step (state : SDLState) (res : Resources) (ctors : Ctors) (rnd : Int)
    (gs : GameState) (ref : ObjRef) (a : GameObject) (d : BulletData) (dt : ℚ)
    (hget : gs.get ref = some a) (ha : a.data = .bullet d) :
    ∃ a' d', (update state res ctors rnd gs ref dt).get ref = some a' ∧
      a'.data = .bullet d' ∧ lifecycleStep d.state d'.state = true := by
  obtain ⟨d1, hd1, hstep1⟩ := prePass_bullet_step state res ctors rnd gs ref a d dt ha
  have hinv := collisionPass_invariant res gs ref
    (fun o => ∃ d', o.data = .bullet d' ∧ lifecycleStep d.state d'.state = true)
    (fun x b hx => by
      obtain ⟨dx, hdx, hsx⟩ := hx
      obtain ⟨dy, hdy, hsy⟩ := checkCollision_bullet_step res x b dx hdx
      exact ⟨dy, hdy, lifecycleStep_trans hsx hsy⟩)
    (prePass state res ctors rnd gs ref a dt).obj ⟨d1, hd1, hstep1⟩
  obtain ⟨d2, hd2, hstep2⟩ := hinv
  exact ⟨_, d2, update_get state res ctors rnd gs ref dt a hget (prePass_length_ge _ _ _ _ _ _ _ _),
    landing_data_of_bullet _ _ d2 hd2, hstep2⟩

/-- C7: the bullet life cycle is monotonic. For every bullet `a` with state `s`,
one application of `collisionResponse` with `a` as first participant, or of
`update` to `a`, leaves a bullet whose state `s'` makes `(s, s')` one of
moving→moving, moving→colliding, moving→inactive, colliding→colliding,
colliding→inactive, inactive→inactive; `collisionResponse` with `a` as second
participant leaves `a` unchanged. -/
theorem C7_bullet_lifecycle_monotone (res : Resources) (a : GameObject) (d : BulletData)
    (ha : a.data = .bullet d) :
    (∀ (rectC : SDL_FRect) (b : GameObject),
      ∃ d', (collisionResponse res rectC a b).1.data = .bullet d' ∧
        lifecycleStep d.state d'.state = true) ∧
    (∀ (rectC : SDL_FRect) (b : GameObject), (collisionResponse res rectC b a).2 = a) ∧
    (∀ (state : SDLState) (ctors : Ctors) (rnd : Int) (gs : GameState) (ref : ObjRef) (dt : ℚ),
      gs.get ref = some a →
      ∃ a' d', (update state res ctors rnd gs ref dt).get ref = some a' ∧
        a'.data = .bullet d' ∧ lifecycleStep d.state d'.state = true) := by
  refine ⟨fun rectC b => collisionResponse_bullet_step res rectC a b d ha, ?_, ?_⟩
  · intro rectC b
    exact collisionResponse_snd res rectC b a (by simp [GameObject.type, ha])
  · intro state ctors rnd gs ref dt hget
    exact update_bullet_step state res ctors rnd gs ref a d dt hget ha

theorem C7_bullet_lifecycle_monotone_witness :
    (∃ d', (collisionResponse sampleRes ⟨2, 2, 4, 4⟩ (sampleBullet .moving)
        (sampleEnemy 2)).1.data = .bullet d' ∧ lifecycleStep .moving d'.state = true) ∧
    (∃ a' d', (update noKeys sampleRes sampleCtors 0
        (sampleGame [] [] [sampleBullet .colliding]) (.bullet 0) (1 / 10)).get (.bullet 0) =
          some a' ∧ a'.data = .bullet d' ∧ lifecycleStep .colliding d'.state = true) :=
  ⟨(C7_bullet_lifecycle_monotone sampleRes (sampleBullet .moving) _ rfl).1 _ _,
   (C7_bullet_lifecycle_monotone sampleRes (sampleBullet .colliding) _ rfl).2.2
      noKeys sampleCtors 0 (sampleGame [] [] [sampleBullet .colliding]) (.bullet 0) (1 / 10) rfl⟩

/-- C8: an inactive bullet is absent from gameplay. For an inactive bullet `a` in
slot `i` of the bullet list, `update(a)` leaves both layers unchanged, leaves the
other slots of the bullet list unchanged, and leaves `a` inactive with its
collider unchanged, whatever its rectangle overlaps. -/
theorem C8_inactive_bullet_absent (state : SDLState) (res : Resources) (ctors : Ctors)
    (rnd : Int) (gs : GameState) (i : Nat) (dt : ℚ) (a : GameObject) (d : BulletData)
    (hget : gs.get (.bullet i) = some a) (ha : a.data = .bullet d)
    (hs : d.state = .inactive) :
    (update state res ctors rnd gs (.bullet i) dt).level = gs.level ∧
    (update state res ctors rnd gs (.bullet i) dt).characters = gs.characters ∧
    (update state res ctors rnd gs (.bullet i) dt).bullets.length = gs.bullets.length ∧
    (∀ j, j ≠ i →
      (update state res ctors rnd gs (.bullet i) dt).bullets[j]? = gs.bullets[j]?) ∧
    ∃ a', (update state res ctors rnd gs (.bullet i) dt).bullets[i]? = some a' ∧
      a'.data = .bullet d ∧ bulletState a' = some .inactive ∧ a'.collider = a.collider := by
  have h1 : (applyGravity (stepAnimation a dt) dt).data = .bullet d := by
    rw [applyGravity_data, stepAnimation_data, ha]
  obtain ⟨hobj, hbul⟩ := prePass_bullet state res ctors rnd gs (.bullet i) a d dt ha
  rw [updateBullet_inactive state gs _ d hs] at hobj
  have hdata : (prePass state res ctors rnd gs (.bullet i) a dt).obj.data = .bullet d := by
    rw [hobj, positionStep_data, velocityStep_data, h1]
  have hcol : (prePass state res ctors rnd gs (.bullet i) a dt).obj.collider = a.collider := by
    rw [hobj, positionStep_collider, velocityStep_collider, applyGravity_collider,
      stepAnimation_collider]
  have hrest := collisionPass_rest res gs (.bullet i)
    (prePass state res ctors rnd gs (.bullet i) a dt).obj
    (fun b => checkCollision_bullet_rest res _ b d hdata (by simp [hs]))
  have hgetU := update_get state res ctors rnd gs (.bullet i) dt a hget
    (prePass_length_ge _ _ _ _ _ _ _ _)
  rw [update_eq state res ctors rnd gs (.bullet i) dt a hget] at hgetU ⊢
  simp only [GameState.set, GameState.get, hbul, hrest.2.1, hrest.2.2, hrest.1] at hgetU ⊢
  refine ⟨trivial, trivial, by simp, ?_, _, hgetU, ?_, ?_, ?_⟩
  · intro j hj
    simp [List.getElem?_set, Ne.symm hj]
  · exact landing_data_of_bullet _ _ d hdata
  · simp [bulletState, landing_data_of_bullet _ _ d hdata, hs]
  · rw [landing_collider, hcol]

theorem C8_inactive_bullet_absent_witness :
    (update noKeys sampleRes sampleCtors 0
      (sampleGame [sampleObject] [sampleEnemy 2] [sampleBullet .moving, sampleBullet .inactive])
      (.bullet 1) (1 / 10)).level = [sampleObject] ∧
    (update noKeys sampleRes sampleCtors 0
      (sampleGame [sampleObject] [sampleEnemy 2] [sampleBullet .moving, sampleBullet .inactive])
      (.bullet 1) (1 / 10)).characters = [sampleEnemy 2] :=
  ⟨(C8_inactive_bullet_absent noKeys sampleRes sampleCtors 0
      (sampleGame [sampleObject] [sampleEnemy 2] [sampleBullet .moving, sampleBullet .inactive])
      1 (1 / 10) (sampleBullet .inactive) _ rfl rfl rfl).1,
   (C8_inactive_bullet_absent noKeys sampleRes sampleCtors 0
      (sampleGame [sampleObject] [sampleEnemy 2] [sampleBullet .moving, sampleBullet .inactive])
      1 (1 / 10) (sampleBullet .inactive) _ rfl rfl rfl).2.1⟩

/-- C10: a moving bullet that is off the right edge of the camera viewport when
`update` is called (`pos.x - mapViewport.x > logW`), or off the left, top or
bottom edge, is inactive when `update` returns, whatever its velocity and
whatever it overlaps. -/
theorem C10_offscreen_bullet_inactive (state : SDLState) (res : Resources) (ctors : Ctors)
    (rnd : Int) (gs : GameState) (ref : ObjRef) (dt : ℚ) (a : GameObject) (d : BulletData)
    (hget : gs.get ref = some a) (ha : a.data = .bullet d) (hs : d.state = .moving)
    (hoff : a.pos.x - gs.mapViewport.x > (state.logW : ℚ) ∨ a.pos.x - gs.mapViewport.x < 0 ∨
      a.pos.y - gs.mapViewport.y < 0 ∨ a.pos.y - gs.mapViewport.y > (state.logH : ℚ)) :
    ∃ a', (update state res ctors rnd gs ref dt).get ref = some a' ∧
      bulletState a' = some .inactive := by
  have h1 : (applyGravity (stepAnimation a dt) dt).data = .bullet d := by
    rw [applyGravity_data, stepAnimation_data, ha]
  have hpos : (applyGravity (stepAnimation a dt) dt).pos = a.pos := by
    rw [applyGravity_pos, stepAnimation_pos]
  have hoff' : (applyGravity (stepAnimation a dt) dt).pos.x - gs.mapViewport.x < 0 ∨
      (applyGravity (stepAnimation a dt) dt).pos.x - gs.mapViewport.x > (state.logW : ℚ) ∨
      (applyGravity (stepAnimation a dt) dt).pos.y - gs.mapViewport.y < 0 ∨
      (applyGravity (stepAnimation a dt) dt).pos.y - gs.mapViewport.y > (state.logH : ℚ) := by
    rw [hpos]
    tauto
  obtain ⟨hobj, -⟩ := prePass_bullet state res ctors rnd gs ref a d dt ha
  have hdata : (prePass state res ctors rnd gs ref a dt).obj.data =
      .bullet { d with state := .inactive } := by
    rw [hobj, positionStep_data, velocityStep_data, updateBullet_offscreen state gs _ d hs hoff']
  have hrest := collisionPass_rest res gs ref (prePass state res ctors rnd gs ref a dt).obj
    (fun b => checkCollision_bullet_rest res _ b _ hdata (by simp))
  refine ⟨_, update_get state res ctors rnd gs ref dt a hget (prePass_length_ge _ _ _ _ _ _ _ _), ?_⟩
  rw [hrest.1]
  simp [bulletState, landing_data_of_bullet _ _ _ hdata]

theorem C10_offscreen_bullet_inactive_witness :
    ∃ a', (update noKeys sampleRes sampleCtors 0
        (sampleGame [sampleObject] [sampleEnemy 2]
          [{ sampleBullet .moving with pos := { x := 641, y := 100 } }])
        (.bullet 0) (1 / 10)).get (.bullet 0) = some a' ∧
      bulletState a' = some .inactive :=
  C10_offscreen_bullet_inactive noKeys sampleRes sampleCtors 0
    (sampleGame [sampleObject] [sampleEnemy 2]
      [{ sampleBullet .moving with pos := { x := 641, y := 100 } }])
    (.bullet 0) (1 / 10) _ _ rfl rfl rfl
    (Or.inl (by norm_num [sampleGame, noKeys, sampleBullet]))

/-! ## C9: the idle slow-down -/

theorem handleShooting_vel (state : SDLState) (res : Resources) (ctors : Ctors) (rnd : Int)
    (gs : GameState) (ref : ObjRef) (obj : GameObject) :
    (handleShooting state res ctors rnd gs ref obj).1.vel = obj.vel := by
  simp only [handleShooting]
  split
  · split_ifs <;> rfl
  · rfl

/-- The horizontal velocity after the idle case of the state switch when no
direction is held. -/
theorem playerStateStep_idle_vel (state : SDLState) (res : Resources) (ctors : Ctors)
    (rnd : Int) (gs : GameState) (ref : ObjRef) (obj : GameObject) (dt : ℚ) :
    (playerStateStep state res ctors rnd gs ref obj .idle 0 dt).1.vel =
      (idleSlowDown obj dt).vel := by
  simp [playerStateStep, handleShooting_vel]

/-- C9: for a player in state idle with no left/right input, `acc.x >= 0` and
`dt >= 0`, the idle deceleration step of `update` maps a non-zero `vel.x` to
exactly 0 when `|vel.x| < 1.5 * acc.x * dt` and otherwise moves it toward 0 by
`1.5 * acc.x * dt`; the result has the same sign as `vel.x` or is 0, and its
magnitude does not exceed the previous one. -/
theorem C9_idle_deceleration (state : SDLState) (res : Resources) (ctors : Ctors) (rnd : Int)
    (gs : GameState) (ref : ObjRef) (obj : GameObject) (dt : ℚ)
    (hno : inputDirection state = 0) (hacc : 0 ≤ obj.acc.x) (hdt : 0 ≤ dt)
    (hv : obj.vel.x ≠ 0) :
    (|obj.vel.x| < 3 / 2 * obj.acc.x * dt →
      (playerStateStep state res ctors rnd gs ref obj .idle (inputDirection state) dt).1.vel.x
        = 0) ∧
    (3 / 2 * obj.acc.x * dt ≤ |obj.vel.x| → 0 < obj.vel.x →
      (playerStateStep state res ctors rnd gs ref obj .idle (inputDirection state) dt).1.vel.x
        = obj.vel.x - 3 / 2 * obj.acc.x * dt) ∧
    (3 / 2 * obj.acc.x * dt ≤ |obj.vel.x| → obj.vel.x < 0 →
      (playerStateStep state res ctors rnd gs ref obj .idle (inputDirection state) dt).1.vel.x
        = obj.vel.x + 3 / 2 * obj.acc.x * dt) ∧
    |(playerStateStep state res ctors rnd gs ref obj .idle (inputDirection state) dt).1.vel.x|
      ≤ |obj.vel.x| ∧
    0 ≤ (playerStateStep state res ctors rnd gs ref obj .idle (inputDirection state) dt).1.vel.x
      * obj.vel.x := by
  have hk : 0 ≤ 3 / 2 * obj.acc.x * dt := by positivity
  rw [hno, playerStateStep_idle_vel]
  simp only [idleSlowDown, hv, ne_eq, not_false_eq_true, if_true]
  rcases lt_or_gt_of_ne hv with hneg | hpos
  · have h1 : ¬ obj.vel.x > 0 := not_lt.mpr hneg.le
    have habs : |obj.vel.x| = -obj.vel.x := abs_of_neg hneg
    have hamt : |3 / 2 * obj.acc.x * dt| = 3 / 2 * obj.acc.x * dt := abs_of_nonneg hk
    simp only [h1, if_false, hamt, habs]
    refine ⟨?_, ?_, ?_, ?_, ?_⟩
    · intro h
      simp [h]
    · intro _ h
      exact False.elim h
    · intro h _
      rw [if_neg (not_lt.mpr h)]
    · split_ifs with h
      · simp
        exact hneg.le
      · have h' := not_lt.mp h
        simp only []
        rw [abs_of_nonpos (by linarith)]
        linarith
    · split_ifs with h
      · simp
      · have h' := not_lt.mp h
        simp only []
        nlinarith
  · have habs : |obj.vel.x| = obj.vel.x := abs_of_pos hpos
    have hamt : |-(3 / 2) * obj.acc.x * dt| = 3 / 2 * obj.acc.x * dt := by
      rw [show -(3 / 2) * obj.acc.x * dt = -(3 / 2 * obj.acc.x * dt) by ring, abs_neg,
        abs_of_nonneg hk]
    simp only [gt_iff_lt, hpos, if_true, hamt, habs]
    refine ⟨?_, ?_, ?_, ?_, ?_⟩
    · intro h
      simp [h]
    · intro h _
      rw [if_neg (not_lt.mpr h)]
      simp only []
      ring
    · intro _ h
      exact absurd h (not_lt.mpr hpos.le)
    · split_ifs with h
      · simp
        exact hpos.le
      · have h' := not_lt.mp h
        simp only []
        rw [abs_of_nonneg (by linarith)]
        linarith
    · split_ifs with h
      · simp
      · have h' := not_lt.mp h
        simp only []
        nlinarith

theorem C9_idle_deceleration_witness :
    (playerStateStep noKeys sampleRes sampleCtors 0 (sampleGame [] [samplePlayer .idle 3 40] [])
      (.character 0) (samplePlayer .idle 3 40) .idle (inputDirection noKeys) (1 / 10)).1.vel.x
        = 0 :=
  (C9_idle_deceleration noKeys sampleRes sampleCtors 0
    (sampleGame [] [samplePlayer .idle 3 40] []) (.character 0) (samplePlayer .idle 3 40) (1 / 10)
    (by simp [inputDirection, noKeys]) (by norm_num [samplePlayer])
    (by norm_num) (by norm_num [samplePlayer, sampleObject])).1
    (by norm_num [samplePlayer, sampleObject])

/-! ## C11, C12, C13, C15: further collision responses -/

/-- C11: for a moving bullet `a` and a live enemy `b` with health 1 (with the same
facing as `a` or not), `collisionResponse(a, b)` leaves `b` with health 0 and
state dead and finalizes the bullet on the same hit: the state of `a` becomes
colliding and its velocity zero. -/
theorem C11_killing_hit_finalizes_bullet (res : Resources) (rectC : SDL_FRect)
    (a b : GameObject) (da : BulletData) (db : EnemyData)
    (ha : a.data = .bullet da) (hmove : da.state = .moving)
    (hb : b.data = .enemy db) (hlive : db.state ≠ .dead) (hhp : db.healthPoints = 1) :
    (∃ db', (collisionResponse res rectC a b).2.data = .enemy db' ∧
      db'.healthPoints = 0 ∧ db'.state = .dead) ∧
    bulletState (collisionResponse res rectC a b).1 = some .colliding ∧
    (collisionResponse res rectC a b).1.vel = { x := 0, y := 0 } := by
  have h2 : (collisionResponse res rectC a b).2 = damageEnemy res a b db := by
    simp [collisionResponse, ha, hmove, hb, hlive, damageEnemy_type]
  have h1 : (collisionResponse res rectC a b).1 = bulletImpact res rectC a := by
    simp [collisionResponse, ha, hmove, hb, hlive, damageEnemy_type]
  rw [h1, h2]
  refine ⟨?_, ?_, ?_⟩
  · simp [damageEnemy, hhp]
  · simp [bulletState, bulletImpact]
  · simp [bulletImpact]

theorem C11_killing_hit_finalizes_bullet_witness :
    (∃ db', (collisionResponse sampleRes ⟨2, 2, 4, 4⟩ (sampleBullet .moving)
        (sampleEnemy 1)).2.data = .enemy db' ∧ db'.healthPoints = 0 ∧ db'.state = .dead) ∧
    bulletState (collisionResponse sampleRes ⟨2, 2, 4, 4⟩ (sampleBullet .moving)
        (sampleEnemy 1)).1 = some .colliding ∧
    (collisionResponse sampleRes ⟨2, 2, 4, 4⟩ (sampleBullet .moving) (sampleEnemy 1)).1.vel =
      { x := 0, y := 0 } :=
  C11_killing_hit_finalizes_bullet sampleRes ⟨2, 2, 4, 4⟩ (sampleBullet .moving) (sampleEnemy 1)
    _ _ rfl rfl rfl (by simp) rfl

/-- C12: for a moving bullet `a` and a dead enemy `b`, `collisionResponse(a, b)`
leaves both `a` and `b` completely unchanged. -/
theorem C12_bullet_passes_dead_enemy (res : Resources) (rectC : SDL_FRect)
    (a b : GameObject) (da : BulletData) (db : EnemyData)
    (ha : a.data = .bullet da) (hmove : da.state = .moving)
    (hb : b.data = .enemy db) (hdead : db.state = .dead) :
    collisionResponse res rectC a b = (a, b) := by
  simp [collisionResponse, ha, hmove, hb, hdead]

theorem C12_bullet_passes_dead_enemy_witness :
    collisionResponse sampleRes ⟨2, 2, 4, 4⟩ (sampleBullet .moving)
        { sampleEnemy 0 with
            data := .enemy { state := .dead, healthPoints := 0, damagedTimer := sampleTimer } } =
      (sampleBullet .moving,
        { sampleEnemy 0 with
            data := .enemy { state := .dead, healthPoints := 0, damagedTimer := sampleTimer } }) :=
  C12_bullet_passes_dead_enemy sampleRes ⟨2, 2, 4, 4⟩ (sampleBullet .moving) _ _ _ rfl rfl rfl rfl

/-- The generic push-out of an object that is not an enemy, horizontal case. -/
theorem genericResponse_horizontal (rectC : SDL_FRect) (a : GameObject)
    (ht : a.type ≠ .enemy) (h : rectC.w < rectC.h) :
    (genericResponse rectC a).vel.x = 0 ∧
    (genericResponse rectC a).pos.y = a.pos.y ∧
    (genericResponse rectC a).vel.y = a.vel.y ∧
    (0 < a.vel.x → (genericResponse rectC a).pos.x = a.pos.x - rectC.w) ∧
    (a.vel.x < 0 → (genericResponse rectC a).pos.x = a.pos.x + rectC.w) ∧
    (a.vel.x = 0 → (genericResponse rectC a).pos.x = a.pos.x) := by
  have h1 : ∀ p : Vec2, ({ a with pos := p } : GameObject).type ≠ .enemy := fun p => ht
  simp only [genericResponse, h, if_true]
  rcases lt_trichotomy a.vel.x 0 with hv | hv | hv
  · have hn : ¬ a.vel.x > 0 := not_lt.mpr hv.le
    simp [hn, hv, h1, hv.ne, hv.le]
  · simp [hv, ht]
  · have hn : ¬ a.vel.x < 0 := not_lt.mpr hv.le
    simp [hn, hv, h1, hv.ne', hv.le]

/-- The generic push-out, vertical case. -/
theorem genericResponse_vertical_axis (rectC : SDL_FRect) (a : GameObject)
    (h : rectC.h ≤ rectC.w) :
    (genericResponse rectC a).vel.y = 0 ∧
    (genericResponse rectC a).pos.x = a.pos.x ∧
    (genericResponse rectC a).vel.x = a.vel.x ∧
    (0 < a.vel.y → (genericResponse rectC a).pos.y = a.pos.y - rectC.h) ∧
    (a.vel.y < 0 → (genericResponse rectC a).pos.y = a.pos.y + rectC.h) ∧
    (a.vel.y = 0 → (genericResponse rectC a).pos.y = a.pos.y) := by
  have h' : ¬ rectC.w < rectC.h := not_lt.mpr h
  simp only [genericResponse, h', if_false]
  rcases lt_trichotomy a.vel.y 0 with hv | hv | hv
  · have hn : ¬ a.vel.y > 0 := not_lt.mpr hv.le
    simp [hn, hv, hv.ne, hv.le]
  · simp [hv]
  · have hn : ¬ a.vel.y < 0 := not_lt.mpr hv.le
    simp [hn, hv, hv.ne', hv.le]

theorem data_level_of_type {b : GameObject} (hb : b.type = .level) : b.data = .level := by
  cases hd : b.data <;> simp [GameObject.type, hd] at hb
  rfl

/-- The response of a live player to a level tile is the generic push-out. -/
theorem collisionResponse_player_level (res : Resources) (rectC : SDL_FRect) (a b : GameObject)
    (d : PlayerData) (ha : a.data = .player d) (hlive : d.state ≠ .dead)
    (hb : b.type = .level) :
    collisionResponse res rectC a b = (genericResponse rectC a, b) := by
  simp [collisionResponse, ha, hlive, hb]

/-- C13: for a live player `a` and a level tile `b` with intersection rectangle
`C`, `collisionResponse(a, b)` acts on one axis chosen by the tie-break. If
`C.w < C.h`: `pos.x` becomes `pos.x - C.w` when `vel.x > 0` and `pos.x + C.w`
when `vel.x < 0`, `vel.x` becomes 0, and `pos.y`, `vel.y` are unchanged.
Otherwise (`C.w >= C.h`): `pos.y` becomes `pos.y - C.h` when `vel.y > 0` and
`pos.y + C.h` when `vel.y < 0`, `vel.y` becomes 0, and `pos.x`, `vel.x` are
unchanged. `b` is unchanged in both cases. -/
theorem C13_player_push_out_axis (res : Resources) (rectC : SDL_FRect) (a b : GameObject)
    (d : PlayerData) (ha : a.data = .player d) (hlive : d.state ≠ .dead)
    (hb : b.type = .level) :
    (rectC.w < rectC.h →
      (collisionResponse res rectC a b).1.vel.x = 0 ∧
      (collisionResponse res rectC a b).1.pos.y = a.pos.y ∧
      (collisionResponse res rectC a b).1.vel.y = a.vel.y ∧
      (0 < a.vel.x → (collisionResponse res rectC a b).1.pos.x = a.pos.x - rectC.w) ∧
      (a.vel.x < 0 → (collisionResponse res rectC a b).1.pos.x = a.pos.x + rectC.w)) ∧
    (rectC.h ≤ rectC.w →
      (collisionResponse res rectC a b).1.vel.y = 0 ∧
      (collisionResponse res rectC a b).1.pos.x = a.pos.x ∧
      (collisionResponse res rectC a b).1.vel.x = a.vel.x ∧
      (0 < a.vel.y → (collisionResponse res rectC a b).1.pos.y = a.pos.y - rectC.h) ∧
      (a.vel.y < 0 → (collisionResponse res rectC a b).1.pos.y = a.pos.y + rectC.h)) ∧
    (collisionResponse res rectC a b).2 = b := by
  have ht : a.type ≠ .enemy := by simp [GameObject.type, ha]
  rw [collisionResponse_player_level res rectC a b d ha hlive hb]
  refine ⟨fun h => ?_, fun h => ?_, rfl⟩
  · obtain ⟨h1, h2, h3, h4, h5, -⟩ := genericResponse_horizontal rectC a ht h
    exact ⟨h1, h2, h3, h4, h5⟩
  · obtain ⟨h1, h2, h3, h4, h5, -⟩ := genericResponse_vertical_axis rectC a h
    exact ⟨h1, h2, h3, h4, h5⟩

theorem C13_player_push_out_axis_witness :
    (collisionResponse sampleRes ⟨30, 1, 2, 31⟩ (samplePlayer .running 3 40) sampleObject).1.vel.x
      = 0 ∧
    (collisionResponse sampleRes ⟨30, 1, 2, 31⟩ (samplePlayer .running 3 40) sampleObject).1.pos.x
      = 0 - 2 :=
  ⟨((C13_player_push_out_axis sampleRes ⟨30, 1, 2, 31⟩ (samplePlayer .running 3 40) sampleObject
      _ rfl (by simp) rfl).1 (by norm_num)).1,
   ((C13_player_push_out_axis sampleRes ⟨30, 1, 2, 31⟩ (samplePlayer .running 3 40) sampleObject
      _ rfl (by simp) rfl).1 (by norm_num)).2.2.2.1 (by norm_num [samplePlayer])⟩

/-- C15: for two enemies `a` (the entity being updated) and `b`: if neither is
dead, `collisionResponse(a, b)` applies the generic push-out to `a` and leaves
`b` unchanged; if either is dead, both are left unchanged. -/
theorem C15_enemy_vs_enemy (res : Resources) (rectC : SDL_FRect) (a b : GameObject)
    (da db : EnemyData) (ha : a.data = .enemy da) (hb : b.data = .enemy db) :
    (da.state ≠ .dead ∧ db.state ≠ .dead →
      collisionResponse res rectC a b = (genericResponse rectC a, b)) ∧
    (da.state = .dead ∨ db.state = .dead → collisionResponse res rectC a b = (a, b)) := by
  constructor
  · intro h
    simp [collisionResponse, ha, hb, h.1, h.2]
  · intro h
    have hn : ¬ (da.state ≠ .dead ∧ db.state ≠ .dead) := by
      rcases h with h | h <;> simp [h]
    simp only [collisionResponse, ha, hb]
    rw [if_neg hn]

theorem C15_enemy_vs_enemy_witness :
    collisionResponse sampleRes ⟨2, 2, 3, 30⟩ (sampleEnemy 2) (sampleEnemy 1) =
      (genericResponse ⟨2, 2, 3, 30⟩ (sampleEnemy 2), sampleEnemy 1) :=
  (C15_enemy_vs_enemy sampleRes ⟨2, 2, 3, 30⟩ (sampleEnemy 2) (sampleEnemy 1) _ _ rfl rfl).1
    ⟨by simp, by simp⟩

/-! ## C14: what the push-out does -/

theorem cx_leaving_before : overlapRect leavingPlayer platformEnd = ⟨9, 0, 1, 5⟩ := by
  simp [overlapRect, SDL_GetRectIntersectionFloat, SDL_RectEmptyFloat, colliderRect,
    leavingPlayer, samplePlayer, platformEnd, sampleObject]
  norm_num

theorem cx_leaving_check :
    checkCollision sampleRes leavingPlayer platformEnd =
      ({ leavingPlayer with pos := { x := 8, y := -5 }, vel := { x := 0, y := 100 } },
        platformEnd) := by
  have h : SDL_GetRectIntersectionFloat (colliderRect leavingPlayer) (colliderRect platformEnd) =
      (true, ⟨9, 0, 1, 5⟩) := by
    simp [SDL_GetRectIntersectionFloat, SDL_RectEmptyFloat, colliderRect,
      leavingPlayer, samplePlayer, platformEnd, sampleObject]
    norm_num
  simp only [checkCollision, h]
  simp [collisionResponse, genericResponse, GameObject.type, leavingPlayer, samplePlayer,
    platformEnd, sampleObject]
  norm_num

/-- C14 (counterexample): a live player moving right and down overlaps the right
end of a platform tile by 1 across and 5 down; `checkCollision` pushes it left,
further into the tile, and the collider rectangles then overlap by 2 across and
5 down. -/
theorem C14_counterexample :
    0 < (overlapRect leavingPlayer platformEnd).w ∧
    0 < (overlapRect leavingPlayer platformEnd).h ∧
    overlapRect (checkCollision sampleRes leavingPlayer platformEnd).1
      (checkCollision sampleRes leavingPlayer platformEnd).2 = ⟨8, 0, 2, 5⟩ ∧
    (SDL_GetRectIntersectionFloat
      (colliderRect (checkCollision sampleRes leavingPlayer platformEnd).1)
      (colliderRect (checkCollision sampleRes leavingPlayer platformEnd).2)).1 = true := by
  rw [cx_leaving_before, cx_leaving_check]
  refine ⟨by norm_num, by norm_num, ?_, ?_⟩
  · simp [overlapRect, SDL_GetRectIntersectionFloat, SDL_RectEmptyFloat, colliderRect,
      leavingPlayer, samplePlayer, platformEnd, sampleObject]
    norm_num
  · simp [SDL_GetRectIntersectionFloat, SDL_RectEmptyFloat, colliderRect,
      leavingPlayer, samplePlayer, platformEnd, sampleObject]
    norm_num

/-- The flag and the extent of the intersection of two rectangles with
non-negative sizes. -/
theorem intersection_of_nonneg (A B : SDL_FRect) (hAw : 0 ≤ A.w) (hAh : 0 ≤ A.h)
    (hBw : 0 ≤ B.w) (hBh : 0 ≤ B.h) :
    (SDL_GetRectIntersectionFloat A B).2.w = min (A.x + A.w) (B.x + B.w) - max A.x B.x ∧
    (SDL_GetRectIntersectionFloat A B).2.h = min (A.y + A.h) (B.y + B.h) - max A.y B.y ∧
    ((SDL_GetRectIntersectionFloat A B).1 = true ↔
      0 ≤ min (A.x + A.w) (B.x + B.w) - max A.x B.x ∧
      0 ≤ min (A.y + A.h) (B.y + B.h) - max A.y B.y) := by
  have e1 : (if B.x > A.x then B.x else A.x) = max A.x B.x := by
    rw [max_def]; split_ifs <;> linarith
  have e2 : (if B.x + B.w < A.x + A.w then B.x + B.w else A.x + A.w)
      = min (A.x + A.w) (B.x + B.w) := by
    rw [min_def]; split_ifs <;> linarith
  have e3 : (if B.y > A.y then B.y else A.y) = max A.y B.y := by
    rw [max_def]; split_ifs <;> linarith
  have e4 : (if B.y + B.h < A.y + A.h then B.y + B.h else A.y + A.h)
      = min (A.y + A.h) (B.y + B.h) := by
    rw [min_def]; split_ifs <;> linarith
  simp [SDL_GetRectIntersectionFloat, SDL_RectEmptyFloat, not_lt.mpr hAw, not_lt.mpr hAh,
    not_lt.mpr hBw, not_lt.mpr hBh, e1, e2, e3, e4]
  tauto

/-- The extent of the overlap of two objects whose collider rectangles have
non-negative sizes. -/
theorem overlapRect_of_nonneg (a b : GameObject) (hAw : 0 ≤ (colliderRect a).w)
    (hAh : 0 ≤ (colliderRect a).h) (hBw : 0 ≤ (colliderRect b).w)
    (hBh : 0 ≤ (colliderRect b).h) :
    (overlapRect a b).w =
      min ((colliderRect a).x + (colliderRect a).w) ((colliderRect b).x + (colliderRect b).w)
        - max (colliderRect a).x (colliderRect b).x ∧
    (overlapRect a b).h =
      min ((colliderRect a).y + (colliderRect a).h) ((colliderRect b).y + (colliderRect b).h)
        - max (colliderRect a).y (colliderRect b).y :=
  ⟨(intersection_of_nonneg _ _ hAw hAh hBw hBh).1, (intersection_of_nonneg _ _ hAw hAh hBw hBh).2.1⟩

/-- A rectangle pair with an intersection of positive width has non-negative
sizes. -/
theorem nonneg_of_overlap_pos (A B : SDL_FRect)
    (hw : 0 < (SDL_GetRectIntersectionFloat A B).2.w) :
    0 ≤ A.w ∧ 0 ≤ A.h ∧ 0 ≤ B.w ∧ 0 ≤ B.h := by
  by_cases he : (SDL_RectEmptyFloat A || SDL_RectEmptyFloat B) = true
  · simp [SDL_GetRectIntersectionFloat, he] at hw
  · simp [SDL_RectEmptyFloat] at he
    exact ⟨he.1.1, he.1.2, he.2.1, he.2.2⟩

/-- C14 (amended): what the push-out of `checkCollision` does to a live player `a`
against a level tile `b` whose collider rectangles overlap with positive width
and height, `C` being the intersection rectangle the check computes. `b` is
unchanged. `a` is displaced along one axis only, `x` when `C.w < C.h` and `y`
otherwise, by the extent of `C` on that axis, against the sign of its velocity
on that axis, and not at all when that velocity is 0. When the velocity points
into `b` (`movesInto`) the displacement is the depth by which the leading edge
of `a` has entered `b`: moving right, `pos.x` becomes
`pos.x - ((A.x + A.w) - B.x)`; moving left, `pos.x + ((B.x + B.w) - A.x)`;
moving down, `pos.y - ((A.y + A.h) - B.y)`; moving up,
`pos.y + ((B.y + B.h) - A.y)`, for the collider rectangles `A` of `a` and `B`
of `b` in world coordinates. -/
theorem C14_push_out_displacement (res : Resources) (a b : GameObject) (d : PlayerData)
    (ha : a.data = .player d) (hlive : d.state ≠ .dead) (hb : b.type = .level)
    (hw : 0 < (overlapRect a b).w) (hh : 0 < (overlapRect a b).h) :
    (checkCollision res a b).2 = b ∧
    ((overlapRect a b).w < (overlapRect a b).h →
      (checkCollision res a b).1.pos.y = a.pos.y ∧
      (0 < a.vel.x → (checkCollision res a b).1.pos.x = a.pos.x - (overlapRect a b).w) ∧
      (a.vel.x < 0 → (checkCollision res a b).1.pos.x = a.pos.x + (overlapRect a b).w) ∧
      (a.vel.x = 0 → (checkCollision res a b).1.pos.x = a.pos.x)) ∧
    ((overlapRect a b).h ≤ (overlapRect a b).w →
      (checkCollision res a b).1.pos.x = a.pos.x ∧
      (0 < a.vel.y → (checkCollision res a b).1.pos.y = a.pos.y - (overlapRect a b).h) ∧
      (a.vel.y < 0 → (checkCollision res a b).1.pos.y = a.pos.y + (overlapRect a b).h) ∧
      (a.vel.y = 0 → (checkCollision res a b).1.pos.y = a.pos.y)) ∧
    (movesInto a b →
      ((overlapRect a b).w < (overlapRect a b).h →
        (0 < a.vel.x → (checkCollision res a b).1.pos.x =
          a.pos.x - ((colliderRect a).x + (colliderRect a).w - (colliderRect b).x)) ∧
        (a.vel.x < 0 → (checkCollision res a b).1.pos.x =
          a.pos.x + ((colliderRect b).x + (colliderRect b).w - (colliderRect a).x))) ∧
      ((overlapRect a b).h ≤ (overlapRect a b).w →
        (0 < a.vel.y → (checkCollision res a b).1.pos.y =
          a.pos.y - ((colliderRect a).y + (colliderRect a).h - (colliderRect b).y)) ∧
        (a.vel.y < 0 → (checkCollision res a b).1.pos.y =
          a.pos.y + ((colliderRect b).y + (colliderRect b).h - (colliderRect a).y)))) := by
  obtain ⟨hAw, hAh, hBw, hBh⟩ := nonneg_of_overlap_pos _ _ hw
  obtain ⟨cw, ch⟩ := overlapRect_of_nonneg a b hAw hAh hBw hBh
  have hflag : (SDL_GetRectIntersectionFloat (colliderRect a) (colliderRect b)).1 = true := by
    rw [(intersection_of_nonneg _ _ hAw hAh hBw hBh).2.2, ← cw, ← ch]
    exact ⟨hw.le, hh.le⟩
  have hcheck : checkCollision res a b = (genericResponse (overlapRect a b) a, b) := by
    simp only [checkCollision, hflag, if_true]
    exact collisionResponse_player_level res _ a b d ha hlive hb
  have ht : a.type ≠ .enemy := by simp [GameObject.type, ha]
  rw [hcheck]
  refine ⟨rfl, ?_, ?_, ?_⟩
  · intro hlt
    obtain ⟨-, hy, -, hpos, hneg, hzero⟩ := genericResponse_horizontal (overlapRect a b) a ht hlt
    exact ⟨hy, hpos, hneg, hzero⟩
  · intro hge
    obtain ⟨-, hx, -, hpos, hneg, hzero⟩ := genericResponse_vertical_axis (overlapRect a b) a hge
    exact ⟨hx, hpos, hneg, hzero⟩
  · intro hinto
    constructor
    · intro hlt
      obtain ⟨-, -, -, hpos, hneg, -⟩ := genericResponse_horizontal (overlapRect a b) a ht hlt
      simp only [movesInto, hlt, if_true] at hinto
      constructor
      · intro hv
        rcases hinto with ⟨-, h1, h2⟩ | ⟨hv', -, -⟩
        · show (genericResponse (overlapRect a b) a).pos.x = _
          rw [hpos hv, cw, min_eq_left h2, max_eq_right h1]
        · exact absurd hv (not_lt.mpr hv'.le)
      · intro hv
        rcases hinto with ⟨hv', -, -⟩ | ⟨-, h1, h2⟩
        · exact absurd hv (not_lt.mpr hv'.le)
        · show (genericResponse (overlapRect a b) a).pos.x = _
          rw [hneg hv, cw, min_eq_right h2, max_eq_left h1]
    · intro hge
      obtain ⟨-, -, -, hpos, hneg, -⟩ := genericResponse_vertical_axis (overlapRect a b) a hge
      simp only [movesInto, not_lt.mpr hge, if_false] at hinto
      constructor
      · intro hv
        rcases hinto with ⟨-, h1, h2⟩ | ⟨hv', -, -⟩
        · show (genericResponse (overlapRect a b) a).pos.y = _
          rw [hpos hv, ch, min_eq_left h2, max_eq_right h1]
        · exact absurd hv (not_lt.mpr hv'.le)
      · intro hv
        rcases hinto with ⟨hv', -, -⟩ | ⟨-, h1, h2⟩
        · exact absurd hv (not_lt.mpr hv'.le)
        · show (genericResponse (overlapRect a b) a).pos.y = _
          rw [hneg hv, ch, min_eq_right h2, max_eq_left h1]

theorem arriving_overlap : overlapRect arrivingPlayer platformEnd = ⟨0, 0, 1, 5⟩ := by
  simp [overlapRect, SDL_GetRectIntersectionFloat, SDL_RectEmptyFloat, colliderRect,
    arrivingPlayer, samplePlayer, platformEnd, sampleObject]
  norm_num

theorem C14_push_out_displacement_witness :
    (checkCollision sampleRes arrivingPlayer platformEnd).1.pos.x =
      -9 - (-9 + 0 + 10 - (0 + 0)) :=
  (((C14_push_out_displacement sampleRes arrivingPlayer platformEnd _ rfl (by simp) rfl
    (by rw [arriving_overlap]; norm_num) (by rw [arriving_overlap]; norm_num)).2.2.2
    (by
      simp only [movesInto, arriving_overlap]
      norm_num [colliderRect, arrivingPlayer, samplePlayer, platformEnd, sampleObject])).1
    (by rw [arriving_overlap]; norm_num)).1
    (by norm_num [arrivingPlayer, samplePlayer])

/-! ## C16: falling off the map -/

theorem fallen_prePass :
    prePass rightKey sampleRes sampleCtors 0 (sampleGame [] [fallenPlayer] []) (.character 0)
      fallenPlayer (1 / 100) =
      { obj := driftingPlayer, currentDirection := 1, bullets := [], running := true } := by
  simp [prePass, dispatch, updatePlayer, playerStateStep, handleShooting, stepAnimation,
    applyGravity, velocityStep, positionStep, inputDirection, setPlayerState, fallenPlayer,
    samplePlayer, sampleObject, rightKey, sampleGame, sampleRes, Timer.step, sampleTimer,
    driftingPlayer, steppedAnims, sampleAnimation, Animation.step, ANIM_PLAYER_JUMP, abs_lt]
  norm_num

theorem fallen_pass :
    collisionPass sampleRes (sampleGame [] [fallenPlayer] []) (.character 0) driftingPlayer =
      { obj := driftingPlayer, foundGround := false, level := [],
        characters := [fallenPlayer] } := by
  simp [collisionPass, scanLayer, ObjRef.inLevel, ObjRef.inCharacters, sampleGame]

/-- C16 (failing input): a live player below the play field with the right key
held. `update` sets the state to dead and zeroes `vel.x`, but the velocity step
that follows still adds the acceleration of the sampled direction: the player is
dead when `update` returns and `vel.x` is `1 * 300 * (1/100) = 3`, not 0. -/
theorem C16_fall_off_with_key_held :
    fallenPlayer.pos.y - (sampleGame [] [fallenPlayer] []).mapViewport.y > (rightKey.logH : ℚ) ∧
    (update rightKey sampleRes sampleCtors 0 (sampleGame [] [fallenPlayer] []) (.character 0)
      (1 / 100)).get (.character 0) = some driftingPlayer ∧
    (∃ d, driftingPlayer.data = .player d ∧ d.state = .dead) ∧
    driftingPlayer.vel.x = 3 := by
  have hget : (sampleGame [] [fallenPlayer] []).get (.character 0) = some fallenPlayer := rfl
  refine ⟨by norm_num [fallenPlayer, sampleGame, rightKey], ?_, ⟨_, rfl, rfl⟩, rfl⟩
  simp only [update, hget, fallen_prePass, fallen_pass]
  simp [landing, GameState.set, GameState.get, sampleGame, driftingPlayer, fallenPlayer]

/-! ## C17: the horizontal speed clamp -/

theorem inputDirection_values (state : SDLState) :
    inputDirection state = -1 ∨ inputDirection state = 0 ∨ inputDirection state = 1 := by
  simp only [inputDirection]
  split_ifs <;> norm_num

theorem handleShooting_maxSpeedX (state : SDLState) (res : Resources) (ctors : Ctors)
    (rnd : Int) (gs : GameState) (ref : ObjRef) (obj : GameObject) :
    (handleShooting state res ctors rnd gs ref obj).1.maxSpeedX = obj.maxSpeedX := by
  simp only [handleShooting]
  split
  · split_ifs <;> rfl
  · rfl

theorem setPlayerState_maxSpeedX (obj : GameObject) (s : PlayerState) :
    (setPlayerState obj s).maxSpeedX = obj.maxSpeedX := by
  simp only [setPlayerState]
  split <;> rfl

theorem idleSlowDown_maxSpeedX (obj : GameObject) (dt : ℚ) :
    (idleSlowDown obj dt).maxSpeedX = obj.maxSpeedX := by
  simp only [idleSlowDown]
  split_ifs <;> rfl

theorem playerStateStep_maxSpeedX (state : SDLState) (res : Resources) (ctors : Ctors)
    (rnd : Int) (gs : GameState) (ref : ObjRef) (obj : GameObject) (s : PlayerState)
    (c dt : ℚ) :
    (playerStateStep state res ctors rnd gs ref obj s c dt).1.maxSpeedX = obj.maxSpeedX := by
  cases s with
  | dead => rfl
  | idle =>
    simp only [playerStateStep, handleShooting_maxSpeedX]
    split_ifs
    · exact setPlayerState_maxSpeedX _ _
    · exact idleSlowDown_maxSpeedX _ _
  | running =>
    simp only [playerStateStep]
    by_cases hc : c = 0
    · rw [if_pos hc]
      split_ifs <;>
        exact (handleShooting_maxSpeedX _ _ _ _ _ _ _).trans (setPlayerState_maxSpeedX _ _)
    · rw [if_neg hc]
      split_ifs <;> exact handleShooting_maxSpeedX _ _ _ _ _ _ _
  | jumping =>
    simp only [playerStateStep, handleShooting_maxSpeedX]

theorem updatePlayer_maxSpeedX (state : SDLState) (res : Resources) (ctors : Ctors)
    (rnd : Int) (gs : GameState) (ref : ObjRef) (obj : GameObject) (d : PlayerData) (dt : ℚ) :
    (updatePlayer state res ctors rnd gs ref obj d dt).obj.maxSpeedX = obj.maxSpeedX := by
  simp only [updatePlayer]
  by_cases hd : d.state ≠ .dead
  · rw [if_pos hd]
    simp only []
    split_ifs
    · exact (setPlayerState_maxSpeedX _ _).trans (playerStateStep_maxSpeedX _ _ _ _ _ _ _ _ _ _)
    · exact playerStateStep_maxSpeedX _ _ _ _ _ _ _ _ _ _
  · rw [if_neg hd]

theorem updatePlayer_direction (state : SDLState) (res : Resources) (ctors : Ctors)
    (rnd : Int) (gs : GameState) (ref : ObjRef) (obj : GameObject) (d : PlayerData) (dt : ℚ) :
    (updatePlayer state res ctors rnd gs ref obj d dt).currentDirection = -1 ∨
    (updatePlayer state res ctors rnd gs ref obj d dt).currentDirection = 0 ∨
    (updatePlayer state res ctors rnd gs ref obj d dt).currentDirection = 1 := by
  simp only [updatePlayer]
  by_cases hd : d.state ≠ .dead
  · rw [if_pos hd]
    exact inputDirection_values state
  · rw [if_neg hd]
    exact Or.inr (Or.inl rfl)

theorem updateBullet_maxSpeedX (state : SDLState) (gs : GameState) (obj : GameObject)
    (d : BulletData) : (updateBullet state gs obj d).maxSpeedX = obj.maxSpeedX := by
  simp only [updateBullet]
  split <;> (try split_ifs) <;> rfl

theorem updateEnemy_maxSpeedX (obj : GameObject) (d : EnemyData) (dt : ℚ) :
    (updateEnemy obj d dt).maxSpeedX = obj.maxSpeedX := by
  simp only [updateEnemy]
  split <;> (try split_ifs) <;> rfl

theorem dispatch_maxSpeedX (state : SDLState) (res : Resources) (ctors : Ctors)
    (rnd : Int) (gs : GameState) (ref : ObjRef) (obj : GameObject) (dt : ℚ) :
    (dispatch state res ctors rnd gs ref obj dt).obj.maxSpeedX = obj.maxSpeedX := by
  simp only [dispatch]
  split
  · exact updatePlayer_maxSpeedX _ _ _ _ _ _ _ _ _
  · exact updateBullet_maxSpeedX _ _ _ _
  · exact updateEnemy_maxSpeedX _ _ _
  · rfl

theorem dispatch_direction (state : SDLState) (res : Resources) (ctors : Ctors)
    (rnd : Int) (gs : GameState) (ref : ObjRef) (obj : GameObject) (dt : ℚ) :
    (dispatch state res ctors rnd gs ref obj dt).currentDirection = -1 ∨
    (dispatch state res ctors rnd gs ref obj dt).currentDirection = 0 ∨
    (dispatch state res ctors rnd gs ref obj dt).currentDirection = 1 := by
  simp only [dispatch]
  split
  · exact updatePlayer_direction _ _ _ _ _ _ _ _ _
  · exact Or.inr (Or.inl rfl)
  · exact Or.inr (Or.inl rfl)
  · exact Or.inr (Or.inl rfl)

theorem stepAnimation_maxSpeedX (o : GameObject) (dt : ℚ) :
    (stepAnimation o dt).maxSpeedX = o.maxSpeedX := by
  unfold stepAnimation
  split_ifs
  · split <;> rfl
  · rfl

theorem applyGravity_maxSpeedX (o : GameObject) (dt : ℚ) :
    (applyGravity o dt).maxSpeedX = o.maxSpeedX := by
  unfold applyGravity
  split_ifs <;> rfl

theorem velocityStep_maxSpeedX (o : GameObject) (c dt : ℚ) :
    (velocityStep o c dt).maxSpeedX = o.maxSpeedX := by
  simp only [velocityStep]
  split_ifs <;> rfl

theorem velocityStep_vel_x (o : GameObject) (c dt : ℚ) :
    (velocityStep o c dt).vel.x =
      if |o.vel.x + c * o.acc.x * dt| > o.maxSpeedX then c * o.maxSpeedX
      else o.vel.x + c * o.acc.x * dt := by
  by_cases hz : c = 0
  · subst hz
    simp only [velocityStep, ne_eq, not_true_eq_false, if_false]
    split_ifs <;> rfl
  · simp only [velocityStep, ne_eq, hz, not_false_eq_true, if_true]
    split_ifs <;> rfl

/-- The clamp of the velocity step. -/
theorem velocityStep_clamped (o : GameObject) (c dt : ℚ) (hmax : 0 ≤ o.maxSpeedX)
    (hc : c = -1 ∨ c = 0 ∨ c = 1) :
    |(velocityStep o c dt).vel.x| ≤ o.maxSpeedX ∧
    (|o.vel.x + c * o.acc.x * dt| > o.maxSpeedX →
      (velocityStep o c dt).vel.x = c * o.maxSpeedX) := by
  have hcm : |c * o.maxSpeedX| ≤ o.maxSpeedX := by
    rcases hc with h | h | h <;> subst h <;> simp [abs_of_nonneg hmax, hmax]
  rw [velocityStep_vel_x]
  constructor
  · split_ifs with h
    · exact hcm
    · exact not_lt.mp h
  · intro h
    rw [if_pos h]

theorem genericResponse_speed (rectC : SDL_FRect) (a : GameObject) :
    (genericResponse rectC a).maxSpeedX = a.maxSpeedX ∧
    |(genericResponse rectC a).vel.x| ≤ |a.vel.x| := by
  simp only [genericResponse]
  split_ifs <;> simp

/-- The speed bound `|vel.x| <= M` with `maxSpeedX = M` is kept by the collision
response for its first object. -/
theorem collisionResponse_speed (res : Resources) (rectC : SDL_FRect) (a b : GameObject)
    (M : ℚ) (hM : 0 ≤ M) (h : a.maxSpeedX = M ∧ |a.vel.x| ≤ M) :
    (collisionResponse res rectC a b).1.maxSpeedX = M ∧
    |(collisionResponse res rectC a b).1.vel.x| ≤ M := by
  have hg : (genericResponse rectC a).maxSpeedX = M ∧ |(genericResponse rectC a).vel.x| ≤ M :=
    ⟨(genericResponse_speed rectC a).1.trans h.1, (genericResponse_speed rectC a).2.trans h.2⟩
  unfold collisionResponse
  split
  · split_ifs
    · split
      · exact hg
      · simp only []
        split_ifs
        · exact ⟨h.1, by simpa using hM⟩
        · exact h
      · exact h
    · exact h
  · split
    · simp only []
      split_ifs
      · exact ⟨(genericResponse_speed rectC a).1.trans h.1, by simpa [bulletImpact] using hM⟩
      · exact h
    · exact h
  · split
    · split_ifs
      · exact hg
      · exact h
    · split_ifs
      · exact hg
      · exact h
    · exact h
  · exact h

theorem checkCollision_speed (res : Resources) (a b : GameObject)
    (M : ℚ) (hM : 0 ≤ M) (h : a.maxSpeedX = M ∧ |a.vel.x| ≤ M) :
    (checkCollision res a b).1.maxSpeedX = M ∧ |(checkCollision res a b).1.vel.x| ≤ M := by
  simp only [checkCollision]
  split_ifs
  · exact collisionResponse_speed res _ a b M hM h
  · exact h

theorem landing_speed (obj : GameObject) (fg : Bool) :
    (landing obj fg).maxSpeedX = obj.maxSpeedX ∧ (landing obj fg).vel = obj.vel := by
  simp only [landing]
  split_ifs
  · split
    · split_ifs <;> exact ⟨rfl, rfl⟩
    · exact ⟨rfl, rfl⟩
  · exact ⟨rfl, rfl⟩

/-- C17: horizontal speed is clamped. For an entity with `maxSpeedX >= 0`, the
input direction that `update` uses is -1, 0 or 1; after the velocity step of
`update` `|vel.x| <= maxSpeedX`; when the clamp fires `vel.x` equals the input
direction times `maxSpeedX`; and `|vel.x| <= maxSpeedX` still holds for the
updated entity when `update` returns. -/
theorem C17_speed_clamped (state : SDLState) (res : Resources) (ctors : Ctors) (rnd : Int)
    (gs : GameState) (ref : ObjRef) (dt : ℚ) (obj0 : GameObject)
    (hget : gs.get ref = some obj0) (hmax : 0 ≤ obj0.maxSpeedX) :
    ((beforeVelocity state res ctors rnd gs ref obj0 dt).currentDirection = -1 ∨
      (beforeVelocity state res ctors rnd gs ref obj0 dt).currentDirection = 0 ∨
      (beforeVelocity state res ctors rnd gs ref obj0 dt).currentDirection = 1) ∧
    |(velocityStep (beforeVelocity state res ctors rnd gs ref obj0 dt).obj
        (beforeVelocity state res ctors rnd gs ref obj0 dt).currentDirection dt).vel.x|
      ≤ obj0.maxSpeedX ∧
    (|(beforeVelocity state res ctors rnd gs ref obj0 dt).obj.vel.x +
        (beforeVelocity state res ctors rnd gs ref obj0 dt).currentDirection *
        (beforeVelocity state res ctors rnd gs ref obj0 dt).obj.acc.x * dt| > obj0.maxSpeedX →
      (velocityStep (beforeVelocity state res ctors rnd gs ref obj0 dt).obj
        (beforeVelocity state res ctors rnd gs ref obj0 dt).currentDirection dt).vel.x =
      (beforeVelocity state res ctors rnd gs ref obj0 dt).currentDirection * obj0.maxSpeedX) ∧
    ∃ o, (update state res ctors rnd gs ref dt).get ref = some o ∧
      o.maxSpeedX = obj0.maxSpeedX ∧ |o.vel.x| ≤ obj0.maxSpeedX := by
  simp only [beforeVelocity]
  have hm : (dispatch state res ctors rnd gs ref (applyGravity (stepAnimation obj0 dt) dt)
      dt).obj.maxSpeedX = obj0.maxSpeedX := by
    rw [dispatch_maxSpeedX, applyGravity_maxSpeedX, stepAnimation_maxSpeedX]
  have hdir := dispatch_direction state res ctors rnd gs ref
    (applyGravity (stepAnimation obj0 dt) dt) dt
  have hclamp := velocityStep_clamped
    (dispatch state res ctors rnd gs ref (applyGravity (stepAnimation obj0 dt) dt) dt).obj
    (dispatch state res ctors rnd gs ref (applyGravity (stepAnimation obj0 dt) dt)
      dt).currentDirection dt (by rw [hm]; exact hmax) hdir
  rw [hm] at hclamp
  refine ⟨hdir, hclamp.1, hclamp.2, ?_⟩
  have hpre : (prePass state res ctors rnd gs ref obj0 dt).obj.maxSpeedX = obj0.maxSpeedX ∧
      |(prePass state res ctors rnd gs ref obj0 dt).obj.vel.x| ≤ obj0.maxSpeedX := by
    simp only [prePass, positionStep]
    exact ⟨(velocityStep_maxSpeedX _ _ _).trans hm, hclamp.1⟩
  have hpass := collisionPass_invariant res gs ref
    (fun o => o.maxSpeedX = obj0.maxSpeedX ∧ |o.vel.x| ≤ obj0.maxSpeedX)
    (fun a b h => checkCollision_speed res a b obj0.maxSpeedX hmax h) _ hpre
  refine ⟨_, update_get state res ctors rnd gs ref dt obj0 hget (prePass_length_ge _ _ _ _ _ _ _ _),
    ?_, ?_⟩
  · rw [(landing_speed _ _).1]
    exact hpass.1
  · rw [(landing_speed _ _).2]
    exact hpass.2

theorem C17_speed_clamped_witness :
    ∃ o, (update rightKey sampleRes sampleCtors 0
        (sampleGame [] [samplePlayer .running 3 149] []) (.character 0) (1 / 10)).get
          (.character 0) = some o ∧
      o.maxSpeedX = 150 ∧ |o.vel.x| ≤ 150 :=
  (C17_speed_clamped rightKey sampleRes sampleCtors 0
    (sampleGame [] [samplePlayer .running 3 149] []) (.character 0) (1 / 10)
    (samplePlayer .running 3 149) rfl (by norm_num [samplePlayer])).2.2.2

/-! ## C18, C19: the level factory -/

theorem createEnemy_type (state : SDLState) (res : Resources) (ctors : Ctors) (r c : Int) :
    (createEnemy state res ctors r c).type = .enemy := rfl

theorem createPlayer_type (state : SDLState) (res : Resources) (ctors : Ctors) (r c : Int) :
    (createPlayer state res ctors r c).type = .player := rfl

theorem rosterOf_fst (gs : GameState) :
    (rosterOf gs).1 = gs.characters.map GameObject.type := rfl

theorem rosterOf_snd (gs : GameState) : (rosterOf gs).2 = gs.playerIndex := rfl

/-- One cell acts on the roster view as `rosterStep` says. -/
theorem placeTile_roster (state : SDLState) (res : Resources) (ctors : Ctors) (r c : Int)
    (code : Int) (gs : GameState) :
    rosterOf (placeTile state res ctors r c code gs) = rosterStep code (rosterOf gs) := by
  simp only [placeTile, rosterStep]
  split_ifs <;> simp_all [rosterOf, createEnemy_type, createPlayer_type]

theorem foldl_roster (state : SDLState) (res : Resources) (ctors : Ctors) (layer : Grid) :
    ∀ (cells : List (Fin 5 × Fin 50)) (gs : GameState),
      rosterOf (cells.foldl
        (fun g rc => placeTile state res ctors (rc.1.val : Int) (rc.2.val : Int)
          (layer rc.1 rc.2) g) gs) =
      cells.foldl (fun g rc => rosterStep (layer rc.1 rc.2) g) (rosterOf gs) := by
  intro cells
  induction cells with
  | nil => intro gs; rfl
  | cons rc rest ih =>
    intro gs
    simp only [List.foldl_cons]
    rw [ih, placeTile_roster]

theorem loadMap_roster (state : SDLState) (res : Resources) (ctors : Ctors) (layer : Grid)
    (gs : GameState) :
    rosterOf (loadMap state res ctors layer gs) = rosterLoad layer (rosterOf gs) :=
  foldl_roster state res ctors layer gridCells gs

theorem rosterStep_index (code : Int) (ro : List ObjectType × Int) :
    ((rosterStep code ro).2 = -1 ↔ ro.2 = -1 ∧ code ≠ 4) := by
  simp only [rosterStep]
  split_ifs with h3 h4
  · subst h3
    simp
  · subst h4
    simp only [List.length_append, List.length_singleton, Nat.cast_add, Nat.cast_one, ne_eq,
      not_true_eq_false, and_false, iff_false]
    omega
  · simp [h4]

theorem foldl_rosterStep_index (layer : Grid) :
    ∀ (cells : List (Fin 5 × Fin 50)) (ro : List ObjectType × Int),
      (cells.foldl (fun g rc => rosterStep (layer rc.1 rc.2) g) ro).2 = -1 ↔
        ro.2 = -1 ∧ ∀ rc ∈ cells, layer rc.1 rc.2 ≠ 4 := by
  intro cells
  induction cells with
  | nil => intro ro; simp
  | cons rc rest ih =>
    intro ro
    simp only [List.foldl_cons, ih, rosterStep_index, List.mem_cons, forall_eq_or_imp]
    tauto

theorem mem_gridCells (r : Fin 5) (c : Fin 50) : (r, c) ∈ gridCells := by
  simp [gridCells, List.mem_flatMap, List.mem_finRange]

/-- After a grid has been loaded the recorded index is still -1 exactly when it
was -1 before and no cell of the grid carries code 4. -/
theorem rosterLoad_index (layer : Grid) (ro : List ObjectType × Int) :
    (rosterLoad layer ro).2 = -1 ↔ ro.2 = -1 ∧ ∀ r c, layer r c ≠ 4 := by
  simp only [rosterLoad, foldl_rosterStep_index]
  constructor
  · rintro ⟨h1, h2⟩
    exact ⟨h1, fun r c => h2 (r, c) (mem_gridCells r c)⟩
  · rintro ⟨h1, h2⟩
    exact ⟨h1, fun rc _ => h2 rc.1 rc.2⟩

theorem rosterStep_valid (code : Int) (ro : List ObjectType × Int) (h : rosterValid ro) :
    rosterValid (rosterStep code ro) := by
  simp only [rosterStep]
  split_ifs with h3 h4
  · rcases h with h | ⟨h0, hp⟩
    · exact Or.inl h
    · refine Or.inr ⟨h0, ?_⟩
      have hlt : ro.2.toNat < ro.1.length := by
        rcases Nat.lt_or_ge ro.2.toNat ro.1.length with h' | h'
        · exact h'
        · rw [List.getElem?_eq_none h'] at hp
          cases hp
      simp only []
      rw [List.getElem?_append_left hlt]
      exact hp
  · refine Or.inr ⟨?_, ?_⟩
    · simp only [List.length_append, List.length_singleton, Nat.cast_add, Nat.cast_one]
      omega
    · have e : (((ro.1 ++ [ObjectType.player]).length : Int) - 1).toNat = ro.1.length := by
        simp
      simp only [e]
      simp
  · exact h

theorem foldl_rosterStep_valid (layer : Grid) :
    ∀ (cells : List (Fin 5 × Fin 50)) (ro : List ObjectType × Int), rosterValid ro →
      rosterValid (cells.foldl (fun g rc => rosterStep (layer rc.1 rc.2) g) ro) := by
  intro cells
  induction cells with
  | nil => intro ro h; exact h
  | cons rc rest ih =>
    intro ro h
    simp only [List.foldl_cons]
    exact ih _ (rosterStep_valid _ _ h)

theorem rosterLoad_valid (layer : Grid) (ro : List ObjectType × Int) (h : rosterValid ro) :
    rosterValid (rosterLoad layer ro) :=
  foldl_rosterStep_valid layer gridCells ro h

/-- A valid roster view with a recorded index gives a player at that index of
the character layer. -/
theorem player_of_rosterValid (gs : GameState) (h : rosterValid (rosterOf gs))
    (hidx : gs.playerIndex ≠ -1) :
    ∃ o, 0 ≤ gs.playerIndex ∧ gs.characters[gs.playerIndex.toNat]? = some o ∧
      o.type = .player := by
  rcases h with h | ⟨h0, hp⟩
  · exact absurd h hidx
  · simp only [rosterOf, List.getElem?_map, Option.map_eq_some'] at hp
    obtain ⟨o, ho, hty⟩ := hp
    exact ⟨o, h0, ho, hty⟩

/-- The state the three `loadMap` calls of `createTiles` leave. -/
theorem createTiles_roster (state : SDLState) (res : Resources) (ctors : Ctors)
    (map background foreground : Grid) (gs : GameState) :
    rosterOf (loadMap state res ctors foreground
      (loadMap state res ctors background (loadMap state res ctors map gs))) =
    rosterLoad foreground (rosterLoad background (rosterLoad map (rosterOf gs))) := by
  rw [loadMap_roster, loadMap_roster, loadMap_roster]

/-- C18: `createTiles`, generalised over the three grids and started from a state
whose `playerIndex` is -1 as the constructor leaves it, fails its assertion
`playerIndex != -1` if and only if no cell of the grids carries code 4; when some
cell carries code 4 it completes with `playerIndex` a valid index into the
character layer whose entity has type player. -/
theorem C18_factory_needs_player_spawn (state : SDLState) (res : Resources) (ctors : Ctors)
    (map background foreground : Grid) (gs : GameState) (hfresh : gs.playerIndex = -1) :
    (createTiles state res ctors map background foreground gs = none ↔
      ∀ r c, map r c ≠ 4 ∧ background r c ≠ 4 ∧ foreground r c ≠ 4) ∧
    ((∃ r c, map r c = 4 ∨ background r c = 4 ∨ foreground r c = 4) →
      ∃ gs' o, createTiles state res ctors map background foreground gs = some gs' ∧
        0 ≤ gs'.playerIndex ∧ gs'.characters[gs'.playerIndex.toNat]? = some o ∧
        o.type = .player) := by
  have hro := createTiles_roster state res ctors map background foreground gs
  have hidx : (loadMap state res ctors foreground
      (loadMap state res ctors background (loadMap state res ctors map gs))).playerIndex = -1 ↔
      ∀ r c, map r c ≠ 4 ∧ background r c ≠ 4 ∧ foreground r c ≠ 4 := by
    have h2 : (rosterOf (loadMap state res ctors foreground
      (loadMap state res ctors background (loadMap state res ctors map gs)))).2 = -1 ↔
      ∀ r c, map r c ≠ 4 ∧ background r c ≠ 4 ∧ foreground r c ≠ 4 := by
      rw [hro, rosterLoad_index, rosterLoad_index, rosterLoad_index]
      simp only [rosterOf, hfresh, true_and]
      constructor
      · rintro ⟨⟨h1, h2⟩, h3⟩ r c
        exact ⟨h1 r c, h2 r c, h3 r c⟩
      · intro h
        exact ⟨⟨fun r c => (h r c).1, fun r c => (h r c).2.1⟩, fun r c => (h r c).2.2⟩
    exact h2
  have hvalid : rosterValid (rosterOf (loadMap state res ctors foreground
      (loadMap state res ctors background (loadMap state res ctors map gs)))) := by
    rw [hro]
    exact rosterLoad_valid _ _ (rosterLoad_valid _ _ (rosterLoad_valid _ _ (Or.inl hfresh)))
  constructor
  · simp only [createTiles]
    rw [← hidx]
    split_ifs with h
    · simp [h]
    · simp only [ne_eq, not_not] at h
      simp [h]
  · rintro ⟨r, c, h4⟩
    have hne : (loadMap state res ctors foreground
        (loadMap state res ctors background (loadMap state res ctors map gs))).playerIndex ≠ -1 := by
      intro hcon
      have hall := hidx.mp hcon r c
      rcases h4 with h | h | h
      · exact hall.1 h
      · exact hall.2.1 h
      · exact hall.2.2 h
    obtain ⟨o, h0, ho, hty⟩ := player_of_rosterValid _ hvalid hne
    refine ⟨_, o, ?_, h0, ho, hty⟩
    simp only [createTiles]
    rw [if_pos hne]

theorem builtinMap_spawn : builtinMap 0 0 = 4 := by
  simp [builtinMap, gridOfRows]

theorem C18_factory_needs_player_spawn_witness :
    ∃ gs' o, createTiles noKeys sampleRes sampleCtors builtinMap builtinBackground
        builtinForeground (GameState.init noKeys) = some gs' ∧
      0 ≤ gs'.playerIndex ∧ gs'.characters[gs'.playerIndex.toNat]? = some o ∧
      o.type = .player :=
  (C18_factory_needs_player_spawn noKeys sampleRes sampleCtors builtinMap builtinBackground
    builtinForeground (GameState.init noKeys) rfl).2 ⟨0, 0, Or.inl builtinMap_spawn⟩

theorem builtin_roster :
    rosterLoad builtinForeground (rosterLoad builtinBackground (rosterLoad builtinMap ([], -1)))
      = ([.player, .enemy, .enemy, .enemy, .enemy, .enemy, .enemy], 0) := by
  set_option maxRecDepth 100000 in decide

/-- C19: for the built-in map, background and foreground grids, `createTiles`
started from the empty game state completes with a character layer of seven
entities: the entity at `playerIndex` (index 0) has type player, it is the only
player, and every other entity of the layer is an enemy. -/
theorem C19_builtin_roster (state : SDLState) (res : Resources) (ctors : Ctors) :
    ∃ gs', createTiles state res ctors builtinMap builtinBackground builtinForeground
        (GameState.init state) = some gs' ∧
      gs'.playerIndex = 0 ∧
      gs'.characters.map GameObject.type =
        [.player, .enemy, .enemy, .enemy, .enemy, .enemy, .enemy] ∧
      (∃ p, gs'.characters[gs'.playerIndex.toNat]? = some p ∧ p.type = .player) ∧
      (∀ (j : Nat) (o : GameObject), gs'.characters[j]? = some o →
        (j : Int) ≠ gs'.playerIndex → o.type = .enemy) := by
  have hro := createTiles_roster state res ctors builtinMap builtinBackground builtinForeground
    (GameState.init state)
  have hinit : rosterOf (GameState.init state) = ([], -1) := rfl
  rw [hinit, builtin_roster] at hro
  have hidx : (loadMap state res ctors builtinForeground
      (loadMap state res ctors builtinBackground
        (loadMap state res ctors builtinMap (GameState.init state)))).playerIndex = 0 := by
    rw [← rosterOf_snd, hro]
  have hty : (loadMap state res ctors builtinForeground
      (loadMap state res ctors builtinBackground
        (loadMap state res ctors builtinMap (GameState.init state)))).characters.map
          GameObject.type = [.player, .enemy, .enemy, .enemy, .enemy, .enemy, .enemy] := by
    rw [← rosterOf_fst, hro]
  refine ⟨_, ?_, hidx, hty, ?_, ?_⟩
  · simp only [createTiles]
    rw [if_pos (by rw [hidx]; decide)]
  · have h0 := congrArg (fun l => l[0]?) hty
    simp only [List.getElem?_map, Option.map_eq_some', List.getElem?_cons_zero] at h0
    rw [hidx]
    exact h0
  · intro j o hj hne
    have hj' := congrArg (fun l => l[j]?) hty
    simp only [List.getElem?_map, hj, Option.map_some'] at hj'
    rw [hidx] at hne
    match j, hne, hj' with
    | 0, hne, _ => exact absurd rfl hne
    | 1, _, h => simpa using h
    | 2, _, h => simpa using h
    | 3, _, h => simpa using h
    | 4, _, h => simpa using h
    | 5, _, h => simpa using h
    | 6, _, h => simpa using h
    | (n + 7), _, h => simp at h

/-! ## C20: the player designation -/

theorem collisionResponse_fst_type (res : Resources) (rectC : SDL_FRect) (a b : GameObject) :
    (collisionResponse res rectC a b).1.type = a.type := by
  have hg : (genericResponse rectC a).type = a.type :=
    type_eq_of_data_eq (genericResponse_data rectC a)
  rcases hA : a.data with _ | pd | ed | bd
  · simp [collisionResponse, hA]
  · cases hb : b.type <;> simp only [collisionResponse, hA, hb] <;> split_ifs <;>
      first
        | exact hg
        | rfl
        | simp [GameObject.type, hA]
  · simp only [collisionResponse, hA]
    split
    · split_ifs
      · exact hg
      · rfl
    · split_ifs
      · exact hg
      · rfl
    · rfl
  · cases hs : bd.state
    · simp only [collisionResponse, hA, hs]
      split_ifs
      · simp [bulletImpact, GameObject.type, hA]
      · rfl
    · simp [collisionResponse, hA, hs]
    · simp [collisionResponse, hA, hs]

theorem checkCollision_fst_type (res : Resources) (a b : GameObject) :
    (checkCollision res a b).1.type = a.type := by
  simp only [checkCollision]
  split_ifs
  · exact collisionResponse_fst_type res _ a b
  · rfl

theorem scanLayer_types (res : Resources) (self : Option Nat) :
    ∀ (l : List GameObject) (j : Nat) (obj : GameObject) (fg : Bool),
      (scanLayer res self j obj fg l).layer.map GameObject.type = l.map GameObject.type := by
  intro l
  induction l with
  | nil => intro j obj fg; rfl
  | cons b bs ih =>
    intro j obj fg
    simp only [scanLayer]
    split_ifs
    · simp [ih]
    · simp [ih, collideWith, checkCollision_snd_type]

theorem collisionPass_types (res : Resources) (gs : GameState) (ref : ObjRef)
    (obj : GameObject) :
    (collisionPass res gs ref obj).level.map GameObject.type = gs.level.map GameObject.type ∧
    (collisionPass res gs ref obj).characters.map GameObject.type =
      gs.characters.map GameObject.type := by
  simp [collisionPass, scanLayer_types]

theorem handleShooting_type (state : SDLState) (res : Resources) (ctors : Ctors)
    (rnd : Int) (gs : GameState) (ref : ObjRef) (obj : GameObject) :
    (handleShooting state res ctors rnd gs ref obj).1.type = obj.type := by
  simp only [handleShooting]
  split
  · rename_i d hd
    split_ifs <;> simp [GameObject.type, hd]
  · rfl

theorem setPlayerState_type (obj : GameObject) (s : PlayerState) :
    (setPlayerState obj s).type = obj.type := by
  simp only [setPlayerState]
  split
  · rename_i d hd
    simp [GameObject.type, hd]
  · rfl

theorem idleSlowDown_type (obj : GameObject) (dt : ℚ) :
    (idleSlowDown obj dt).type = obj.type :=
  type_eq_of_data_eq (idleSlowDown_data obj dt)

theorem playerStateStep_type (state : SDLState) (res : Resources) (ctors : Ctors)
    (rnd : Int) (gs : GameState) (ref : ObjRef) (obj : GameObject) (s : PlayerState)
    (c dt : ℚ) :
    (playerStateStep state res ctors rnd gs ref obj s c dt).1.type = obj.type := by
  have key : ∀ (o : GameObject) (t : Option Texture) (n : Int),
      ({ o with texture := t, curAnimation := n } : GameObject).type = o.type := fun _ _ _ => rfl
  cases s with
  | dead => rfl
  | idle =>
    simp only [playerStateStep, key, handleShooting_type]
    split_ifs
    · exact setPlayerState_type _ _
    · exact idleSlowDown_type _ _
  | running =>
    simp only [playerStateStep]
    by_cases hc : c = 0
    · rw [if_pos hc]
      split_ifs <;>
        exact (key _ _ _).trans
          ((handleShooting_type _ _ _ _ _ _ _).trans (setPlayerState_type _ _))
    · rw [if_neg hc]
      split_ifs <;> exact (key _ _ _).trans (handleShooting_type _ _ _ _ _ _ _)
  | jumping =>
    simp only [playerStateStep, key, handleShooting_type]

theorem dispatch_type (state : SDLState) (res : Resources) (ctors : Ctors)
    (rnd : Int) (gs : GameState) (ref : ObjRef) (obj : GameObject) (dt : ℚ) :
    (dispatch state res ctors rnd gs ref obj dt).obj.type = obj.type := by
  rcases hA : obj.data with _ | pd | ed | bd
  · simp [dispatch, hA]
  · have ht : obj.type = .player := by simp [GameObject.type, hA]
    simp only [dispatch, hA, updatePlayer]
    by_cases hd : pd.state ≠ .dead
    · rw [if_pos hd]
      simp only []
      have h1 := playerStateStep_type state res ctors rnd gs ref
        { obj with data := .player { pd with weaponTimer := (pd.weaponTimer.step dt).1 } }
        pd.state (inputDirection state) dt
      have h2 : ({ obj with data := .player { pd with weaponTimer := (pd.weaponTimer.step dt).1 } }
          : GameObject).type = .player := rfl
      rw [h2] at h1
      rw [ht]
      split_ifs
      · exact (setPlayerState_type _ _).trans h1
      · exact h1
    · rw [if_neg hd]
      simp [GameObject.type, hA]
  · simp only [dispatch, hA, updateEnemy]
    split <;> (try split_ifs) <;> simp [GameObject.type, hA]
  · simp only [dispatch, hA, updateBullet]
    split <;> (try split_ifs) <;> simp [GameObject.type, hA]

theorem prePass_type (state : SDLState) (res : Resources) (ctors : Ctors) (rnd : Int)
    (gs : GameState) (ref : ObjRef) (obj0 : GameObject) (dt : ℚ) :
    (prePass state res ctors rnd gs ref obj0 dt).obj.type = obj0.type := by
  simp only [prePass]
  rw [type_eq_of_data_eq (positionStep_data _ _), type_eq_of_data_eq (velocityStep_data _ _ _),
    dispatch_type, type_eq_of_data_eq (applyGravity_data _ _),
    type_eq_of_data_eq (stepAnimation_data _ _)]

theorem landing_type (obj : GameObject) (fg : Bool) : (landing obj fg).type = obj.type := by
  simp only [landing]
  split_ifs
  · split
    · rename_i d hd
      have hd' : obj.data = .player d := hd
      split_ifs <;> simp [GameObject.type, hd']
    · exact type_eq_of_data_eq rfl
  · rfl

theorem handleKeyInput_type (obj : GameObject) (key : SDL_Scancode) (keyDown : Bool) :
    (handleKeyInput obj key keyDown).type = obj.type := by
  simp only [handleKeyInput]
  split
  · rename_i d hd
    split <;> (try split_ifs) <;> simp [GameObject.type, hd]
  · rfl

theorem set_same {α : Type} : ∀ (l : List α) (i : Nat) (x : α), l[i]? = some x → l.set i x = l := by
  intro l
  induction l with
  | nil => intro i x h; rfl
  | cons y ys ih =>
    intro i x h
    cases i with
    | zero =>
      simp at h
      simp [h]
    | succ k =>
      simp at h
      simp [ih k x h]

/-- Writing an object of the same type into a slot keeps the type tags of a list. -/
theorem map_type_set (l l' : List GameObject) (i : Nat) (o o' : GameObject)
    (h : l[i]? = some o) (hl : l'.map GameObject.type = l.map GameObject.type)
    (ht : o'.type = o.type) :
    (l'.set i o').map GameObject.type = l.map GameObject.type := by
  rw [List.map_set, hl, ht]
  exact set_same _ _ _ (by simp [List.getElem?_map, h])

/-- Writing an object of the same type into a slot keeps `playerIndex` and the
type tags of both layers. -/
theorem set_types (gs gs' : GameState) (ref : ObjRef) (o o' : GameObject)
    (h : gs.get ref = some o) (ht : o'.type = o.type)
    (hl : gs'.level.map GameObject.type = gs.level.map GameObject.type)
    (hc : gs'.characters.map GameObject.type = gs.characters.map GameObject.type) :
    (gs'.set ref o').playerIndex = gs'.playerIndex ∧
    (gs'.set ref o').level.map GameObject.type = gs.level.map GameObject.type ∧
    (gs'.set ref o').characters.map GameObject.type = gs.characters.map GameObject.type := by
  cases ref with
  | level i => exact ⟨rfl, map_type_set gs.level gs'.level i o o' h hl ht, hc⟩
  | character i => exact ⟨rfl, hl, map_type_set gs.characters gs'.characters i o o' h hc ht⟩
  | bullet i => exact ⟨rfl, hl, hc⟩

/-- The effect of `update` on `playerIndex` and on the type tags of the layers. -/
theorem update_types (state : SDLState) (res : Resources) (ctors : Ctors) (rnd : Int)
    (gs : GameState) (ref : ObjRef) (dt : ℚ) :
    (update state res ctors rnd gs ref dt).playerIndex = gs.playerIndex ∧
    (update state res ctors rnd gs ref dt).level.map GameObject.type =
      gs.level.map GameObject.type ∧
    (update state res ctors rnd gs ref dt).characters.map GameObject.type =
      gs.characters.map GameObject.type := by
  cases hget : gs.get ref with
  | none => simp [update, hget]
  | some obj0 =>
    rw [update_eq state res ctors rnd gs ref dt obj0 hget]
    have hty : (landing
        (collisionPass res gs ref (prePass state res ctors rnd gs ref obj0 dt).obj).obj
        (collisionPass res gs ref (prePass state res ctors rnd gs ref obj0 dt).obj).foundGround).type
        = obj0.type := by
      rw [landing_type]
      have := collisionPass_invariant res gs ref (fun o => o.type = obj0.type)
        (fun a b h => (checkCollision_fst_type res a b).trans h) _
        (prePass_type state res ctors rnd gs ref obj0 dt)
      exact this
    have hp := collisionPass_types res gs ref (prePass state res ctors rnd gs ref obj0 dt).obj
    exact set_types gs _ ref obj0 _ hget hty hp.1 hp.2

theorem player_of_types (gs gs' : GameState) (hi : gs'.playerIndex = gs.playerIndex)
    (hc : gs'.characters.map GameObject.type = gs.characters.map GameObject.type)
    (hp : ∃ p, gs.player = some p ∧ p.type = .player) :
    ∃ p', gs'.player = some p' ∧ p'.type = .player := by
  obtain ⟨p, hp1, hp2⟩ := hp
  simp only [GameState.player] at hp1 ⊢
  rw [hi]
  by_cases h0 : 0 ≤ gs.playerIndex
  · rw [if_pos h0] at hp1 ⊢
    have h1 : (gs.characters.map GameObject.type)[gs.playerIndex.toNat]? = some .player := by
      simp [List.getElem?_map, hp1, hp2]
    rw [← hc] at h1
    simp only [List.getElem?_map, Option.map_eq_some'] at h1
    exact h1
  · rw [if_neg h0] at hp1
    cases hp1

/-- C20: the player designation is stable. In a state where
`layers[characters][playerIndex]` has type player, `update` leaves `playerIndex`,
the length of both layers and the type tag of every entity in them unchanged, so
the entity at `playerIndex` is still a player; `collisionResponse`,
`checkCollision` and `handleKeyInput` keep the type of the objects they act on,
and storing such a result back into its slot leaves `playerIndex`, the lengths
and the type tags unchanged. -/
theorem C20_player_designation_stable (state : SDLState) (res : Resources) (ctors : Ctors)
    (rnd : Int) (gs : GameState) (ref : ObjRef) (dt : ℚ)
    (hp : ∃ p, gs.player = some p ∧ p.type = .player) :
    ((update state res ctors rnd gs ref dt).playerIndex = gs.playerIndex ∧
      (update state res ctors rnd gs ref dt).level.length = gs.level.length ∧
      (update state res ctors rnd gs ref dt).characters.length = gs.characters.length ∧
      (update state res ctors rnd gs ref dt).level.map GameObject.type =
        gs.level.map GameObject.type ∧
      (update state res ctors rnd gs ref dt).characters.map GameObject.type =
        gs.characters.map GameObject.type ∧
      ∃ p', (update state res ctors rnd gs ref dt).player = some p' ∧ p'.type = .player) ∧
    (∀ (rectC : SDL_FRect) (a b : GameObject),
      (collisionResponse res rectC a b).1.type = a.type ∧
      (collisionResponse res rectC a b).2.type = b.type ∧
      (checkCollision res a b).1.type = a.type ∧
      (checkCollision res a b).2.type = b.type) ∧
    (∀ (obj : GameObject) (key : SDL_Scancode) (keyDown : Bool),
      (handleKeyInput obj key keyDown).type = obj.type) ∧
    (∀ (r : ObjRef) (o o' : GameObject), gs.get r = some o → o'.type = o.type →
      (gs.set r o').playerIndex = gs.playerIndex ∧
      (gs.set r o').level.length = gs.level.length ∧
      (gs.set r o').characters.length = gs.characters.length ∧
      (gs.set r o').level.map GameObject.type = gs.level.map GameObject.type ∧
      (gs.set r o').characters.map GameObject.type = gs.characters.map GameObject.type ∧
      ∃ p', (gs.set r o').player = some p' ∧ p'.type = .player) := by
  obtain ⟨h1, h2, h3⟩ := update_types state res ctors rnd gs ref dt
  refine ⟨⟨h1, ?_, ?_, h2, h3, player_of_types gs _ h1 h3 hp⟩, ?_, ?_, ?_⟩
  · simpa using congrArg List.length h2
  · simpa using congrArg List.length h3
  · intro rectC a b
    exact ⟨collisionResponse_fst_type res rectC a b, collisionResponse_snd_type res rectC a b,
      checkCollision_fst_type res a b, checkCollision_snd_type res a b⟩
  · intro obj key keyDown
    exact handleKeyInput_type obj key keyDown
  · intro r o o' hr ht
    obtain ⟨g1, g2, g3⟩ := set_types gs gs r o o' hr ht rfl rfl
    refine ⟨g1, ?_, ?_, g2, g3, player_of_types gs _ g1 g3 hp⟩
    · simpa using congrArg List.length g2
    · simpa using congrArg List.length g3

theorem C20_player_designation_stable_witness :
    (update fireKey sampleRes sampleCtors 7
        (sampleGame [sampleObject] [shooter, sampleEnemy 2] [sampleBullet .inactive])
        (.character 0) (1 / 10)).playerIndex = 0 ∧
    ∃ p', (update fireKey sampleRes sampleCtors 7
        (sampleGame [sampleObject] [shooter, sampleEnemy 2] [sampleBullet .inactive])
        (.character 0) (1 / 10)).player = some p' ∧ p'.type = .player :=
  ⟨(C20_player_designation_stable fireKey sampleRes sampleCtors 7
      (sampleGame [sampleObject] [shooter, sampleEnemy 2] [sampleBullet .inactive])
      (.character 0) (1 / 10) ⟨shooter, rfl, rfl⟩).1.1,
   (C20_player_designation_stable fireKey sampleRes sampleCtors 7
      (sampleGame [sampleObject] [shooter, sampleEnemy 2] [sampleBullet .inactive])
      (.character 0) (1 / 10) ⟨shooter, rfl, rfl⟩).1.2.2.2.2.2⟩

/-! ## The keep-running flag and the dead player -/

theorem update_running (state : SDLState) (res : Resources) (ctors : Ctors) (rnd : Int)
    (gs : GameState) (ref : ObjRef) (dt : ℚ) (obj0 : GameObject) (hget : gs.get ref = some obj0) :
    (update state res ctors rnd gs ref dt).running =
      (prePass state res ctors rnd gs ref obj0 dt).running := by
  rw [update_eq state res ctors rnd gs ref dt obj0 hget]
  cases ref <;> rfl

theorem prePass_running (state : SDLState) (res : Resources) (ctors : Ctors) (rnd : Int)
    (gs : GameState) (ref : ObjRef) (obj0 : GameObject) (dt : ℚ) :
    (prePass state res ctors rnd gs ref obj0 dt).running =
      (dispatch state res ctors rnd gs ref (applyGravity (stepAnimation obj0 dt) dt) dt).running :=
  rfl

theorem prePass_bullets (state : SDLState) (res : Resources) (ctors : Ctors) (rnd : Int)
    (gs : GameState) (ref : ObjRef) (obj0 : GameObject) (dt : ℚ) :
    (prePass state res ctors rnd gs ref obj0 dt).bullets =
      (dispatch state res ctors rnd gs ref (applyGravity (stepAnimation obj0 dt) dt) dt).bullets :=
  rfl

theorem preDispatch_data (obj0 : GameObject) (dt : ℚ) :
    (applyGravity (stepAnimation obj0 dt) dt).data = obj0.data := by
  rw [applyGravity_data, stepAnimation_data]

/-- The dispatch of a dead player: only the death timer advances, no bullet is
stored, and the keep-running flag drops when the stepped timer has timed out. -/
theorem dispatch_dead_player (state : SDLState) (res : Resources) (ctors : Ctors) (rnd : Int)
    (gs : GameState) (ref : ObjRef) (obj : GameObject) (d : PlayerData) (dt : ℚ)
    (hd : obj.data = .player d) (hdead : d.state = .dead) :
    dispatch state res ctors rnd gs ref obj dt =
      { obj := { obj with data := .player { d with deathTimer := (d.deathTimer.step dt).1 } },
        currentDirection := 0,
        bullets := gs.bullets,
        running := if (d.deathTimer.step dt).1.isTimeOut = true then false else gs.running } := by
  simp only [dispatch, hd, updatePlayer, hdead, ne_eq, not_true_eq_false, if_false]

theorem dispatch_live_player_running (state : SDLState) (res : Resources) (ctors : Ctors)
    (rnd : Int) (gs : GameState) (ref : ObjRef) (obj : GameObject) (d : PlayerData) (dt : ℚ)
    (hd : obj.data = .player d) (hlive : d.state ≠ .dead) :
    (dispatch state res ctors rnd gs ref obj dt).running = gs.running := by
  simp only [dispatch, hd, updatePlayer, ne_eq, hlive, not_false_eq_true, if_true]

theorem dispatch_other_running (state : SDLState) (res : Resources) (ctors : Ctors)
    (rnd : Int) (gs : GameState) (ref : ObjRef) (obj : GameObject) (dt : ℚ)
    (hd : obj.type ≠ .player) :
    (dispatch state res ctors rnd gs ref obj dt).running = gs.running := by
  rcases h : obj.data with _ | pd | ed | bd
  · simp only [dispatch, h]
  · simp [GameObject.type, h] at hd
  · simp only [dispatch, h]
  · simp only [dispatch, h]

theorem landing_dead_player (obj : GameObject) (fg : Bool) (d : PlayerData)
    (hd : obj.data = .player d) (hdead : d.state = .dead) :
    (landing obj fg).data = .player d := by
  simp only [landing]
  split_ifs with h
  · simp only [hd, hdead, ne_eq, not_true_eq_false, and_false, if_false]
  · exact hd

theorem checkCollision_dead_player (res : Resources) (a b : GameObject) (d : PlayerData)
    (ha : a.data = .player d) (hdead : d.state = .dead) :
    checkCollision res a b = (a, b) := by
  simp only [checkCollision]
  split_ifs
  · simp [collisionResponse, ha, hdead]
  · rfl

/-- The update of a dead player: the slot keeps a dead player, the layers and the
bullet list are as before. -/
theorem update_dead_player (state : SDLState) (res : Resources) (ctors : Ctors) (rnd : Int)
    (gs : GameState) (ref : ObjRef) (dt : ℚ) (a : GameObject) (d : PlayerData)
    (hget : gs.get ref = some a) (ha : a.data = .player d) (hdead : d.state = .dead) :
    (∃ a' d', (update state res ctors rnd gs ref dt).get ref = some a' ∧
        a'.data = .player d' ∧ d'.state = .dead) ∧
      (prePass state res ctors rnd gs ref a dt).bullets = gs.bullets := by
  have hd1 : (applyGravity (stepAnimation a dt) dt).data = .player d := by
    rw [preDispatch_data, ha]
  have hdis := dispatch_dead_player state res ctors rnd gs ref _ d dt hd1 hdead
  have hb : (prePass state res ctors rnd gs ref a dt).bullets = gs.bullets := by
    rw [prePass_bullets, hdis]
  have hpo : (prePass state res ctors rnd gs ref a dt).obj.data =
      .player { d with deathTimer := (d.deathTimer.step dt).1 } := by
    simp only [prePass, positionStep_data, velocityStep_data, hdis]
  have hrest := collisionPass_rest res gs ref (prePass state res ctors rnd gs ref a dt).obj
    (fun b => checkCollision_dead_player res _ b
      { d with deathTimer := (d.deathTimer.step dt).1 } hpo hdead)
  refine ⟨⟨_, { d with deathTimer := (d.deathTimer.step dt).1 }, update_get state res ctors rnd gs ref dt a hget (by rw [hb]), ?_, hdead⟩, hb⟩
  rw [hrest.1]
  exact landing_dead_player _ _ { d with deathTimer := (d.deathTimer.step dt).1 } hpo hdead

/-! ## C21: the decor lists -/

theorem get_decor (gs : GameState) (bg fg : List GameObject) (ref : ObjRef) :
    ({ gs with bgTiles := bg, fgTiles := fg } : GameState).get ref = gs.get ref := by
  cases ref <;> rfl

/-- C21: the decor lists `bgTiles` and `fgTiles` are not simulated. Running
`update` on a state whose decor lists were replaced by `bg` and `fg` gives the
result of `update` on the original state with the same replacement, so the
updated slot, the two layers, the bullet list and the keep-running flag do not
depend on the decor; and `update` returns both decor lists as it received
them. -/
theorem C21_decor_not_simulated (state : SDLState) (res : Resources) (ctors : Ctors)
    (rnd : Int) (gs : GameState) (ref : ObjRef) (dt : ℚ) (bg fg : List GameObject) :
    update state res ctors rnd { gs with bgTiles := bg, fgTiles := fg } ref dt =
        { update state res ctors rnd gs ref dt with bgTiles := bg, fgTiles := fg } ∧
      (update state res ctors rnd { gs with bgTiles := bg, fgTiles := fg } ref dt).get ref =
        (update state res ctors rnd gs ref dt).get ref ∧
      (update state res ctors rnd { gs with bgTiles := bg, fgTiles := fg } ref dt).level =
        (update state res ctors rnd gs ref dt).level ∧
      (update state res ctors rnd { gs with bgTiles := bg, fgTiles := fg } ref dt).characters =
        (update state res ctors rnd gs ref dt).characters ∧
      (update state res ctors rnd { gs with bgTiles := bg, fgTiles := fg } ref dt).bullets =
        (update state res ctors rnd gs ref dt).bullets ∧
      (update state res ctors rnd { gs with bgTiles := bg, fgTiles := fg } ref dt).running =
        (update state res ctors rnd gs ref dt).running ∧
      (update state res ctors rnd gs ref dt).bgTiles = gs.bgTiles ∧
      (update state res ctors rnd gs ref dt).fgTiles = gs.fgTiles := by
  have key : update state res ctors rnd { gs with bgTiles := bg, fgTiles := fg } ref dt =
      { update state res ctors rnd gs ref dt with bgTiles := bg, fgTiles := fg } := by
    simp only [update, get_decor]
    cases hget : gs.get ref with
    | none => rfl
    | some obj0 => cases ref <;> rfl
  have hdec : (update state res ctors rnd gs ref dt).bgTiles = gs.bgTiles ∧
      (update state res ctors rnd gs ref dt).fgTiles = gs.fgTiles := by
    simp only [update]
    cases hget : gs.get ref with
    | none => exact ⟨rfl, rfl⟩
    | some obj0 => cases ref <;> exact ⟨rfl, rfl⟩
  refine ⟨key, ?_, ?_, ?_, ?_, ?_, hdec⟩
  · rw [key]; cases ref <;> rfl
  · rw [key]
  · rw [key]
  · rw [key]
  · rw [key]

/-! ## C22: the keep-running flag -/

/-- C22: `update` changes the keep-running flag only to false, and only for a
dead player whose death timer, after this step, has timed out. For the object
`obj0` stored in the updated slot: when it is a dead player and its death timer
stepped by `dt` has timed out, the flag is false afterwards; in every other case
(a live player, a dead player whose timer has not timed out, an enemy, a bullet,
a level tile) the flag is the one the state had before. -/
theorem C22_running_flag (state : SDLState) (res : Resources) (ctors : Ctors) (rnd : Int)
    (gs : GameState) (ref : ObjRef) (dt : ℚ) (obj0 : GameObject)
    (hget : gs.get ref = some obj0) :
    ((∃ d, obj0.data = .player d ∧ d.state = .dead ∧
          (d.deathTimer.step dt).1.isTimeOut = true) →
        (update state res ctors rnd gs ref dt).running = false) ∧
      ((¬ ∃ d, obj0.data = .player d ∧ d.state = .dead ∧
          (d.deathTimer.step dt).1.isTimeOut = true) →
        (update state res ctors rnd gs ref dt).running = gs.running) := by
  rw [update_running state res ctors rnd gs ref dt obj0 hget, prePass_running]
  constructor
  · rintro ⟨d, hd, hdead, hto⟩
    rw [dispatch_dead_player state res ctors rnd gs ref _ d dt
      (by rw [preDispatch_data, hd]) hdead]
    simp only [hto, if_true]
  · intro hno
    rcases hdat : obj0.data with _ | pd | ed | bd
    · exact dispatch_other_running _ _ _ _ _ _ _ _
        (by simp [GameObject.type, preDispatch_data, hdat])
    · by_cases hdead : pd.state = .dead
      · rw [dispatch_dead_player state res ctors rnd gs ref _ pd dt
          (by rw [preDispatch_data, hdat]) hdead]
        have hto : ¬ (pd.deathTimer.step dt).1.isTimeOut = true :=
          fun h => hno ⟨pd, hdat, hdead, h⟩
        rw [if_neg hto]
      · exact dispatch_live_player_running _ _ _ _ _ _ _ pd _
          (by rw [preDispatch_data, hdat]) hdead
    · exact dispatch_other_running _ _ _ _ _ _ _ _
        (by simp [GameObject.type, preDispatch_data, hdat])
    · exact dispatch_other_running _ _ _ _ _ _ _ _
        (by simp [GameObject.type, preDispatch_data, hdat])

theorem C22_running_flag_witness :
    (sampleGame [] [samplePlayer .dead 0 0] []).get (.character 0) =
        some (samplePlayer .dead 0 0) ∧
      (update noKeys sampleRes sampleCtors 0 (sampleGame [] [samplePlayer .dead 0 0] [])
        (.character 0) 2).running = false :=
  ⟨rfl, (C22_running_flag noKeys sampleRes sampleCtors 0
      (sampleGame [] [samplePlayer .dead 0 0] []) (.character 0) 2 (samplePlayer .dead 0 0)
      rfl).1 ⟨_, rfl, rfl, by simp [Timer.step, Timer.isTimeOut, sampleTimer]⟩⟩

/-! ## C26: dead is absorbing -/

/-- C26: for the player, dead is absorbing. For a player `a` in state dead:
`update` of its slot leaves a player in state dead there and, when the slot is
in a layer, leaves the bullet list as it was (no bullet is spawned);
`collisionResponse` returns `a` unchanged when `a` is the first participant, and
unchanged when `a` is the second participant; `handleKeyInput` returns `a`
unchanged for every key and direction of the key event. -/
theorem C26_dead_is_absorbing (a : GameObject) (d : PlayerData) (ha : a.data = .player d)
    (hdead : d.state = .dead) :
    (∀ (state : SDLState) (res : Resources) (ctors : Ctors) (rnd : Int) (gs : GameState)
        (ref : ObjRef) (dt : ℚ), gs.get ref = some a →
        (∃ a' d', (update state res ctors rnd gs ref dt).get ref = some a' ∧
          a'.data = .player d' ∧ d'.state = .dead) ∧
        ((∀ i, ref ≠ .bullet i) → (update state res ctors rnd gs ref dt).bullets = gs.bullets)) ∧
      (∀ (res : Resources) (rectC : SDL_FRect) (b : GameObject),
        (collisionResponse res rectC a b).1 = a) ∧
      (∀ (res : Resources) (rectC : SDL_FRect) (b : GameObject),
        (collisionResponse res rectC b a).2 = a) ∧
      (∀ (key : SDL_Scancode) (keyDown : Bool), handleKeyInput a key keyDown = a) := by
  refine ⟨?_, ?_, ?_, ?_⟩
  · intro state res ctors rnd gs ref dt hget
    have h := update_dead_player state res ctors rnd gs ref dt a d hget ha hdead
    refine ⟨h.1, fun hlayer => ?_⟩
    rw [update_bullets_of_layer state res ctors rnd gs ref dt a hget hlayer, h.2]
  · intro res rectC b
    simp [collisionResponse, ha, hdead]
  · intro res rectC b
    exact collisionResponse_snd res rectC b a (by simp [GameObject.type, ha])
  · intro key keyDown
    simp [handleKeyInput, ha, hdead]

theorem C26_dead_is_absorbing_witness :
    (∃ a' d', (update fireKey sampleRes sampleCtors 0
          (sampleGame [] [samplePlayer .dead 0 0] []) (.character 0) (1 / 10)).get
            (.character 0) = some a' ∧ a'.data = .player d' ∧ d'.state = .dead) ∧
      (update fireKey sampleRes sampleCtors 0
          (sampleGame [] [samplePlayer .dead 0 0] []) (.character 0) (1 / 10)).bullets = [] ∧
      (collisionResponse sampleRes ⟨0, 0, 1, 1⟩ (sampleEnemy 2) (samplePlayer .dead 0 0)).2 =
        samplePlayer .dead 0 0 ∧
      handleKeyInput (samplePlayer .dead 0 0) .K true = samplePlayer .dead 0 0 :=
  ⟨((C26_dead_is_absorbing (samplePlayer .dead 0 0) _ rfl rfl).1 fireKey sampleRes sampleCtors 0
      (sampleGame [] [samplePlayer .dead 0 0] []) (.character 0) (1 / 10) rfl).1,
   ((C26_dead_is_absorbing (samplePlayer .dead 0 0) _ rfl rfl).1 fireKey sampleRes sampleCtors 0
      (sampleGame [] [samplePlayer .dead 0 0] []) (.character 0) (1 / 10) rfl).2
      (fun i h => by cases h),
   (C26_dead_is_absorbing (samplePlayer .dead 0 0) _ rfl rfl).2.2.1 sampleRes ⟨0, 0, 1, 1⟩
      (sampleEnemy 2),
   (C26_dead_is_absorbing (samplePlayer .dead 0 0) _ rfl rfl).2.2.2 .K true⟩

/-! ## C23: landing -/

theorem handleShooting_grounded (state : SDLState) (res : Resources) (ctors : Ctors)
    (rnd : Int) (gs : GameState) (ref : ObjRef) (obj : GameObject) :
    (handleShooting state res ctors rnd gs ref obj).1.grounded = obj.grounded := by
  simp only [handleShooting]
  split
  · split_ifs <;> rfl
  · rfl

theorem setPlayerState_grounded (obj : GameObject) (s : PlayerState) :
    (setPlayerState obj s).grounded = obj.grounded := by
  simp only [setPlayerState]
  split <;> rfl

theorem idleSlowDown_grounded (obj : GameObject) (dt : ℚ) :
    (idleSlowDown obj dt).grounded = obj.grounded := by
  simp only [idleSlowDown]
  split_ifs <;> rfl

theorem playerStateStep_grounded (state : SDLState) (res : Resources) (ctors : Ctors)
    (rnd : Int) (gs : GameState) (ref : ObjRef) (obj : GameObject) (s : PlayerState)
    (c dt : ℚ) :
    (playerStateStep state res ctors rnd gs ref obj s c dt).1.grounded = obj.grounded := by
  cases s with
  | dead => rfl
  | idle =>
    simp only [playerStateStep, handleShooting_grounded]
    split_ifs
    · exact setPlayerState_grounded _ _
    · exact idleSlowDown_grounded _ _
  | running =>
    simp only [playerStateStep]
    by_cases hc : c = 0
    · rw [if_pos hc]
      split_ifs <;>
        exact (handleShooting_grounded _ _ _ _ _ _ _).trans (setPlayerState_grounded _ _)
    · rw [if_neg hc]
      split_ifs <;> exact handleShooting_grounded _ _ _ _ _ _ _
  | jumping =>
    simp only [playerStateStep, handleShooting_grounded]

theorem updatePlayer_grounded (state : SDLState) (res : Resources) (ctors : Ctors)
    (rnd : Int) (gs : GameState) (ref : ObjRef) (obj : GameObject) (d : PlayerData) (dt : ℚ) :
    (updatePlayer state res ctors rnd gs ref obj d dt).obj.grounded = obj.grounded := by
  simp only [updatePlayer]
  by_cases hd : d.state ≠ .dead
  · rw [if_pos hd]
    simp only []
    split_ifs
    · exact (setPlayerState_grounded _ _).trans (playerStateStep_grounded _ _ _ _ _ _ _ _ _ _)
    · exact playerStateStep_grounded _ _ _ _ _ _ _ _ _ _
  · rw [if_neg hd]

theorem updateBullet_grounded (state : SDLState) (gs : GameState) (obj : GameObject)
    (d : BulletData) : (updateBullet state gs obj d).grounded = obj.grounded := by
  simp only [updateBullet]
  split <;> (try split_ifs) <;> rfl

theorem updateEnemy_grounded (obj : GameObject) (d : EnemyData) (dt : ℚ) :
    (updateEnemy obj d dt).grounded = obj.grounded := by
  simp only [updateEnemy]
  split <;> (try split_ifs) <;> rfl

theorem dispatch_grounded (state : SDLState) (res : Resources) (ctors : Ctors)
    (rnd : Int) (gs : GameState) (ref : ObjRef) (obj : GameObject) (dt : ℚ) :
    (dispatch state res ctors rnd gs ref obj dt).obj.grounded = obj.grounded := by
  simp only [dispatch]
  split
  · exact updatePlayer_grounded _ _ _ _ _ _ _ _ _
  · exact updateBullet_grounded _ _ _ _
  · exact updateEnemy_grounded _ _ _
  · rfl

theorem stepAnimation_grounded (o : GameObject) (dt : ℚ) :
    (stepAnimation o dt).grounded = o.grounded := by
  unfold stepAnimation
  split_ifs
  · split <;> rfl
  · rfl

theorem applyGravity_grounded (o : GameObject) (dt : ℚ) :
    (applyGravity o dt).grounded = o.grounded := by
  unfold applyGravity
  split_ifs <;> rfl

theorem velocityStep_grounded (o : GameObject) (c dt : ℚ) :
    (velocityStep o c dt).grounded = o.grounded := by
  simp only [velocityStep]
  split_ifs <;> rfl

theorem positionStep_grounded (o : GameObject) (dt : ℚ) :
    (positionStep o dt).grounded = o.grounded := rfl

theorem prePass_grounded (state : SDLState) (res : Resources) (ctors : Ctors) (rnd : Int)
    (gs : GameState) (ref : ObjRef) (obj0 : GameObject) (dt : ℚ) :
    (prePass state res ctors rnd gs ref obj0 dt).obj.grounded = obj0.grounded := by
  simp only [prePass]
  rw [positionStep_grounded, velocityStep_grounded, dispatch_grounded, applyGravity_grounded,
    stepAnimation_grounded]

theorem genericResponse_grounded (rectC : SDL_FRect) (a : GameObject) :
    (genericResponse rectC a).grounded = a.grounded := by
  simp only [genericResponse]
  split_ifs <;> rfl

theorem collisionResponse_grounded (res : Resources) (rectC : SDL_FRect) (a b : GameObject) :
    (collisionResponse res rectC a b).1.grounded = a.grounded := by
  have hg := genericResponse_grounded rectC a
  unfold collisionResponse
  split
  · split_ifs
    · split
      · exact hg
      · simp only []
        split_ifs <;> rfl
      · rfl
    · rfl
  · split
    · simp only []
      split_ifs
      · exact hg
      · rfl
    · rfl
  · split
    · split_ifs
      · exact hg
      · rfl
    · split_ifs
      · exact hg
      · rfl
    · rfl
  · rfl

theorem checkCollision_grounded (res : Resources) (a b : GameObject) :
    (checkCollision res a b).1.grounded = a.grounded := by
  simp only [checkCollision]
  split_ifs
  · exact collisionResponse_grounded res _ a b
  · rfl

theorem collisionPass_grounded (res : Resources) (gs : GameState) (ref : ObjRef)
    (obj : GameObject) : (collisionPass res gs ref obj).obj.grounded = obj.grounded :=
  collisionPass_invariant res gs ref (fun o => o.grounded = obj.grounded)
    (fun a b h => (checkCollision_grounded res a b).trans h) obj rfl

theorem collisionPass_type (res : Resources) (gs : GameState) (ref : ObjRef)
    (obj : GameObject) : (collisionPass res gs ref obj).obj.type = obj.type :=
  collisionPass_invariant res gs ref (fun o => o.type = obj.type)
    (fun a b h => (checkCollision_fst_type res a b).trans h) obj rfl

theorem landing_same (obj : GameObject) (fg : Bool) (h : obj.grounded = fg) :
    landing obj fg = obj := by
  simp only [landing, ne_eq, h, not_true_eq_false, if_false]

theorem landing_live_player (obj : GameObject) (d : PlayerData) (hd : obj.data = .player d)
    (hair : obj.grounded = false) (hlive : d.state ≠ .dead) :
    (landing obj true).data = .player { d with state := .running } := by
  simp only [landing, hair, ne_eq, Bool.false_eq_true, not_false_eq_true, if_true, hd, hlive,
    and_self]

/-- C23: landing. For the object `obj0` in the updated slot and the object `p`
the collision pass of `update` ends with: when `obj0` is a player that is not
grounded and the pass finds ground, `p` is a player and `update` returns it with
`grounded = true`, in state running when `p` is not dead (whatever its state
was) and with its state still dead when `p` is dead; and when the grounded flag
of `obj0` equals what the pass found, `update` stores `p` as it is, so the
landing rule alters nothing. -/
theorem C23_landing (state : SDLState) (res : Resources) (ctors : Ctors) (rnd : Int)
    (gs : GameState) (ref : ObjRef) (dt : ℚ) (obj0 : GameObject)
    (hget : gs.get ref = some obj0) :
    (obj0.type = .player → obj0.grounded = false →
      (collisionPass res gs ref (prePass state res ctors rnd gs ref obj0 dt).obj).foundGround
        = true →
      ∃ o dp, (update state res ctors rnd gs ref dt).get ref = some o ∧
        (collisionPass res gs ref (prePass state res ctors rnd gs ref obj0 dt).obj).obj.data
          = .player dp ∧
        o.grounded = true ∧
        (dp.state ≠ .dead → ∃ d', o.data = .player d' ∧ d'.state = .running) ∧
        (dp.state = .dead → o.data = .player dp)) ∧
    (obj0.grounded =
        (collisionPass res gs ref (prePass state res ctors rnd gs ref obj0 dt).obj).foundGround →
      (update state res ctors rnd gs ref dt).get ref =
        some (collisionPass res gs ref (prePass state res ctors rnd gs ref obj0 dt).obj).obj) := by
  have hup := update_get state res ctors rnd gs ref dt obj0 hget
    (prePass_length_ge _ _ _ _ _ _ _ _)
  have hgr : (collisionPass res gs ref (prePass state res ctors rnd gs ref obj0 dt).obj).obj.grounded
      = obj0.grounded := by
    rw [collisionPass_grounded, prePass_grounded]
  constructor
  · intro hp hair hfound
    have hty : (collisionPass res gs ref
        (prePass state res ctors rnd gs ref obj0 dt).obj).obj.type = .player := by
      rw [collisionPass_type, prePass_type, hp]
    rcases hdat : (collisionPass res gs ref
        (prePass state res ctors rnd gs ref obj0 dt).obj).obj.data with _ | dp | ed | bd
    · simp [GameObject.type, hdat] at hty
    · refine ⟨_, dp, hup, rfl, (landing_grounded _ _).trans hfound, ?_, ?_⟩
      · intro hlive
        rw [hfound]
        exact ⟨_, landing_live_player _ dp hdat (hgr.trans hair) hlive, rfl⟩
      · intro hdead
        exact landing_dead_player _ _ dp hdat hdead
    · simp [GameObject.type, hdat] at hty
    · simp [GameObject.type, hdat] at hty
  · intro hsame
    rw [hup, landing_same _ _ (hgr.trans hsame)]

theorem C23_landing_witness :
    ∃ o dp, (update noKeys sampleRes sampleCtors 0
          (sampleGame [ledgeTile, wallTile] [fallingPlayer] []) (.character 0) (1 / 100)).get
            (.character 0) = some o ∧
      (collisionPass sampleRes (sampleGame [ledgeTile, wallTile] [fallingPlayer] [])
        (.character 0)
        (prePass noKeys sampleRes sampleCtors 0
          (sampleGame [ledgeTile, wallTile] [fallingPlayer] []) (.character 0) fallingPlayer
          (1 / 100)).obj).obj.data = .player dp ∧
      o.grounded = true ∧
      (dp.state ≠ .dead → ∃ d', o.data = .player d' ∧ d'.state = .running) ∧
      (dp.state = .dead → o.data = .player dp) :=
  (C23_landing noKeys sampleRes sampleCtors 0
    (sampleGame [ledgeTile, wallTile] [fallingPlayer] []) (.character 0) (1 / 100)
    fallingPlayer rfl).1 rfl rfl (by rw [cx_prePass, cx_pass])

/-! ## C24: the spawned bullet -/

/-- The facing read through `gs.player()` is the facing of the updated object
when that object is the designated player. -/
theorem playerDir_self (gs : GameState) (i : Nat) (obj : GameObject)
    (hslot : i < gs.characters.length) (hidx : gs.playerIndex = (i : Int)) :
    playerDir gs (.character i) obj = obj.dir := by
  simp [playerDir, GameState.set, GameState.player, hidx, List.getElem?_set, hslot]

/-- C24: the bullet `handleShooting` spawns. For the designated player `obj`
(slot `i` of the character layer, `playerIndex = i`) with the fire key held, the
weapon cooldown elapsed, and `rnd` in `[0, 40)` the value `SDL_rand(40)`
returned: the bullet list becomes the old one with a new bullet stored, and that
bullet has type bullet, the facing of the player, horizontal velocity
`vel.x + 300 dir` of the player, vertical velocity in `[-20, 20)`, position
`x = pos.x + 24 (dir + 1) / 2` (offset 0 for facing -1, 24 for facing 1) and
`y = pos.y + 17`, and a square collider at offset (0, 0). The facing need not be
-1 or 1 for the formulas to hold. -/
theorem C24_spawned_bullet (state : SDLState) (res : Resources) (ctors : Ctors) (rnd : Int)
    (gs : GameState) (i : Nat) (obj : GameObject) (d : PlayerData)
    (hd : obj.data = .player d) (hJ : state.keys .J = true)
    (ht : d.weaponTimer.isTimeOut = true)
    (hslot : i < gs.characters.length) (hidx : gs.playerIndex = (i : Int))
    (hlo : 0 ≤ rnd) (hhi : rnd < 40) :
    ∃ nb, (handleShooting state res ctors rnd gs (.character i) obj).2 =
        storeBullet nb gs.bullets ∧
      nb.type = .bullet ∧
      nb.dir = obj.dir ∧
      nb.vel.x = obj.vel.x + 300 * obj.dir ∧
      -20 ≤ nb.vel.y ∧ nb.vel.y < 20 ∧
      nb.pos.x = obj.pos.x + 24 * (obj.dir + 1) / 2 ∧
      (obj.dir = -1 → nb.pos.x = obj.pos.x) ∧
      (obj.dir = 1 → nb.pos.x = obj.pos.x + 24) ∧
      nb.pos.y = obj.pos.y + 17 ∧
      nb.collider.x = 0 ∧ nb.collider.y = 0 ∧ nb.collider.w = nb.collider.h := by
  have hlo' : (0 : ℚ) ≤ (rnd : ℚ) := by exact_mod_cast hlo
  have hhi' : (rnd : ℚ) < 40 := by exact_mod_cast hhi
  refine ⟨newBullet res ctors rnd
    (playerDir gs (.character i)
      { obj with data := .player { d with weaponTimer := d.weaponTimer.reset } })
    { obj with data := .player { d with weaponTimer := d.weaponTimer.reset } }, ?_, ?_, ?_, ?_,
    ?_, ?_, ?_, ?_, ?_, ?_, rfl, rfl, rfl⟩
  · simp only [handleShooting, hd, hJ, ht, if_true]
  · rfl
  · rw [playerDir_self gs i _ hslot hidx]
    rfl
  · rfl
  · simp only [newBullet]
    linarith
  · simp only [newBullet]
    linarith
  · simp only [newBullet]
    ring
  · intro h
    simp only [newBullet, h]
    ring
  · intro h
    simp only [newBullet, h]
    ring
  · simp only [newBullet, TILE_SIZE]
    norm_num

theorem C24_spawned_bullet_witness :
    ∃ nb, (handleShooting fireKey sampleRes sampleCtors 7 (sampleGame [] [shooter] [])
          (.character 0) shooter).2 = storeBullet nb [] ∧
      nb.type = .bullet ∧
      nb.dir = 1 ∧
      nb.vel.x = 0 + 300 * 1 ∧
      -20 ≤ nb.vel.y ∧ nb.vel.y < 20 ∧
      nb.pos.x = 0 + 24 * (1 + 1) / 2 ∧
      ((1 : ℚ) = -1 → nb.pos.x = 0) ∧
      ((1 : ℚ) = 1 → nb.pos.x = 0 + 24) ∧
      nb.pos.y = 0 + 17 ∧
      nb.collider.x = 0 ∧ nb.collider.y = 0 ∧ nb.collider.w = nb.collider.h :=
  C24_spawned_bullet fireKey sampleRes sampleCtors 7 (sampleGame [] [shooter] []) 0 shooter
    { state := .idle, healthPoints := 3, weaponTimer := { length := 1 / 4, time := 1 },
      deathTimer := sampleTimer }
    rfl rfl (by simp [Timer.isTimeOut]; norm_num) (by decide) rfl (by decide) (by decide)

/-! ## C25: the routing of tile codes -/

theorem createObject_pos (state : SDLState) (ctors : Ctors) (r c : Int) (tex : Texture)
    (type : ObjectType) : (createObject state ctors r c tex type).pos = tilePos state r c := by
  simp only [createObject, tilePos, TILE_SIZE, MAP_ROWS, mul_comm]

theorem createObject_type (state : SDLState) (ctors : Ctors) (r c : Int) (tex : Texture)
    (type : ObjectType) : (createObject state ctors r c tex type).type = type := by
  cases type <;> rfl

theorem createEnemy_pos (state : SDLState) (res : Resources) (ctors : Ctors) (r c : Int) :
    (createEnemy state res ctors r c).pos = tilePos state r c :=
  createObject_pos state ctors r c res.texSpiny .enemy

theorem createPlayer_pos (state : SDLState) (res : Resources) (ctors : Ctors) (r c : Int) :
    (createPlayer state res ctors r c).pos = tilePos state r c :=
  createObject_pos state ctors r c res.texIdle .player

/-- One cell appends to each list what the routing table says. -/
theorem placeTile_view (state : SDLState) (res : Resources) (ctors : Ctors) (r c code : Int)
    (gs : GameState) (dest : TileDest) :
    tileView ((placeTile state res ctors r c code gs).list dest) =
      tileView (gs.list dest) ++ (tileFor state dest (r, c, code)).toList := by
  simp only [placeTile, tileFor, routeOf]
  split_ifs <;> subst_vars <;> cases dest <;>
    simp_all [GameState.list, tileView, createObject_pos, createObject_type, createEnemy_pos,
      createPlayer_pos, createEnemy_type, createPlayer_type]

theorem placeTile_bullets (state : SDLState) (res : Resources) (ctors : Ctors) (r c code : Int)
    (gs : GameState) : (placeTile state res ctors r c code gs).bullets = gs.bullets := by
  simp only [placeTile]
  split_ifs <;> rfl

theorem tilesFor_cons (state : SDLState) (dest : TileDest) (cell : Int × Int × Int)
    (cells : List (Int × Int × Int)) :
    tilesFor state dest (cell :: cells) =
      (tileFor state dest cell).toList ++ tilesFor state dest cells := by
  simp only [tilesFor, List.filterMap_cons]
  cases tileFor state dest cell <;> rfl

theorem tilesFor_append (state : SDLState) (dest : TileDest)
    (xs ys : List (Int × Int × Int)) :
    tilesFor state dest (xs ++ ys) = tilesFor state dest xs ++ tilesFor state dest ys := by
  simp only [tilesFor, List.filterMap_append]

theorem foldl_view (state : SDLState) (res : Resources) (ctors : Ctors) (layer : Grid)
    (dest : TileDest) :
    ∀ (cells : List (Fin 5 × Fin 50)) (gs : GameState),
      tileView ((cells.foldl
        (fun g rc => placeTile state res ctors (rc.1.val : Int) (rc.2.val : Int)
          (layer rc.1 rc.2) g) gs).list dest) =
      tileView (gs.list dest) ++ tilesFor state dest
        (cells.map fun rc => ((rc.1.val : Int), (rc.2.val : Int), layer rc.1 rc.2)) := by
  intro cells
  induction cells with
  | nil => intro gs; simp [tilesFor]
  | cons rc rest ih =>
    intro gs
    simp only [List.foldl_cons, List.map_cons]
    rw [ih, placeTile_view, tilesFor_cons, List.append_assoc]

theorem foldl_bullets (state : SDLState) (res : Resources) (ctors : Ctors) (layer : Grid) :
    ∀ (cells : List (Fin 5 × Fin 50)) (gs : GameState),
      (cells.foldl
        (fun g rc => placeTile state res ctors (rc.1.val : Int) (rc.2.val : Int)
          (layer rc.1 rc.2) g) gs).bullets = gs.bullets := by
  intro cells
  induction cells with
  | nil => intro gs; rfl
  | cons rc rest ih =>
    intro gs
    simp only [List.foldl_cons]
    rw [ih, placeTile_bullets]

/-- Loading a grid appends to each list what the routing table says for the
cells of the grid, in load order. -/
theorem loadMap_view (state : SDLState) (res : Resources) (ctors : Ctors) (layer : Grid)
    (gs : GameState) (dest : TileDest) :
    tileView ((loadMap state res ctors layer gs).list dest) =
      tileView (gs.list dest) ++ tilesFor state dest (codedCells layer) :=
  foldl_view state res ctors layer dest gridCells gs

theorem loadMap_bullets (state : SDLState) (res : Resources) (ctors : Ctors) (layer : Grid)
    (gs : GameState) : (loadMap state res ctors layer gs).bullets = gs.bullets :=
  foldl_bullets state res ctors layer gridCells gs

/-- A cell gives one entity in all when its code is in 1..7 and none otherwise. -/
theorem tileFor_count (state : SDLState) (cell : Int × Int × Int) :
    (tileFor state .level cell).toList.length + (tileFor state .characters cell).toList.length +
      (tileFor state .fgTiles cell).toList.length + (tileFor state .bgTiles cell).toList.length =
    if 1 ≤ cell.2.2 ∧ cell.2.2 ≤ 7 then 1 else 0 := by
  obtain ⟨r, c, code⟩ := cell
  simp only [tileFor, routeOf]
  by_cases h1 : code = 1
  · subst h1; simp
  by_cases h2 : code = 2
  · subst h2; simp
  by_cases h3 : code = 3
  · subst h3; simp
  by_cases h4 : code = 4
  · subst h4; simp
  by_cases h5 : code = 5
  · subst h5; simp
  by_cases h6 : code = 6
  · subst h6; simp
  by_cases h7 : code = 7
  · subst h7; simp
  have hout : ¬ (1 ≤ code ∧ code ≤ 7) := by omega
  simp [h1, h2, h3, h4, h5, h6, h7, hout]

theorem tilesFor_count (state : SDLState) (cells : List (Int × Int × Int)) :
    (tilesFor state .level cells).length + (tilesFor state .characters cells).length +
      (tilesFor state .fgTiles cells).length + (tilesFor state .bgTiles cells).length =
    (cells.filter fun x => decide (1 ≤ x.2.2 ∧ x.2.2 ≤ 7)).length := by
  induction cells with
  | nil => rfl
  | cons cell rest ih =>
    have hc := tileFor_count state cell
    simp only [tilesFor_cons, List.length_append, List.filter_cons]
    by_cases hin : 1 ≤ cell.2.2 ∧ cell.2.2 ≤ 7
    · rw [if_pos hin] at hc
      simp only [hin, and_self, decide_True, if_true, List.length_cons]
      omega
    · rw [if_neg hin] at hc
      simp only [hin, decide_False, Bool.false_eq_true, if_false]
      omega

theorem tileView_length (l : List GameObject) : (tileView l).length = l.length := by
  simp [tileView]

/-- The three `loadMap` calls leave `playerIndex` at -1 exactly when no cell of
the grids carries code 4. -/
theorem loaded_index (state : SDLState) (res : Resources) (ctors : Ctors)
    (map background foreground : Grid) (gs : GameState) (hfresh : gs.playerIndex = -1) :
    (loadMap state res ctors foreground
      (loadMap state res ctors background (loadMap state res ctors map gs))).playerIndex = -1 ↔
      ∀ r c, map r c ≠ 4 ∧ background r c ≠ 4 ∧ foreground r c ≠ 4 := by
  rw [← rosterOf_snd, createTiles_roster, rosterLoad_index, rosterLoad_index, rosterLoad_index]
  simp only [rosterOf, hfresh, true_and]
  constructor
  · rintro ⟨⟨h1, h2⟩, h3⟩ r c
    exact ⟨h1 r c, h2 r c, h3 r c⟩
  · intro h
    exact ⟨⟨fun r c => (h r c).1, fun r c => (h r c).2.1⟩, fun r c => (h r c).2.2⟩

/-- C25: the routing of tile codes by `createTiles`, generalised over the three
grids and started from the empty game state of the constructor. When some cell
carries code 4 (the assertion passes) `createTiles` returns the state the three
`loadMap` calls leave. In that state, for each of the four lists (level layer,
character layer, foreground decor, background decor), the types and positions of
its entities are exactly what the routing table gives for the cells of the map,
then the background grid, then the foreground grid, in load order: codes 1, 2
and 5 put a level tile into the level layer, code 3 an enemy and code 4 a player
into the character layer, code 6 a level tile into the foreground decor list,
code 7 one into the background decor list, each at `(32 c, logH - 32 (5 - r))`,
whichever grid the cell is in; the four lists together hold one entity per cell
with a code in 1..7 and nothing else; and the bullet list stays empty. -/
theorem C25_tile_routing (state : SDLState) (res : Resources) (ctors : Ctors)
    (map background foreground : Grid) :
    ((∃ r c, map r c = 4 ∨ background r c = 4 ∨ foreground r c = 4) →
      createTiles state res ctors map background foreground (GameState.init state) =
        some (loadMap state res ctors foreground (loadMap state res ctors background
          (loadMap state res ctors map (GameState.init state))))) ∧
    (∀ dest : TileDest,
      tileView ((loadMap state res ctors foreground (loadMap state res ctors background
          (loadMap state res ctors map (GameState.init state)))).list dest) =
        tilesFor state dest
          (codedCells map ++ codedCells background ++ codedCells foreground)) ∧
    (([TileDest.level, TileDest.characters, TileDest.fgTiles, TileDest.bgTiles].map fun dest =>
        ((loadMap state res ctors foreground (loadMap state res ctors background
          (loadMap state res ctors map (GameState.init state)))).list dest).length).sum =
      ((codedCells map ++ codedCells background ++ codedCells foreground).filter
        fun x => decide (1 ≤ x.2.2 ∧ x.2.2 ≤ 7)).length) ∧
    (loadMap state res ctors foreground (loadMap state res ctors background
      (loadMap state res ctors map (GameState.init state)))).bullets = [] := by
  have hview : ∀ dest : TileDest,
      tileView ((loadMap state res ctors foreground (loadMap state res ctors background
          (loadMap state res ctors map (GameState.init state)))).list dest) =
        tilesFor state dest
          (codedCells map ++ codedCells background ++ codedCells foreground) := by
    intro dest
    rw [loadMap_view, loadMap_view, loadMap_view, tilesFor_append, tilesFor_append]
    cases dest <;> simp [GameState.list, GameState.init, tileView]
  refine ⟨?_, hview, ?_, ?_⟩
  · rintro ⟨r, c, h4⟩
    have hne : (loadMap state res ctors foreground (loadMap state res ctors background
        (loadMap state res ctors map (GameState.init state)))).playerIndex ≠ -1 := by
      intro hcon
      have hall := (loaded_index state res ctors map background foreground
        (GameState.init state) rfl).mp hcon r c
      rcases h4 with h | h | h
      · exact hall.1 h
      · exact hall.2.1 h
      · exact hall.2.2 h
    simp only [createTiles]
    rw [if_pos hne]
  · rw [← tilesFor_count state]
    simp only [List.map_cons, List.map_nil, List.sum_cons, List.sum_nil, add_zero]
    rw [← tileView_length, ← tileView_length (GameState.list _ TileDest.characters),
      ← tileView_length (GameState.list _ TileDest.fgTiles),
      ← tileView_length (GameState.list _ TileDest.bgTiles),
      hview, hview, hview, hview]
    omega
  · rw [loadMap_bullets, loadMap_bullets, loadMap_bullets]
    rfl

/-! ## C27, C29: key input and contact damage -/

/-- C27: `handleKeyInput` changes the player only on a jump-key press from idle
or running. For a player in state idle or running, the key `K` with `keyDown =
true` sets the state to jumping and adds -350 to `vel.y`, every other field
staying as it was; in every other case (state jumping or dead, a key release,
another key, or an object that is not a player) the object is unchanged. -/
theorem C27_jump_only_from_ground_states (obj : GameObject) (key : SDL_Scancode)
    (keyDown : Bool) :
    (∀ d, obj.data = .player d → (d.state = .idle ∨ d.state = .running) →
      key = .K → keyDown = true →
      handleKeyInput obj key keyDown =
        { obj with data := .player { d with state := .jumping },
                   vel := { obj.vel with y := obj.vel.y + (-350) } }) ∧
    ((¬ ∃ d, obj.data = .player d ∧ (d.state = .idle ∨ d.state = .running) ∧
        key = .K ∧ keyDown = true) →
      handleKeyInput obj key keyDown = obj) := by
  constructor
  · intro d hd hs hk hdown
    rcases hs with hs | hs <;> simp [handleKeyInput, hd, hs, hk, hdown]
  · intro hno
    rcases hA : obj.data with _ | d | ed | bd
    · simp [handleKeyInput, hA]
    · cases hs : d.state
      · have hn : ¬ (key = .K ∧ keyDown = true) := fun h =>
          hno ⟨d, hA, Or.inl hs, h.1, h.2⟩
        simp only [handleKeyInput, hA, hs]
        rw [if_neg hn]
      · have hn : ¬ (key = .K ∧ keyDown = true) := fun h =>
          hno ⟨d, hA, Or.inr hs, h.1, h.2⟩
        simp only [handleKeyInput, hA, hs]
        rw [if_neg hn]
      · simp [handleKeyInput, hA, hs]
      · simp [handleKeyInput, hA, hs]
    · simp [handleKeyInput, hA]
    · simp [handleKeyInput, hA]

/-- C29: the contact damage of the player does not depend on the state of the
enemy. For a live player `a` and an enemy `b` in any state, dead included,
`collisionResponse(a, b)` lowers the health of `a` by 1, makes `a` dead when the
new health is 0 or less and keeps its state otherwise, and leaves `b`
unchanged. -/
theorem C29_damage_from_any_enemy (res : Resources) (rectC : SDL_FRect) (a b : GameObject)
    (d : PlayerData) (db : EnemyData) (ha : a.data = .player d) (hlive : d.state ≠ .dead)
    (hb : b.data = .enemy db) :
    (∃ d', (collisionResponse res rectC a b).1.data = .player d' ∧
      d'.healthPoints = d.healthPoints - 1 ∧
      (d'.healthPoints ≤ 0 → d'.state = .dead) ∧
      (0 < d'.healthPoints → d'.state = d.state)) ∧
    (collisionResponse res rectC a b).2 = b := by
  have hbt : b.type = .enemy := by simp [GameObject.type, hb]
  by_cases h : d.healthPoints - 1 ≤ 0
  · have e : collisionResponse res rectC a b =
        ({ a with data := .player { d with healthPoints := d.healthPoints - 1, state := .dead },
                  texture := some res.texDie,
                  curAnimation := ANIM_PLAYER_DIE,
                  vel := { x := 0, y := -350 } }, b) := by
      simp [collisionResponse, ha, hlive, hbt, h]
    rw [e]
    exact ⟨⟨_, rfl, rfl, fun _ => rfl, fun hpos => absurd h (not_le.mpr hpos)⟩, rfl⟩
  · have e : collisionResponse res rectC a b =
        ({ a with data := .player { d with healthPoints := d.healthPoints - 1 } }, b) := by
      simp [collisionResponse, ha, hlive, hbt, h]
    rw [e]
    exact ⟨⟨_, rfl, rfl, fun hle => absurd hle h, fun _ => rfl⟩, rfl⟩

theorem C29_damage_from_any_enemy_witness :
    (∃ d', (collisionResponse sampleRes ⟨2, 1, 5, 5⟩ (samplePlayer .running 1 40)
        { sampleEnemy 0 with
            data := .enemy { state := .dead, healthPoints := 0, damagedTimer := sampleTimer } }
        ).1.data = .player d' ∧
      d'.healthPoints = 1 - 1 ∧ (d'.healthPoints ≤ 0 → d'.state = .dead) ∧
      (0 < d'.healthPoints → d'.state = .running)) ∧
    (collisionResponse sampleRes ⟨2, 1, 5, 5⟩ (samplePlayer .running 1 40)
        { sampleEnemy 0 with
            data := .enemy { state := .dead, healthPoints := 0, damagedTimer := sampleTimer } }
        ).2 =
      { sampleEnemy 0 with
          data := .enemy { state := .dead, healthPoints := 0, damagedTimer := sampleTimer } } :=
  C29_damage_from_any_enemy sampleRes ⟨2, 1, 5, 5⟩ (samplePlayer .running 1 40) _ _ _ rfl
    (by simp) rfl

theorem C27_jump_only_from_ground_states_witness :
    handleKeyInput (samplePlayer .idle 3 0) .K true =
      { samplePlayer .idle 3 0 with
          data := .player { state := .jumping, healthPoints := 3, weaponTimer := sampleTimer,
                            deathTimer := sampleTimer },
          vel := { x := 0, y := 0 + (-350) } } :=
  (C27_jump_only_from_ground_states (samplePlayer .idle 3 0) .K true).1 _ rfl (Or.inl rfl) rfl rfl

/-! ## C28: the clamp without input direction -/

/-- The collision response never raises the horizontal speed of its first
object. -/
theorem collisionResponse_abs_le (res : Resources) (rectC : SDL_FRect) (a b : GameObject) :
    |(collisionResponse res rectC a b).1.vel.x| ≤ |a.vel.x| := by
  have hg := (genericResponse_speed rectC a).2
  unfold collisionResponse
  split
  · split_ifs
    · split
      · exact hg
      · simp only []
        split_ifs
        · simp
        · exact le_refl _
      · exact le_refl _
    · exact le_refl _
  · split
    · simp only []
      split_ifs
      · simp [bulletImpact]
      · exact le_refl _
    · exact le_refl _
  · split
    · split_ifs
      · exact hg
      · exact le_refl _
    · split_ifs
      · exact hg
      · exact le_refl _
    · exact le_refl _
  · exact le_refl _

theorem checkCollision_still (res : Resources) (a b : GameObject) (h : a.vel.x = 0) :
    (checkCollision res a b).1.vel.x = 0 := by
  simp only [checkCollision]
  split_ifs
  · have hle := collisionResponse_abs_le res
      (SDL_GetRectIntersectionFloat (colliderRect a) (colliderRect b)).2 a b
    rw [h, abs_zero] at hle
    exact abs_eq_zero.mp (le_antisymm hle (abs_nonneg _))
  · exact h

theorem inputDirection_balanced (state : SDLState) (h : state.keys .A = state.keys .D) :
    inputDirection state = 0 := by
  simp only [inputDirection, h]
  split_ifs <;> norm_num

theorem dispatch_direction_zero (state : SDLState) (res : Resources) (ctors : Ctors)
    (rnd : Int) (gs : GameState) (ref : ObjRef) (obj : GameObject) (dt : ℚ)
    (h : obj.type ≠ .player ∨ state.keys .A = state.keys .D) :
    (dispatch state res ctors rnd gs ref obj dt).currentDirection = 0 := by
  rcases hd : obj.data with _ | pd | ed | bd
  · simp only [dispatch, hd]
  · rcases h with h | h
    · simp [GameObject.type, hd] at h
    · simp only [dispatch, hd, updatePlayer]
      by_cases hdead : pd.state ≠ .dead
      · rw [if_pos hdead]
        exact inputDirection_balanced state h
      · rw [if_neg hdead]
  · simp only [dispatch, hd]
  · simp only [dispatch, hd]

/-- C28: an entity with no input direction is stopped by the clamp. For the
object `obj0` in the updated slot that is not a player, or with the left and
right keys both held or both released: the input direction of `update` is 0;
when the horizontal speed right before the velocity step exceeds `maxSpeedX`,
the velocity step sets `vel.x` to exactly 0; and `vel.x` is 0 for the updated
entity when `update` returns. -/
theorem C28_clamp_stops_without_input (state : SDLState) (res : Resources) (ctors : Ctors)
    (rnd : Int) (gs : GameState) (ref : ObjRef) (dt : ℚ) (obj0 : GameObject)
    (hget : gs.get ref = some obj0)
    (hdir : obj0.type ≠ .player ∨ state.keys .A = state.keys .D)
    (hover : |(beforeVelocity state res ctors rnd gs ref obj0 dt).obj.vel.x| >
      (beforeVelocity state res ctors rnd gs ref obj0 dt).obj.maxSpeedX) :
    (beforeVelocity state res ctors rnd gs ref obj0 dt).currentDirection = 0 ∧
    (velocityStep (beforeVelocity state res ctors rnd gs ref obj0 dt).obj
      (beforeVelocity state res ctors rnd gs ref obj0 dt).currentDirection dt).vel.x = 0 ∧
    ∃ o, (update state res ctors rnd gs ref dt).get ref = some o ∧ o.vel.x = 0 := by
  have hty : (applyGravity (stepAnimation obj0 dt) dt).type = obj0.type :=
    type_eq_of_data_eq (preDispatch_data obj0 dt)
  have hz : (beforeVelocity state res ctors rnd gs ref obj0 dt).currentDirection = 0 :=
    dispatch_direction_zero state res ctors rnd gs ref _ dt (by rw [hty]; exact hdir)
  have hv : (velocityStep (beforeVelocity state res ctors rnd gs ref obj0 dt).obj
      (beforeVelocity state res ctors rnd gs ref obj0 dt).currentDirection dt).vel.x = 0 := by
    rw [hz, velocityStep_vel_x]
    simp only [zero_mul, add_zero]
    rw [if_pos hover]
  refine ⟨hz, hv, ?_⟩
  have hpre : (prePass state res ctors rnd gs ref obj0 dt).obj.vel.x = 0 := hv
  have hpass := collisionPass_invariant res gs ref (fun o => o.vel.x = 0)
    (fun a b h => checkCollision_still res a b h) _ hpre
  refine ⟨_, update_get state res ctors rnd gs ref dt obj0 hget (prePass_length_ge _ _ _ _ _ _ _ _),
    ?_⟩
  rw [(landing_speed _ _).2]
  exact hpass

theorem nudged_before (dt : ℚ) :
    (beforeVelocity noKeys sampleRes sampleCtors 0 (sampleGame [] [nudgedEnemy] [])
      (.character 0) nudgedEnemy dt).obj.vel.x = -125 ∧
    (beforeVelocity noKeys sampleRes sampleCtors 0 (sampleGame [] [nudgedEnemy] [])
      (.character 0) nudgedEnemy dt).obj.maxSpeedX = 100 := by
  constructor
  · have hd : (applyGravity (stepAnimation nudgedEnemy dt) dt).data =
        .enemy { state := .idle, healthPoints := 1, damagedTimer := sampleTimer } := by
      rw [preDispatch_data]
      rfl
    simp only [beforeVelocity, dispatch, hd, updateEnemy]
    rw [applyGravity_vel_x, stepAnimation_vel]
    rfl
  · rw [beforeVelocity, dispatch_maxSpeedX, applyGravity_maxSpeedX, stepAnimation_maxSpeedX]
    rfl

theorem C28_clamp_stops_without_input_witness :
    ∃ o, (update noKeys sampleRes sampleCtors 0 (sampleGame [] [nudgedEnemy] [])
        (.character 0) (1 / 10)).get (.character 0) = some o ∧ o.vel.x = 0 :=
  (C28_clamp_stops_without_input noKeys sampleRes sampleCtors 0
    (sampleGame [] [nudgedEnemy] []) (.character 0) (1 / 10) nudgedEnemy rfl
    (Or.inl (by simp [GameObject.type, nudgedEnemy, sampleEnemy]))
    (by rw [(nudged_before (1 / 10)).1, (nudged_before (1 / 10)).2]; norm_num)).2.2

end Platformer
